import Mathlib

/-!
# Cluster-group deployment orchestration (banzaicloud pipeline)

A shallow embedding of

* `internal/clustergroup/errors.go` (the error taxonomy),
* `internal/clustergroup/manager.go` (group membership service),
* `internal/clustergroup/deployment/manager.go` (deployment orchestrator),
* `internal/clustergroup/api/clustergroup.go` (validation of the API requests),
* `api/clustergroup/deployment/create.go` (the choice of the release name),

followed by theorems about the embedded functions.

## Modelling conventions

* Go `uint` identifiers are `Nat`; Go `string` and `[]byte` are `String`
  (`len` of a Go string is the UTF-8 byte size); a nil `[]byte` is `none`.
* A Go `error` return is `Option GoError` (`none` is `nil`); a `(T, error)`
  return is `Except GoError T` when the value is only used on success.
* A Go `map[uint]api.Cluster` is an association list; `range` visits it in
  list order, which stands for the (unspecified) iteration order of one run.
* External collaborators (cluster getter, Helm client, Tiller, repositories,
  `encoding/json`) are the fields of `Env`: arbitrary functions of an abstract
  external state `σ`.  Every theorem quantifies over all of them.
* A fan-out `go func() {...}` / `<-statusChan` join is embedded as: the
  goroutine bodies run one after the other in dispatch order, each sending one
  status; the join receives `deploymentCount` statuses and blocks for ever when
  fewer were sent (`Outcome.blocked`).
* A name that is sliced by byte index (`GenerateReleaseName`) is held as the
  list of its bytes.
* Logging calls are dropped.  The manager methods that reach out to a member
  cluster leave an `Event` in the trace of the `World`.
-/

namespace Pipeline

/-! ## Outcomes of a Go call -/

/-- How a call of a Go function ends: it returns a value, it panics (a nil
pointer dereference), or it waits for ever on a channel receive. -/
inductive Outcome (α : Type) where
  | returned (a : α)
  | panicked
  | blocked
deriving DecidableEq, Repr

deriving instance DecidableEq for Except

/-! ## Persistence models used by the errors (`model.go`, fields as used in `manager.go`) -/

/-- Row of the member table: `MemberClusterModel`. -/
structure MemberClusterModel where
  ID : Nat := 0
  ClusterGroupID : Nat := 0
  ClusterID : Nat := 0
deriving DecidableEq, Repr

/-- Row of the feature table: `ClusterGroupFeatureModel`. -/
structure ClusterGroupFeatureModel where
  ID : Nat := 0
  Name : String := ""
  ClusterGroupID : Nat := 0
  Enabled : Bool := false
deriving DecidableEq, Repr

/-- Row of the group table: `ClusterGroupModel`. -/
structure ClusterGroupModel where
  ID : Nat := 0
  UID : String := ""
  Name : String := ""
  OrganizationID : Nat := 0
  Members : List MemberClusterModel := []
  FeatureParams : List ClusterGroupFeatureModel := []
deriving DecidableEq, Repr

/-! ## Error taxonomy (`errors.go`) -/

/-- Go error values.  The typed errors are the structs of `errors.go`;
`foreign` is an error made by `errors.New`, `fmt.Errorf` or a collaborator;
`withStack` is `errors.WithStack`, `withMessage` is `emperror.Wrap`,
`emperror.WrapWith` and `errors.Wrap`. -/
inductive GoError where
  | foreign (msg : String)
  | unknownFeature (name : String)
  | clusterGroupNotFound (clusterGroup : ClusterGroupModel)
  | clusterGroupAlreadyExists (clusterGroup : ClusterGroupModel)
  | memberClusterNotFound (orgID clusterID : Nat)
  | deploymentNotFound (clusterGroupID : Nat) (deploymentName : String)
  | recordNotFound
  | featureRecordNotFound
  | clusterGroupUpdateRejected (featureName : String)
  | noReadyMembers (clusterGroup : ClusterGroupModel)
  | memberClusterPartOfAClusterGroup (orgID clusterID : Nat)
  | withStack (cause : GoError)
  | withMessage (cause : GoError) (msg : String)
deriving DecidableEq, Repr

namespace GoError

/-- The `Error()` method of every error type. -/
def Error : GoError → String
  | foreign msg => msg
  | unknownFeature _ => "unknown feature"
  | clusterGroupNotFound _ => "cluster group not found"
  | clusterGroupAlreadyExists _ => "cluster group already exists with this name"
  | memberClusterNotFound _ _ => "member cluster not found"
  | deploymentNotFound _ _ => "deployment not found"
  | recordNotFound => "record not found"
  | featureRecordNotFound => "feature not found"
  | clusterGroupUpdateRejected _ => "update rejected by feature handler"
  | noReadyMembers _ => "no ready cluster members found"
  | memberClusterPartOfAClusterGroup _ _ => "member cluster is already part of a cluster group"
  | withStack cause => cause.Error
  | withMessage cause msg => msg ++ ": " ++ cause.Error

/-- The root cause of a non-nil error: `errors.Cause`. -/
def rootCause : GoError → GoError
  | withStack cause => cause.rootCause
  | withMessage cause _ => cause.rootCause
  | e => e

end GoError

/-- Function `errors.Cause` on a possibly nil error. -/
def Cause (err : Option GoError) : Option GoError :=
  err.map GoError.rootCause

/-- IsUnknownFeatureError as written in `errors.go`: the type assertion is on
`*clusterGroupNotFoundError`. -/
def IsUnknownFeatureError (err : Option GoError) : Bool :=
  match Cause err with
  | some (.clusterGroupNotFound _) => true
  | _ => false

/-- IsClusterGroupNotFoundError of `errors.go`. -/
def IsClusterGroupNotFoundError (err : Option GoError) : Bool :=
  match Cause err with
  | some (.clusterGroupNotFound _) => true
  | _ => false

/-- IsClusterGroupAlreadyExistsError of `errors.go`. -/
def IsClusterGroupAlreadyExistsError (err : Option GoError) : Bool :=
  match Cause err with
  | some (.clusterGroupAlreadyExists _) => true
  | _ => false

/-- IsMemberClusterNotFoundError of `errors.go`: the asserted error and `ok`. -/
def IsMemberClusterNotFoundError (err : Option GoError) : Option GoError × Bool :=
  match Cause err with
  | some (.memberClusterNotFound orgID clusterID) =>
      (some (.memberClusterNotFound orgID clusterID), true)
  | _ => (none, false)

/-- IsDeploymentNotFoundError of `errors.go`. -/
def IsDeploymentNotFoundError (err : Option GoError) : Bool :=
  match Cause err with
  | some (.deploymentNotFound _ _) => true
  | _ => false

/-- IsRecordNotFoundError of `errors.go`. -/
def IsRecordNotFoundError (err : Option GoError) : Bool :=
  match Cause err with
  | some .recordNotFound => true
  | _ => false

/-- IsFeatureRecordNotFoundError of `errors.go`. -/
def IsFeatureRecordNotFoundError (err : Option GoError) : Bool :=
  match Cause err with
  | some .featureRecordNotFound => true
  | _ => false

/-- IsClusterGroupUpdateRejectedError of `errors.go`: the asserted error and `ok`. -/
def IsClusterGroupUpdateRejectedError (err : Option GoError) : Option GoError × Bool :=
  match Cause err with
  | some (.clusterGroupUpdateRejected featureName) =>
      (some (.clusterGroupUpdateRejected featureName), true)
  | _ => (none, false)

/-- IsNoReadyMembersError of `errors.go`. -/
def IsNoReadyMembersError (err : Option GoError) : Bool :=
  match Cause err with
  | some (.noReadyMembers _) => true
  | _ => false

/-- IsMemberClusterPartOfAClusterGroupError of `errors.go`: the asserted error and `ok`. -/
def IsMemberClusterPartOfAClusterGroupError (err : Option GoError) : Option GoError × Bool :=
  match Cause err with
  | some (.memberClusterPartOfAClusterGroup orgID clusterID) =>
      (some (.memberClusterPartOfAClusterGroup orgID clusterID), true)
  | _ => (none, false)

/-! ## Data model of the deployment orchestrator -/

/-- A value of Go type `interface{}` inside a parameter document. -/
inductive JSONValue where
  | null
  | bool (b : Bool)
  | number (literal : String)
  | string (s : String)
  | array (items : List JSONValue)
  | object (fields : List (String × JSONValue))

/-- A parameter document: Go `map[string]interface{}`. -/
abbrev Document := List (String × JSONValue)

/-- A resolved member cluster: the `api.Cluster` interface, each method given
by the value it returns (`GetID`, `GetName`, `GetCloud`, `GetDistribution`,
`GetK8sConfig`, `IsReady`, `GetStatus`). -/
structure Cluster where
  ID : Nat
  Name : String
  Cloud : String := ""
  Distribution : String := ""
  GetK8sConfig : Except GoError String := .ok ""
  IsReady : Bool × Option GoError := (true, none)
  GetStatus : Except GoError String := .ok ""
deriving DecidableEq, Repr

/-- Chart metadata of `k8s.io/helm/pkg/proto/hapi/chart`. -/
structure ChartMetadata where
  Name : String := ""
  Version : String := ""
  Description : String := ""
deriving DecidableEq, Repr

/-- A chart of `k8s.io/helm/pkg/proto/hapi/chart`. -/
structure Chart where
  Metadata : ChartMetadata := {}
deriving DecidableEq, Repr

/-- The `Status_Code` enumeration of `k8s.io/helm/pkg/proto/hapi/release`. -/
inductive Status_Code where
  | UNKNOWN
  | DEPLOYED
  | DELETED
  | SUPERSEDED
  | FAILED
  | DELETING
  | PENDING_INSTALL
  | PENDING_UPGRADE
  | PENDING_ROLLBACK
deriving DecidableEq, Repr

/-- The `String()` method of `Status_Code`: the name of the enumerator. -/
def Status_Code.String : Status_Code → String
  | UNKNOWN => "UNKNOWN"
  | DEPLOYED => "DEPLOYED"
  | DELETED => "DELETED"
  | SUPERSEDED => "SUPERSEDED"
  | FAILED => "FAILED"
  | DELETING => "DELETING"
  | PENDING_INSTALL => "PENDING_INSTALL"
  | PENDING_UPGRADE => "PENDING_UPGRADE"
  | PENDING_ROLLBACK => "PENDING_ROLLBACK"

/-- The `Status` message of an installed release. -/
structure ReleaseStatus where
  Code : Status_Code := .DEPLOYED
deriving DecidableEq, Repr

/-- The `Info` message of an installed release. -/
structure ReleaseInfo where
  Status : ReleaseStatus := {}
deriving DecidableEq, Repr

/-- The `Config` message of an installed release: the applied values, raw. -/
structure ReleaseConfig where
  Raw : String := ""
deriving DecidableEq, Repr

/-- An installed release as listed by Tiller (`hapi_release5.Release`). -/
structure Release where
  Name : String
  Info : ReleaseInfo := {}
  Chart : Chart := {}
  Config : ReleaseConfig := {}
deriving DecidableEq, Repr

/-- Per-member live status: `TargetClusterStatus`. -/
structure TargetClusterStatus where
  ClusterId : Nat := 0
  ClusterName : String := ""
  Cloud : String := ""
  Distribution : String := ""
  Status : String := ""
  Stale : Bool := false
  Version : String := ""
deriving DecidableEq, Repr

/-- The desired deployment as handed to the per-member operations:
`DeploymentInfo`. -/
structure DeploymentInfo where
  ReleaseName : String := ""
  Chart : String := ""
  ChartName : String := ""
  Description : String := ""
  ChartVersion : String := ""
  Namespace : String := ""
  CreatedAt : Nat := 0
  UpdatedAt : Nat := 0
  Values : Document := []
  ValueOverrides : List (String × Document) := []
  TargetClusters : List TargetClusterStatus := []

/-- A create or update request: `ClusterGroupDeployment`. -/
structure ClusterGroupDeployment where
  Name : String := ""
  Version : String := ""
  Package : String := ""
  ReleaseName : String := ""
  Namespace : String := ""
  ReUseValues : Bool := false
  DryRun : Bool := false
  Values : Document := []
  ValueOverrides : List (String × Document) := []

/-- A recorded target of a desired deployment: `TargetCluster` (a struct held
by value in `[]TargetCluster`). -/
structure TargetCluster where
  ClusterID : Nat
  ClusterName : String := ""
  Values : Option String := none
deriving DecidableEq, Repr

/-- The persisted desired deployment: `ClusterGroupDeploymentModel`. -/
structure ClusterGroupDeploymentModel where
  ID : Nat := 0
  ClusterGroupID : Nat := 0
  DeploymentName : String := ""
  DeploymentVersion : String := ""
  DeploymentPackage : String := ""
  DeploymentReleaseName : String := ""
  Description : String := ""
  ChartName : String := ""
  Namespace : String := ""
  OrganizationName : String := ""
  CreatedAt : Nat := 0
  UpdatedAt : Option Nat := none
  Values : Option String := none
  TargetClusters : List TargetCluster := []
deriving DecidableEq, Repr

/-- A member entry of the group projection: `api.Member`. -/
structure Member where
  ID : Nat := 0
  Cloud : String := ""
  Distribution : String := ""
  Name : String := ""
  Status : String := ""
deriving DecidableEq, Repr

/-- The group projection seen by the deployment manager: `api.ClusterGroup`
with `Clusters map[uint]api.Cluster`. -/
structure ClusterGroup where
  Id : Nat := 0
  UID : String := ""
  Name : String := ""
  OrganizationID : Nat := 0
  Members : List Member := []
  EnabledFeatures : List String := []
  Clusters : List (Nat × Cluster) := []
deriving DecidableEq, Repr

/-- The state handed to a feature handler: `api.Feature`. -/
structure Feature where
  Name : String := ""
  ClusterGroup : ClusterGroup := {}
  Enabled : Bool := false
  Properties : Option JSONValue := none

/-- Assignment `m[key] = value` on a Go map held as an association list: an
entry with the same key is replaced. -/
def GoMap.set {κ ν : Type} [DecidableEq κ] (m : List (κ × ν)) (key : κ) (value : ν) :
    List (κ × ν) :=
  m.filter (fun entry => entry.1 ≠ key) ++ [(key, value)]

/-! ## The world outside the managers -/

/-- Calls of the manager methods that reach out to a member cluster or
create a group, in the order they are made. -/
inductive Event where
  | installDeploymentOnCluster (clusterID : Nat) (dryRun : Bool)
  | upgradeDeploymentOnCluster (clusterID : Nat) (dryRun : Bool)
  | deleteDeploymentFromCluster (clusterID : Nat)
  | cgRepoCreate (name : String) (orgID : Nat) (members : List MemberClusterModel)
  | cgRepoSaveFeature (feature : ClusterGroupFeatureModel)
  | repoSave (deploymentModel : ClusterGroupDeploymentModel)
  | cgRepoUpdateMembers (clusterGroupID : Nat) (name : String) (newMembers : List Nat)
  | validateState (handler : String) (clusterGroup : ClusterGroup)
  | reconcileFeatures (clusterGroup : ClusterGroup)
deriving DecidableEq, Repr

/-- External state together with the trace of the calls made so far. -/
structure World (σ : Type) where
  state : σ
  trace : List Event := []

/-- Append one event to the trace. -/
def World.emit {σ : Type} (w : World σ) (e : Event) : World σ :=
  { w with trace := w.trace ++ [e] }

/-- The event is a call of installDeploymentOnCluster or of
upgradeDeploymentOnCluster made with the given dry-run flag. -/
def Event.isInstallerCallWith (dryRun : Bool) : Event → Prop
  | .installDeploymentOnCluster _ flag => flag = dryRun
  | .upgradeDeploymentOnCluster _ flag => flag = dryRun
  | _ => False

/-- The collaborators of the two managers, as functions of the external
state `σ`.  Writers return the state they leave behind. -/
structure Env (σ : Type) where
  /-- The method `DeploymentInfo.GetValuesForCluster(clusterName)` (declared in a
  file of the package that is not part of the sources at hand): the rendered
  values for one member. -/
  GetValuesForCluster : DeploymentInfo → String → Except GoError String
  /-- Function `json.Marshal` on a parameter document. -/
  jsonMarshal : Document → Except GoError String
  /-- Function `pkgHelm.NewClient(k8sConfig, logger)`; only its error is used. -/
  NewClient : σ → String → Option GoError
  /-- Function `helm.ListDeployments(&name, "", k8sConfig)`. -/
  ListDeployments : σ → String → String → Except GoError (List Release)
  /-- Method `hClient.InstallReleaseFromChart(chart, namespace, ReleaseName(name),
  InstallDryRun(dryRun), InstallWait(false), ValueOverrides(values))`. -/
  InstallReleaseFromChart : σ → String → Chart → String → String → String → Bool → Option GoError × σ
  /-- Method `hClient.UpdateReleaseFromChart(name, chart, UpdateValueOverrides(values),
  UpgradeDryRun(dryRun), ReuseValues(false))`. -/
  UpdateReleaseFromChart : σ → String → String → Chart → String → Bool → Option GoError × σ
  /-- Function `helm.DeleteDeployment(name, k8sConfig)`. -/
  helmDeleteDeployment : σ → String → String → Option GoError × σ
  /-- Method `clusterGetter.GetClusterByIDOnly(ctx, clusterID)`. -/
  GetClusterByIDOnly : σ → Nat → Except GoError Cluster
  /-- Method `clusterGetter.GetClusterByID(ctx, orgID, clusterID)`. -/
  GetClusterByID : σ → Nat → Nat → Except GoError Cluster
  /-- Method `repository.FindByName(clusterGroupID, deploymentName)` of the deployment repository. -/
  repoFindByName : σ → Nat → String → Except GoError ClusterGroupDeploymentModel
  /-- Method `repository.Delete(deploymentModel, targetClustersStatus)` of the deployment repository. -/
  repoDelete : σ → ClusterGroupDeploymentModel → List TargetClusterStatus → Option GoError × σ
  /-- Method `cgRepo.FindOne(query)`: the returned pointer and the returned error. -/
  cgFindOne : σ → ClusterGroupModel → Option ClusterGroupModel × Option GoError
  /-- Method `cgRepo.FindMemberClusterByID(clusterID)`: the record, or the error. -/
  cgFindMemberClusterByID : σ → Nat → Except GoError MemberClusterModel
  /-- Method `cgRepo.Create(name, orgID, memberClusterModels)`: the new group id. -/
  cgCreate : σ → String → Nat → List MemberClusterModel → Except GoError Nat × σ
  /-- Method `cgRepo.SaveFeature(feature)`. -/
  cgSaveFeature : σ → ClusterGroupFeatureModel → Option GoError × σ
  /-- Function `json.Unmarshal` into a parameter document. -/
  jsonUnmarshal : String → Except GoError Document
  /-- Function `helm.GetRequestedChart(releaseName, name, version, package, env)` with
  `env := helm.GenerateHelmRepoEnv(orgName)`; the arguments are `orgName`,
  `releaseName`, `name`, `version`, `package`. -/
  GetRequestedChart : σ → String → String → String → String → String → Except GoError Chart
  /-- The constant `helm.DefaultNamespace` (declared outside the sources at hand). -/
  DefaultNamespace : String
  /-- Method `repository.FindAll(clusterGroupID)` of the deployment repository: the
  returned slice and the returned error. -/
  repoFindAll : σ → Nat → List ClusterGroupDeploymentModel × Option GoError
  /-- Method `repository.Save(deploymentModel)` of the deployment repository.  What
  the ORM writes back into the model (id, timestamps) is not modelled. -/
  repoSave : σ → ClusterGroupDeploymentModel → Option GoError × σ
  /-- Method `cgRepo.UpdateMembers(existingClusterGroup, name, newMembers)`. -/
  cgUpdateMembers : σ → ClusterGroup → String → List (Nat × Cluster) → Option GoError × σ
  /-- Method `Manager.GetFeatures(clusterGroup)` (declared outside the sources at
  hand): the map from feature name to feature state. -/
  GetFeatures : σ → ClusterGroup → Except GoError (List (String × Feature))
  /-- Method `Manager.GetFeatureHandler(name)` (declared outside the sources at
  hand); only its error is kept, the handler is known by its name. -/
  GetFeatureHandler : String → Option GoError
  /-- Method `ValidateState(feature)` of the handler registered under a name. -/
  ValidateState : σ → String → Feature → Option GoError
  /-- Method `Manager.ReconcileFeatures(clusterGroup, onlyEnabledHandlers)` (declared
  outside the sources at hand). -/
  ReconcileFeatures : σ → ClusterGroup → Bool → Option GoError × σ

/-! ## Deployment orchestrator (`deployment/manager.go`) -/

def SucceededStatus : String := "deployed"

def FailedStatus : String := "failed"

def DeletedStatus : String := "deleted"

def NotInstalledStatus : String := "not installed"

def StaleStatus : String := "stale"

def releaseNameMaxLen : Nat := 53

def FeatureName : String := "deployment"

section Orchestrator

variable {σ : Type}

/-- CGDeploymentManager.isStaleDeployment (manager.go 250-267). -/
def isStaleDeployment (env : Env σ) (release : Release) (depInfo : DeploymentInfo)
    (apiCluster : Cluster) : Bool :=
  if release.Chart.Metadata.Name ≠ depInfo.ChartName then
    true
  else if release.Chart.Metadata.Version ≠ depInfo.ChartVersion then
    true
  else
    match env.GetValuesForCluster depInfo apiCluster.Name with
    | .error _ => false
    | .ok values =>
      if release.Config.Raw.utf8ByteSize ≠ values.utf8ByteSize ∨ release.Config.Raw ≠ values then
        true
      else
        false

/-- CGDeploymentManager.findRelease (manager.go 205-223): the release pointer
(`none` is nil) or the error. -/
def findRelease (env : Env σ) (s : σ) (apiCluster : Cluster) (name : String) :
    Except GoError (Option Release) :=
  match apiCluster.GetK8sConfig with
  | .error err => .error err
  | .ok k8sConfig =>
    match env.ListDeployments s name k8sConfig with
    | .error err => .error err
    | .ok deployments => .ok (deployments.find? (fun release => release.Name = name))

/-- CGDeploymentManager.getClusterDeploymentStatus (manager.go 225-248). -/
def getClusterDeploymentStatus (env : Env σ) (s : σ) (apiCluster : Cluster) (name : String)
    (depInfo : DeploymentInfo) : TargetClusterStatus :=
  let deploymentStatus : TargetClusterStatus :=
    { ClusterId := apiCluster.ID
      ClusterName := apiCluster.Name
      Cloud := apiCluster.Cloud
      Distribution := apiCluster.Distribution }
  match findRelease env s apiCluster name with
  | .error err =>
    { deploymentStatus with Status := "failed to get status: " ++ err.Error }
  | .ok (some release) =>
    { deploymentStatus with
      Version := release.Chart.Metadata.Version
      Stale := isStaleDeployment env release depInfo apiCluster
      Status := release.Info.Status.Code.String }
  | .ok none =>
    { deploymentStatus with Status := NotInstalledStatus, Stale := true }

/-- CGDeploymentManager.installDeploymentOnCluster (manager.go 111-148).  The
unused parameters `orgName` and `env` are left out. -/
def installDeploymentOnCluster (env : Env σ) (w : World σ) (apiCluster : Cluster)
    (depInfo : DeploymentInfo) (requestedChart : Chart) (dryRun : Bool) :
    Option GoError × World σ :=
  let w := w.emit (.installDeploymentOnCluster apiCluster.ID dryRun)
  match apiCluster.GetK8sConfig with
  | .error err => (some err, w)
  | .ok k8sConfig =>
    match env.GetValuesForCluster depInfo apiCluster.Name with
    | .error err => (some err, w)
    | .ok values =>
      match env.NewClient w.state k8sConfig with
      | some err => (some err, w)
      | none =>
        match env.InstallReleaseFromChart w.state k8sConfig requestedChart depInfo.Namespace
            depInfo.ReleaseName values dryRun with
        | (some err, s) =>
          (some (.foreign ("error deploying chart: " ++ err.Error)), { w with state := s })
        | (none, s) => (none, { w with state := s })

/-- CGDeploymentManager.upgradeDeploymentOnCluster (manager.go 150-182).  The
unused parameters `orgName` and `env` are left out. -/
def upgradeDeploymentOnCluster (env : Env σ) (w : World σ) (apiCluster : Cluster)
    (depInfo : DeploymentInfo) (requestedChart : Chart) (dryRun : Bool) :
    Option GoError × World σ :=
  let w := w.emit (.upgradeDeploymentOnCluster apiCluster.ID dryRun)
  match apiCluster.GetK8sConfig with
  | .error err => (some err, w)
  | .ok k8sConfig =>
    match env.GetValuesForCluster depInfo apiCluster.Name with
    | .error err => (some err, w)
    | .ok values =>
      match env.NewClient w.state k8sConfig with
      | some err => (some err, w)
      | none =>
        match env.UpdateReleaseFromChart w.state k8sConfig depInfo.ReleaseName requestedChart
            values dryRun with
        | (some err, s) =>
          (some (.foreign ("error deploying chart: " ++ err.Error)), { w with state := s })
        | (none, s) => (none, { w with state := s })

/-- CGDeploymentManager.upgradeOrInstallDeploymentOnCluster (manager.go 184-203). -/
def upgradeOrInstallDeploymentOnCluster (env : Env σ) (w : World σ) (apiCluster : Cluster)
    (depInfo : DeploymentInfo) (requestedChart : Chart) (dryRun : Bool) :
    Option GoError × World σ :=
  let status := getClusterDeploymentStatus env w.state apiCluster depInfo.ReleaseName depInfo
  let installed : Option GoError × World σ :=
    if status.Status = NotInstalledStatus then
      installDeploymentOnCluster env w apiCluster depInfo requestedChart dryRun
    else
      (none, w)
  match installed with
  | (some err, w1) => (some err, w1)
  | (none, w1) =>
    if status.Stale then
      match upgradeDeploymentOnCluster env w1 apiCluster depInfo requestedChart dryRun with
      | (some err, w2) => (some err, w2)
      | (none, w2) => (none, w2)
    else
      (none, w1)

/-- Run the dispatched goroutine bodies one after the other, in dispatch
order; each sends one status on the status channel. -/
def runGoroutines {τ : Type} (body : World σ → τ → TargetClusterStatus × World σ) :
    World σ → List τ → List TargetClusterStatus × World σ
  | w, [] => ([], w)
  | w, task :: rest =>
    match body w task with
    | (status, w1) =>
      match runGoroutines body w1 rest with
      | (statuses, w2) => (status :: statuses, w2)

/-- The join `for i := 0; i < deploymentCount; i++ { status := <-statusChan; ... }`
on an unbuffered channel on which `sent` is sent: it collects the statuses
when there are enough of them and waits for ever otherwise. -/
def joinStatuses (deploymentCount : Nat) (sent : List TargetClusterStatus) :
    Outcome (List TargetClusterStatus) :=
  if deploymentCount ≤ sent.length then
    .returned (sent.take deploymentCount)
  else
    .blocked

/-- The dispatch loop of upgradeOrInstallDeploymentToTargetClusters (manager.go
622-637): the final `deploymentCount` and the clusters a goroutine was started
for. -/
def upgradeOrInstallDeploymentToTargetClusters.dispatch :
    List (Nat × Cluster) → Nat × List Cluster
  | [] => (0, [])
  | (_, apiCluster) :: rest =>
    match upgradeOrInstallDeploymentToTargetClusters.dispatch rest with
    | (deploymentCount, tasks) => (deploymentCount + 1, apiCluster :: tasks)

/-- The goroutine body of upgradeOrInstallDeploymentToTargetClusters (manager.go
624-635). -/
def upgradeOrInstallDeploymentToTargetClusters.goroutine (env : Env σ)
    (depInfo : DeploymentInfo) (requestedChart : Chart) (dryRun : Bool) (w : World σ)
    (apiCluster : Cluster) : TargetClusterStatus × World σ :=
  match upgradeOrInstallDeploymentOnCluster env w apiCluster depInfo requestedChart dryRun with
  | (clerr, w1) =>
    let status : String :=
      match clerr with
      | some err => FailedStatus ++ ": " ++ err.Error
      | none => SucceededStatus
    ({ ClusterId := apiCluster.ID, ClusterName := apiCluster.Name, Status := status }, w1)

/-- CGDeploymentManager.upgradeOrInstallDeploymentToTargetClusters (manager.go
615-646). -/
def upgradeOrInstallDeploymentToTargetClusters (env : Env σ) (w : World σ)
    (clusterGroup : ClusterGroup) (depInfo : DeploymentInfo) (requestedChart : Chart)
    (dryRun : Bool) : Outcome (List TargetClusterStatus) × World σ :=
  match upgradeOrInstallDeploymentToTargetClusters.dispatch clusterGroup.Clusters with
  | (deploymentCount, tasks) =>
    match runGoroutines
        (upgradeOrInstallDeploymentToTargetClusters.goroutine env depInfo requestedChart dryRun)
        w tasks with
    | (sent, w1) => (joinStatuses deploymentCount sent, w1)

/-- CGDeploymentManager.deleteDeploymentFromCluster (manager.go 483-509).  The
parameter `apiCluster` is only logged and then overwritten. -/
def deleteDeploymentFromCluster (env : Env σ) (w : World σ) (clusterId : Nat)
    (_apiCluster : Option Cluster) (name : String) : Option GoError × World σ :=
  let w := w.emit (.deleteDeploymentFromCluster clusterId)
  match env.GetClusterByIDOnly w.state clusterId with
  | .error _ => (some (.withStack (.memberClusterNotFound 0 clusterId)), w)
  | .ok cluster =>
    match cluster.GetK8sConfig with
    | .error err => (some err, w)
    | .ok k8sConfig =>
      match env.helmDeleteDeployment w.state name k8sConfig with
      | (some err, s) => (some err, { w with state := s })
      | (none, s) => (none, { w with state := s })

/-- The dispatch loop of deleteDeploymentFromTargetClusters (manager.go 572-599):
the final `deploymentCount` and the `(clusterID, apiCluster)` arguments of the
goroutines that were started. -/
def deleteDeploymentFromTargetClusters.dispatch (clusters : List (Nat × Cluster))
    (deleteAll : Bool) : List TargetCluster → Nat × List (Nat × Option Cluster)
  | [] => (0, [])
  | clusterOverride :: rest =>
    match deleteDeploymentFromTargetClusters.dispatch clusters deleteAll rest with
    | (deploymentCount, tasks) =>
      let apiCluster := clusters.lookup clusterOverride.ClusterID
      if deleteAll = true ∨ apiCluster = none then
        (deploymentCount + 1, (clusterOverride.ClusterID, apiCluster) :: tasks)
      else
        (deploymentCount + 1, tasks)

/-- The goroutine body of deleteDeploymentFromTargetClusters (manager.go 577-596). -/
def deleteDeploymentFromTargetClusters.goroutine (env : Env σ) (forceDelete : Bool)
    (name : String) (w : World σ) (task : Nat × Option Cluster) :
    TargetClusterStatus × World σ :=
  match deleteDeploymentFromCluster env w task.1 task.2 name with
  | (clErr, w1) =>
    let status : String :=
      match clErr with
      | some err =>
        if (IsMemberClusterNotFoundError (some err)).2 = false then
          let errMsg := "failed to delete cluster group deployment from cluster: " ++ err.Error
          if forceDelete = false then errMsg else DeletedStatus
        else
          DeletedStatus
      | none => DeletedStatus
    let clusterName : String :=
      match task.2 with
      | some apiCluster => apiCluster.Name
      | none => ""
    ({ ClusterId := task.1, Status := status, ClusterName := clusterName }, w1)

/-- CGDeploymentManager.deleteDeploymentFromTargetClusters (manager.go 563-613). -/
def deleteDeploymentFromTargetClusters (env : Env σ) (w : World σ)
    (clusterGroup : ClusterGroup) (deploymentName : String)
    (deploymentModel : ClusterGroupDeploymentModel) (deleteAll forceDelete : Bool) :
    Outcome (Except GoError (List TargetClusterStatus)) × World σ :=
  match deleteDeploymentFromTargetClusters.dispatch clusterGroup.Clusters deleteAll
      deploymentModel.TargetClusters with
  | (deploymentCount, tasks) =>
    match runGoroutines
        (deleteDeploymentFromTargetClusters.goroutine env forceDelete deploymentName) w tasks with
    | (sent, w1) =>
      match joinStatuses deploymentCount sent with
      | .blocked => (.blocked, w1)
      | .panicked => (.panicked, w1)
      | .returned targetClustersStatus =>
        match env.repoDelete w1.state deploymentModel targetClustersStatus with
        | (some err, s) => (.returned (.error err), { w1 with state := s })
        | (none, s) => (.returned (.ok targetClustersStatus), { w1 with state := s })

/-- CGDeploymentManager.DeleteDeployment (manager.go 512-525). -/
def DeleteDeployment (env : Env σ) (w : World σ) (clusterGroup : ClusterGroup)
    (deploymentName : String) (forceDelete : Bool) :
    Outcome (Except GoError (List TargetClusterStatus)) × World σ :=
  match env.repoFindByName w.state clusterGroup.Id deploymentName with
  | .error err => (.returned (.error err), w)
  | .ok deploymentModel =>
    match deleteDeploymentFromTargetClusters env w clusterGroup deploymentName deploymentModel
        true forceDelete with
    | (.returned (.error err), w1) => (.returned (.error err), w1)
    | (.returned (.ok targetClustersStatus), w1) => (.returned (.ok targetClustersStatus), w1)
    | (.panicked, w1) => (.panicked, w1)
    | (.blocked, w1) => (.blocked, w1)

/-- The target loop of createDeploymentModel (manager.go 287-300). -/
def createDeploymentModel.loop (env : Env σ) (cgDeployment : ClusterGroupDeployment) :
    List (Nat × Cluster) → List TargetCluster → Except GoError (List TargetCluster)
  | [], targetClusters => .ok targetClusters
  | (_, cluster) :: rest, targetClusters =>
    let targetCluster : TargetCluster := { ClusterID := cluster.ID, ClusterName := cluster.Name }
    match cgDeployment.ValueOverrides.lookup cluster.Name with
    | some valuesOverride =>
      match env.jsonMarshal valuesOverride with
      | .error err => .error err
      | .ok marshalledValues =>
        createDeploymentModel.loop env cgDeployment rest
          (targetClusters ++ [{ targetCluster with Values := some marshalledValues }])
    | none => createDeploymentModel.loop env cgDeployment rest (targetClusters ++ [targetCluster])

/-- CGDeploymentManager.createDeploymentModel (manager.go 269-303). -/
def createDeploymentModel (env : Env σ) (clusterGroup : ClusterGroup) (orgName : String)
    (cgDeployment : ClusterGroupDeployment) (requestedChart : Chart) :
    Except GoError ClusterGroupDeploymentModel :=
  let deploymentModel : ClusterGroupDeploymentModel :=
    { ClusterGroupID := clusterGroup.Id
      DeploymentName := cgDeployment.Name
      DeploymentVersion := cgDeployment.Version
      DeploymentPackage := cgDeployment.Package
      DeploymentReleaseName := cgDeployment.ReleaseName
      Description := requestedChart.Metadata.Description
      ChartName := requestedChart.Metadata.Name
      Namespace := cgDeployment.Namespace
      OrganizationName := orgName }
  match env.jsonMarshal cgDeployment.Values with
  | .error err => .error err
  | .ok values =>
    match createDeploymentModel.loop env cgDeployment clusterGroup.Clusters [] with
    | .error err => .error err
    | .ok targetClusters =>
      .ok { deploymentModel with Values := some values, TargetClusters := targetClusters }

/-- The first loop of updateDeploymentModel (manager.go 320-323): the map from
cluster id to a copy of the recorded target; a later target with the same id
replaces an earlier one. -/
def updateDeploymentModel.existingTargetsMap (targetClusters : List TargetCluster) :
    List (Nat × TargetCluster) :=
  targetClusters.foldl (fun existing target => (target.ClusterID, target) :: existing) []

/-- The second loop of updateDeploymentModel (manager.go 325-345), acting on
`deploymentModel.TargetClusters`.  `target` is the local variable of the loop
body: a `TargetCluster` value copied out of the map (or freshly built and copied
into the slice by `append`); the two assignments to `target.Values` change that
local value only. -/
def updateDeploymentModel.loop (env : Env σ) (cgDeployment : ClusterGroupDeployment)
    (existingTargetsMap : List (Nat × TargetCluster)) :
    List (Nat × Cluster) → List TargetCluster → Option GoError × List TargetCluster
  | [], targetClusters => (none, targetClusters)
  | (_, cluster) :: rest, targetClusters =>
    let target : TargetCluster :=
      match existingTargetsMap.lookup cluster.ID with
      | some existing => existing
      | none => { ClusterID := cluster.ID, ClusterName := cluster.Name }
    let targetClusters : List TargetCluster :=
      match existingTargetsMap.lookup cluster.ID with
      | some _ => targetClusters
      | none => targetClusters ++ [target]
    match cgDeployment.ValueOverrides.lookup cluster.Name with
    | some valuesOverride =>
      match env.jsonMarshal valuesOverride with
      | .error err => (some err, targetClusters)
      | .ok marshalledValues =>
        let _target : TargetCluster := { target with Values := some marshalledValues }
        updateDeploymentModel.loop env cgDeployment existingTargetsMap rest targetClusters
    | none =>
      let _target : TargetCluster := { target with Values := none }
      updateDeploymentModel.loop env cgDeployment existingTargetsMap rest targetClusters

/-- CGDeploymentManager.updateDeploymentModel (manager.go 305-348): the
returned error and the deployment model as the call leaves it. -/
def updateDeploymentModel (env : Env σ) (clusterGroup : ClusterGroup)
    (deploymentModel : ClusterGroupDeploymentModel) (cgDeployment : ClusterGroupDeployment)
    (requestedChart : Chart) : Option GoError × ClusterGroupDeploymentModel :=
  let deploymentModel : ClusterGroupDeploymentModel :=
    { deploymentModel with
      DeploymentVersion := cgDeployment.Version
      Description := requestedChart.Metadata.Description
      ChartName := requestedChart.Metadata.Name }
  if cgDeployment.ReUseValues = true then
    (none, deploymentModel)
  else
    match env.jsonMarshal cgDeployment.Values with
    | .error err => (some err, deploymentModel)
    | .ok values =>
      let deploymentModel : ClusterGroupDeploymentModel :=
        { deploymentModel with Values := some values }
      let existingTargetsMap :=
        updateDeploymentModel.existingTargetsMap deploymentModel.TargetClusters
      match updateDeploymentModel.loop env cgDeployment existingTargetsMap clusterGroup.Clusters
          deploymentModel.TargetClusters with
      | (err, targetClusters) => (err, { deploymentModel with TargetClusters := targetClusters })

/-- The override loop of getDeploymentFromModel (manager.go 370-380). -/
def getDeploymentFromModel.loop (env : Env σ) :
    List TargetCluster → List (String × Document) → Except GoError (List (String × Document))
  | [], valueOverridesMap => .ok valueOverridesMap
  | valueOverrides :: rest, valueOverridesMap =>
    if (valueOverrides.Values.getD "").utf8ByteSize > 0 then
      match env.jsonUnmarshal (valueOverrides.Values.getD "") with
      | .error err => .error err
      | .ok unmarshalledValues =>
        getDeploymentFromModel.loop env rest
          (GoMap.set valueOverridesMap valueOverrides.ClusterName unmarshalledValues)
    else
      getDeploymentFromModel.loop env rest valueOverridesMap

/-- CGDeploymentManager.getDeploymentFromModel (manager.go 350-382). -/
def getDeploymentFromModel (env : Env σ) (deploymentModel : ClusterGroupDeploymentModel) :
    Except GoError DeploymentInfo :=
  let deployment : DeploymentInfo :=
    { ReleaseName := deploymentModel.DeploymentReleaseName
      Chart := deploymentModel.DeploymentName
      ChartName := deploymentModel.ChartName
      Description := deploymentModel.Description
      ChartVersion := deploymentModel.DeploymentVersion
      Namespace := deploymentModel.Namespace
      CreatedAt := deploymentModel.CreatedAt }
  let deployment : DeploymentInfo :=
    match deploymentModel.UpdatedAt with
    | some updatedAt => { deployment with UpdatedAt := updatedAt }
    | none => deployment
  match env.jsonUnmarshal (deploymentModel.Values.getD "") with
  | .error err => .error err
  | .ok values =>
    match getDeploymentFromModel.loop env deploymentModel.TargetClusters [] with
    | .error err => .error err
    | .ok valueOverrides =>
      .ok { deployment with Values := values, ValueOverrides := valueOverrides }

/-- CGDeploymentManager.addStaleClusterStatuses (manager.go 422-446).  The
assignments to `deploymentStatus.Cloud` and `deploymentStatus.Distribution`
come after the status has been appended (copied) to the result and change the
local value only. -/
def addStaleClusterStatuses (env : Env σ) (s : σ) (clusters : List (Nat × Cluster)) :
    List TargetCluster → List TargetClusterStatus
  | [] => []
  | o :: rest =>
    if clusters.lookup o.ClusterID = none then
      let status : String :=
        match env.GetClusterByIDOnly s o.ClusterID with
        | .error _ => StaleStatus ++ ", cluster not found"
        | .ok _ => StaleStatus
      let deploymentStatus : TargetClusterStatus :=
        { ClusterId := o.ClusterID, ClusterName := o.ClusterName, Status := status }
      let _deploymentStatus : TargetClusterStatus :=
        match env.GetClusterByIDOnly s o.ClusterID with
        | .ok cluster =>
          { deploymentStatus with Cloud := cluster.Cloud, Distribution := cluster.Distribution }
        | .error _ => deploymentStatus
      deploymentStatus :: addStaleClusterStatuses env s clusters rest
    else
      addStaleClusterStatuses env s clusters rest

/-- The dispatch loop of GetDeployment (manager.go 402-407): the final
`deploymentCount` and the clusters a goroutine was started for. -/
def GetDeployment.dispatch : List (Nat × Cluster) → Nat × List Cluster
  | [] => (0, [])
  | (_, apiCluster) :: rest =>
    match GetDeployment.dispatch rest with
    | (deploymentCount, tasks) => (deploymentCount + 1, apiCluster :: tasks)

/-- The goroutine body of GetDeployment (manager.go 404-406). -/
def GetDeployment.goroutine (env : Env σ) (name : String) (depInfo : DeploymentInfo)
    (w : World σ) (apiCluster : Cluster) : TargetClusterStatus × World σ :=
  (getClusterDeploymentStatus env w.state apiCluster name depInfo, w)

/-- CGDeploymentManager.GetDeployment (manager.go 384-419). -/
def GetDeployment (env : Env σ) (w : World σ) (clusterGroup : ClusterGroup)
    (deploymentName : String) : Outcome (Except GoError DeploymentInfo) × World σ :=
  match env.repoFindByName w.state clusterGroup.Id deploymentName with
  | .error err => (.returned (.error err), w)
  | .ok deploymentModel =>
    match getDeploymentFromModel env deploymentModel with
    | .error err => (.returned (.error err), w)
    | .ok depInfo =>
      match GetDeployment.dispatch clusterGroup.Clusters with
      | (deploymentCount, tasks) =>
        match runGoroutines (GetDeployment.goroutine env deploymentName depInfo) w tasks with
        | (sent, w1) =>
          match joinStatuses deploymentCount sent with
          | .blocked => (.blocked, w1)
          | .panicked => (.panicked, w1)
          | .returned targetClusterStatus =>
            (.returned (.ok { depInfo with
              TargetClusters := targetClusterStatus ++
                addStaleClusterStatuses env w1.state clusterGroup.Clusters
                  deploymentModel.TargetClusters }), w1)

/-- The defaults applied to the request by CreateDeployment (manager.go 656-663)
and, in the same words, by UpdateDeployment (manager.go 696-703). -/
def defaultVersionAndNamespace (env : Env σ) (cgDeployment : ClusterGroupDeployment)
    (requestedChart : Chart) : ClusterGroupDeployment :=
  let cgDeployment : ClusterGroupDeployment :=
    if cgDeployment.Version.utf8ByteSize = 0 then
      { cgDeployment with Version := requestedChart.Metadata.Version }
    else
      cgDeployment
  if cgDeployment.Namespace = "" then
    { cgDeployment with Namespace := env.DefaultNamespace }
  else
    cgDeployment

/-- The step `if !cgDeployment.DryRun { err = m.repository.Save(deploymentModel) ... }`
of CreateDeployment (manager.go 670-675) and UpdateDeployment (manager.go 716-721). -/
def saveUnlessDryRun (env : Env σ) (w : World σ) (cgDeployment : ClusterGroupDeployment)
    (deploymentModel : ClusterGroupDeploymentModel) : Option GoError × World σ :=
  if cgDeployment.DryRun = false then
    let w1 := w.emit (.repoSave deploymentModel)
    match env.repoSave w1.state deploymentModel with
    | (some err, s) => (some (.withMessage err "Error saving deployment model"), { w1 with state := s })
    | (none, s) => (none, { w1 with state := s })
  else
    (none, w)

/-- The last two steps of CreateDeployment (manager.go 677-683) and of
UpdateDeployment (manager.go 723-729): convert the model and fan out. -/
def convertAndFanOut (env : Env σ) (w : World σ) (clusterGroup : ClusterGroup)
    (cgDeployment : ClusterGroupDeployment) (deploymentModel : ClusterGroupDeploymentModel)
    (requestedChart : Chart) : Outcome (Except GoError (List TargetClusterStatus)) × World σ :=
  match getDeploymentFromModel env deploymentModel with
  | .error err => (.returned (.error err), w)
  | .ok depInfo =>
    match upgradeOrInstallDeploymentToTargetClusters env w clusterGroup depInfo requestedChart
        cgDeployment.DryRun with
    | (.returned targetClusterStatus, w1) => (.returned (.ok targetClusterStatus), w1)
    | (.panicked, w1) => (.panicked, w1)
    | (.blocked, w1) => (.blocked, w1)

/-- CGDeploymentManager.CreateDeployment (manager.go 648-684). -/
def CreateDeployment (env : Env σ) (w : World σ) (clusterGroup : ClusterGroup)
    (orgName : String) (cgDeployment : ClusterGroupDeployment) :
    Outcome (Except GoError (List TargetClusterStatus)) × World σ :=
  match env.GetRequestedChart w.state orgName cgDeployment.ReleaseName cgDeployment.Name
      cgDeployment.Version cgDeployment.Package with
  | .error err => (.returned (.error (.foreign ("error loading chart: " ++ err.Error))), w)
  | .ok requestedChart =>
    let cgDeployment := defaultVersionAndNamespace env cgDeployment requestedChart
    match createDeploymentModel env clusterGroup orgName cgDeployment requestedChart with
    | .error err =>
      (.returned (.error (.withMessage err "Error creating deployment model")), w)
    | .ok deploymentModel =>
      match saveUnlessDryRun env w cgDeployment deploymentModel with
      | (some err, w1) => (.returned (.error err), w1)
      | (none, w1) =>
        convertAndFanOut env w1 clusterGroup cgDeployment deploymentModel requestedChart

/-- CGDeploymentManager.UpdateDeployment (manager.go 688-730). -/
def UpdateDeployment (env : Env σ) (w : World σ) (clusterGroup : ClusterGroup)
    (orgName : String) (cgDeployment : ClusterGroupDeployment) :
    Outcome (Except GoError (List TargetClusterStatus)) × World σ :=
  match env.GetRequestedChart w.state orgName cgDeployment.ReleaseName cgDeployment.Name
      cgDeployment.Version cgDeployment.Package with
  | .error err => (.returned (.error (.foreign ("error loading chart: " ++ err.Error))), w)
  | .ok requestedChart =>
    let cgDeployment := defaultVersionAndNamespace env cgDeployment requestedChart
    match env.repoFindByName w.state clusterGroup.Id cgDeployment.ReleaseName with
    | .error err => (.returned (.error err), w)
    | .ok deploymentModel =>
      match updateDeploymentModel env clusterGroup deploymentModel cgDeployment requestedChart with
      | (some err, _) =>
        (.returned (.error (.withMessage err "Error updating deployment model")), w)
      | (none, deploymentModel) =>
        match saveUnlessDryRun env w cgDeployment deploymentModel with
        | (some err, w1) => (.returned (.error err), w1)
        | (none, w1) =>
          convertAndFanOut env w1 clusterGroup cgDeployment deploymentModel requestedChart

/-- The loop of ReconcileState (manager.go 83-93).  The results of the two
calls are dropped; the loop goes on when the call returns. -/
def ReconcileState.loop (env : Env σ) (featureState : Feature) :
    World σ → List ClusterGroupDeploymentModel → Outcome Unit × World σ
  | w, [] => (.returned (), w)
  | w, deployment :: rest =>
    let called : Outcome (Except GoError (List TargetClusterStatus)) × World σ :=
      if featureState.Enabled = false then
        DeleteDeployment env w featureState.ClusterGroup deployment.DeploymentName false
      else
        deleteDeploymentFromTargetClusters env w featureState.ClusterGroup
          deployment.DeploymentName deployment false false
    match called with
    | (.returned _, w1) => ReconcileState.loop env featureState w1 rest
    | (.panicked, w1) => (.panicked, w1)
    | (.blocked, w1) => (.blocked, w1)

/-- CGDeploymentManager.ReconcileState (manager.go 73-96): the returned error. -/
def ReconcileState (env : Env σ) (w : World σ) (featureState : Feature) :
    Outcome (Option GoError) × World σ :=
  match env.repoFindAll w.state featureState.ClusterGroup.Id with
  | (deploymentModels, _) =>
    match ReconcileState.loop env featureState w deploymentModels with
    | (.returned _, w1) => (.returned none, w1)
    | (.panicked, w1) => (.panicked, w1)
    | (.blocked, w1) => (.blocked, w1)

/-- CGDeploymentManager.GenerateReleaseName (manager.go 448-455).  The name is
sliced by byte index, so it is held here as its list of bytes; `monikerName` is
what `moniker.New().NameSep("-")` returned. -/
def GenerateReleaseName (monikerName : List Nat) : List Nat :=
  if monikerName.length > releaseNameMaxLen then
    monikerName.take releaseNameMaxLen
  else
    monikerName

/-- API.Create (api/clustergroup/deployment/create.go 60-62): the release name
handed to CreateDeployment, as bytes; `generated` is the result of
GenerateReleaseName, which is asked for only when the request has no release
name. -/
def releaseNameOfRequest (requested generated : List Nat) : List Nat :=
  if requested.length = 0 then generated else requested

end Orchestrator

/-! ## Group membership service (`manager.go`) -/

section Membership

variable {σ : Type}

/-- Manager.isClusterMemberOfAClusterGroup (manager.go 293-308). -/
def isClusterMemberOfAClusterGroup (env : Env σ) (s : σ) (clusterID clusterGroupId : Nat) :
    Bool × Option GoError :=
  match env.cgFindMemberClusterByID s clusterID with
  | .error err =>
    if IsRecordNotFoundError (some err) = true then
      (false, none)
    else
      (true, some err)
  | .ok result =>
    if clusterGroupId > 0 ∧ result.ClusterGroupID = clusterGroupId then
      (false, none)
    else
      (true, none)

/-- The member loop of CreateClusterGroup (manager.go 72-99): the error it
returns with, or the collected member models. -/
def CreateClusterGroup.loop (env : Env σ) (s : σ) (orgID : Nat) :
    List Nat → List MemberClusterModel → Except GoError (List MemberClusterModel)
  | [], memberClusterModels => .ok memberClusterModels
  | clusterID :: rest, memberClusterModels =>
    match env.GetClusterByID s orgID clusterID with
    | .error _ => .error (.withStack (.memberClusterNotFound orgID clusterID))
    | .ok cluster =>
      match isClusterMemberOfAClusterGroup env s cluster.ID 0 with
      | (true, _) => .error (.withStack (.memberClusterPartOfAClusterGroup orgID clusterID))
      | (false, some err) => .error (.withStack err)
      | (false, none) =>
        match cluster.IsReady with
        | (true, none) =>
          CreateClusterGroup.loop env s orgID rest
            (memberClusterModels ++ [{ ClusterID := cluster.ID }])
        | _ => CreateClusterGroup.loop env s orgID rest memberClusterModels

/-- Manager.CreateClusterGroup (manager.go 55-123).  `cgModel` is the pointer
returned by `FindOne`; `*cgModel` panics when it is nil. -/
def CreateClusterGroup (env : Env σ) (w : World σ) (name : String) (orgID : Nat)
    (members : List Nat) : Outcome (Except GoError Nat) × World σ :=
  match env.cgFindOne w.state { OrganizationID := orgID, Name := name } with
  | (cgModel, err) =>
    match err, IsClusterGroupNotFoundError err with
    | some e, false => (.returned (.error e), w)
    | _, _ =>
      match cgModel with
      | some existing => (.returned (.error (.withStack (.clusterGroupAlreadyExists existing))), w)
      | none =>
        match CreateClusterGroup.loop env w.state orgID members [] with
        | .error e => (.returned (.error e), w)
        | .ok memberClusterModels =>
          if memberClusterModels.length = 0 then
            match cgModel with
            | some deref => (.returned (.error (.withStack (.noReadyMembers deref))), w)
            | none => (.panicked, w)
          else
            let w1 := w.emit (.cgRepoCreate name orgID memberClusterModels)
            match env.cgCreate w1.state name orgID memberClusterModels with
            | (.error e, s) => (.returned (.error e), { w1 with state := s })
            | (.ok cgId, s) =>
              let deploymentFeature : ClusterGroupFeatureModel :=
                { Enabled := true, Name := FeatureName, ClusterGroupID := cgId }
              let w2 := ({ w1 with state := s } : World σ).emit (.cgRepoSaveFeature deploymentFeature)
              match env.cgSaveFeature w2.state deploymentFeature with
              | (some e, s2) => (.returned (.error e), { w2 with state := s2 })
              | (none, s2) => (.returned (.ok cgId), { w2 with state := s2 })

/-- The member loop of GetClusterGroupFromModel (manager.go 231-256), acting on
`clusterGroup.Members` and `clusterGroup.Clusters`. -/
def GetClusterGroupFromModel.loop (env : Env σ) (s : σ) (withStatus : Bool) :
    List MemberClusterModel → List Member → List (Nat × Cluster) →
    List Member × List (Nat × Cluster)
  | [], members, clusters => (members, clusters)
  | m :: rest, members, clusters =>
    match env.GetClusterByIDOnly s m.ClusterID with
    | .error _ =>
      GetClusterGroupFromModel.loop env s withStatus rest
        (members ++ [{ ID := m.ClusterID, Status := "cluster not found" }]) clusters
    | .ok cluster =>
      let member : Member :=
        { ID := cluster.ID
          Cloud := cluster.Cloud
          Distribution := cluster.Distribution
          Name := cluster.Name }
      let member : Member :=
        if withStatus = true then
          match cluster.GetStatus with
          | .error err => { member with Status := err.Error }
          | .ok clusterStatus => { member with Status := clusterStatus }
        else
          member
      GetClusterGroupFromModel.loop env s withStatus rest (members ++ [member])
        (GoMap.set clusters cluster.ID cluster)

/-- Manager.GetClusterGroupFromModel (manager.go 214-259), for a non-nil model. -/
def GetClusterGroupFromModel (env : Env σ) (s : σ) (cg : ClusterGroupModel)
    (withStatus : Bool) : ClusterGroup :=
  let enabledFeatures : List String :=
    (cg.FeatureParams.filter (fun feature => feature.Enabled)).map (fun feature => feature.Name)
  match GetClusterGroupFromModel.loop env s withStatus cg.Members [] [] with
  | (members, clusters) =>
    { Name := cg.Name
      Id := cg.ID
      UID := cg.UID
      OrganizationID := cg.OrganizationID
      Members := members
      Clusters := clusters
      EnabledFeatures := enabledFeatures }

/-- Manager.GetClusterGroupByID (manager.go 262-275, through
GetClusterGroupByIDWithStatus with `withStatus = false`).  A nil model returned
without an error is dereferenced by GetClusterGroupFromModel. -/
def GetClusterGroupByID (env : Env σ) (s : σ) (clusterGroupId : Nat) :
    Outcome (Except GoError ClusterGroup) :=
  match env.cgFindOne s { ID := clusterGroupId } with
  | (_, some err) => .returned (.error err)
  | (some cgModel, none) => .returned (.ok (GetClusterGroupFromModel env s cgModel false))
  | (none, none) => .panicked

/-- The member list built by validateBeforeClusterGroupUpdate (manager.go
318-327). -/
def validateBeforeClusterGroupUpdate.members (newClusters : List (Nat × Cluster)) :
    List Member :=
  newClusters.map (fun entry =>
    { ID := entry.2.ID
      Cloud := entry.2.Cloud
      Distribution := entry.2.Distribution
      Name := entry.2.Name })

/-- The feature loop of validateBeforeClusterGroupUpdate (manager.go 329-348). -/
def validateBeforeClusterGroupUpdate.loop (env : Env σ) (newClusters : List (Nat × Cluster))
    (members : List Member) :
    World σ → ClusterGroup → List (String × Feature) → Option GoError × World σ
  | w, _, [] => (none, w)
  | w, clusterGroup, (name, feature) :: rest =>
    if feature.Enabled = false then
      validateBeforeClusterGroupUpdate.loop env newClusters members w clusterGroup rest
    else
      let clusterGroup : ClusterGroup :=
        { clusterGroup with Clusters := newClusters, Members := members }
      let feature : Feature := { feature with ClusterGroup := clusterGroup }
      match env.GetFeatureHandler name with
      | some err => (some err, w)
      | none =>
        let w1 := w.emit (.validateState name feature.ClusterGroup)
        match env.ValidateState w1.state name feature with
        | some _ => (some (.clusterGroupUpdateRejected feature.Name), w1)
        | none =>
          validateBeforeClusterGroupUpdate.loop env newClusters members w1 clusterGroup rest

/-- Manager.validateBeforeClusterGroupUpdate (manager.go 310-351). -/
def validateBeforeClusterGroupUpdate (env : Env σ) (w : World σ) (clusterGroup : ClusterGroup)
    (newClusters : List (Nat × Cluster)) : Option GoError × World σ :=
  match env.GetFeatures w.state clusterGroup with
  | .error err => (some err, w)
  | .ok features =>
    validateBeforeClusterGroupUpdate.loop env newClusters
      (validateBeforeClusterGroupUpdate.members newClusters) w clusterGroup features

/-- The member loop of UpdateClusterGroup (manager.go 137-168): the error it
returns with, or the new member map. -/
def UpdateClusterGroup.loop (env : Env σ) (s : σ) (orgID : Nat)
    (existingClusterGroup : ClusterGroup) :
    List Nat → List (Nat × Cluster) → Except GoError (List (Nat × Cluster))
  | [], newMembers => .ok newMembers
  | clusterID :: rest, newMembers =>
    match env.GetClusterByID s orgID clusterID with
    | .error _ => .error (.withStack (.memberClusterNotFound orgID clusterID))
    | .ok cluster =>
      match isClusterMemberOfAClusterGroup env s cluster.ID existingClusterGroup.Id with
      | (true, _) => .error (.withStack (.memberClusterPartOfAClusterGroup orgID clusterID))
      | (false, some err) => .error (.withStack err)
      | (false, none) =>
        match cluster.IsReady with
        | (_, some err) => .error (.withMessage err "could not check cluster readiness")
        | (false, none) =>
          .error (.withMessage (.foreign "cluster is not ready") "could not join cluster to group")
        | (true, none) =>
          UpdateClusterGroup.loop env s orgID existingClusterGroup rest
            (GoMap.set newMembers cluster.ID cluster)

/-- Manager.UpdateClusterGroup (manager.go 126-192): the returned error.  A nil
model returned by `FindOne` without an error is dereferenced by
GetClusterGroupFromModel. -/
def UpdateClusterGroup (env : Env σ) (w : World σ) (orgID clusterGroupId : Nat)
    (name : String) (members : List Nat) : Outcome (Option GoError) × World σ :=
  match env.cgFindOne w.state { ID := clusterGroupId } with
  | (_, some err) => (.returned (some err), w)
  | (none, none) => (.panicked, w)
  | (some cgModel, none) =>
    let existingClusterGroup := GetClusterGroupFromModel env w.state cgModel false
    match UpdateClusterGroup.loop env w.state orgID existingClusterGroup members [] with
    | .error err => (.returned (some err), w)
    | .ok newMembers =>
      match validateBeforeClusterGroupUpdate env w existingClusterGroup newMembers with
      | (some err, w1) => (.returned (some (.withMessage err "update denied")), w1)
      | (none, w1) =>
        let w2 := w1.emit (.cgRepoUpdateMembers existingClusterGroup.Id name
          (newMembers.map (fun entry => entry.1)))
        match env.cgUpdateMembers w2.state existingClusterGroup name newMembers with
        | (some err, s) => (.returned (some err), { w2 with state := s })
        | (none, s) =>
          match GetClusterGroupByID env s existingClusterGroup.Id with
          | .panicked => (.panicked, { w2 with state := s })
          | .blocked => (.blocked, { w2 with state := s })
          | .returned (.error err) => (.returned (some err), { w2 with state := s })
          | .returned (.ok clusterGroup) =>
            let w3 := ({ w2 with state := s } : World σ).emit (.reconcileFeatures clusterGroup)
            match env.ReconcileFeatures w3.state clusterGroup true with
            | (some err, s3) => (.returned (some err), { w3 with state := s3 })
            | (none, s3) => (.returned none, { w3 with state := s3 })

end Membership

/-! ## Requests of the cluster group API (`api/clustergroup.go`) -/

/-- CreateRequest of `api/clustergroup.go`. -/
structure CreateRequest where
  Name : String := ""
  Members : List Nat := []
deriving DecidableEq, Repr

/-- CreateRequest.Validate (api/clustergroup.go 27-37). -/
def CreateRequest.Validate (g : CreateRequest) : Option GoError :=
  if g.Name.utf8ByteSize = 0 then
    some (.foreign "cluster group name is empty")
  else if g.Members.length = 0 then
    some (.foreign "there should be at least one cluster member")
  else
    none

/-- UpdateRequest of `api/clustergroup.go`. -/
structure UpdateRequest where
  Name : String := ""
  Members : List Nat := []
deriving DecidableEq, Repr

/-- UpdateRequest.Validate (api/clustergroup.go 51-61). -/
def UpdateRequest.Validate (g : UpdateRequest) : Option GoError :=
  if g.Name.utf8ByteSize = 0 then
    some (.foreign "cluster group name is empty")
  else if g.Members.length = 0 then
    some (.foreign "there should be at least one cluster member")
  else
    none

/-! ## Assumptions on the installer, used as hypotheses -/

section Assumptions

variable {σ : Type}

/-- In state `s`, listing `name` on the cluster reached through `k8sConfig`
finds a release that carries the name and version of `requestedChart` and the
raw config `values`. -/
def Recorded (env : Env σ) (s : σ) (k8sConfig name : String) (requestedChart : Chart)
    (values : String) : Prop :=
  ∃ deployments release,
    env.ListDeployments s name k8sConfig = .ok deployments ∧
    deployments.find? (fun release => release.Name = name) = some release ∧
    release.Chart.Metadata.Name = requestedChart.Metadata.Name ∧
    release.Chart.Metadata.Version = requestedChart.Metadata.Version ∧
    release.Config.Raw = values

/-- The installer records the chart name, chart version and rendered values
it was given: whenever an install or an upgrade made with the flag `dryRun`
succeeds, the release is listed afterwards with that chart and those values. -/
def InstallerRecords (env : Env σ) (dryRun : Bool) : Prop :=
  (∀ s k8sConfig requestedChart ns name values s1,
    env.InstallReleaseFromChart s k8sConfig requestedChart ns name values dryRun = (none, s1) →
    Recorded env s1 k8sConfig name requestedChart values) ∧
  (∀ s k8sConfig name requestedChart values s1,
    env.UpdateReleaseFromChart s k8sConfig name requestedChart values dryRun = (none, s1) →
    Recorded env s1 k8sConfig name requestedChart values)

/-- The requested members that resolve and report ready (`IsReady` true with
no error), in request order, as member models: the member list the statement
about CreateClusterGroup speaks of. -/
def readyRequestedMembers (env : Env σ) (s : σ) (orgID : Nat) (members : List Nat) :
    List MemberClusterModel :=
  members.filterMap (fun clusterID =>
    match env.GetClusterByID s orgID clusterID with
    | .ok cluster =>
      if cluster.IsReady = (true, none) then some { ClusterID := cluster.ID } else none
    | .error _ => none)

end Assumptions

/-! ## A small concrete world, used to run the managers on explicit inputs -/

namespace Sim

/-- State of a simulated Tiller: the installed releases, each with the
kubeconfig of the cluster it lives on. -/
abbrev Tiller := List (String × Release)

/-- The releases named `name` on the cluster reached through `k8sConfig`. -/
def releasesOf (t : Tiller) (name k8sConfig : String) : List Release :=
  (t.filter (fun entry => entry.1 = k8sConfig ∧ entry.2.Name = name)).map (fun entry => entry.2)

/-- Store a release, with the chart and the values handed to the installer. -/
def record (k8sConfig name : String) (requestedChart : Chart) (values : String) (t : Tiller) :
    Tiller :=
  (k8sConfig, { Name := name, Chart := requestedChart, Config := { Raw := values } }) ::
    t.filter (fun entry => ¬ (entry.1 = k8sConfig ∧ entry.2.Name = name))

/-- A toy serialisation of a parameter document: its keys. -/
def render (doc : Document) : String :=
  String.intercalate "," (doc.map (fun field => field.1))

/-- A world with the given resolvable clusters and stored desired
deployments (looked up by group id and release name), an installer that stores
what it is given (unless asked for a dry run), no cluster group yet and no
membership record. -/
def env (clusters : List Cluster) (deployments : List ClusterGroupDeploymentModel) :
    Env Tiller where
  GetValuesForCluster := fun depInfo clusterName =>
    .ok (render depInfo.Values ++ ";" ++ render ((depInfo.ValueOverrides.lookup clusterName).getD []))
  jsonMarshal := fun doc => .ok (render doc)
  NewClient := fun _ _ => none
  ListDeployments := fun t name k8sConfig => .ok (releasesOf t name k8sConfig)
  InstallReleaseFromChart := fun t k8sConfig requestedChart _ name values dryRun =>
    if releasesOf t name k8sConfig ≠ [] then
      (some (.foreign "a release with this name already exists"), t)
    else if dryRun = true then
      (none, t)
    else
      (none, record k8sConfig name requestedChart values t)
  UpdateReleaseFromChart := fun t k8sConfig name requestedChart values dryRun =>
    if releasesOf t name k8sConfig = [] then
      (some (.foreign "release not found"), t)
    else if dryRun = true then
      (none, t)
    else
      (none, record k8sConfig name requestedChart values t)
  helmDeleteDeployment := fun t name k8sConfig =>
    if releasesOf t name k8sConfig = [] then
      (some (.foreign "release not found"), t)
    else
      (none, t.filter (fun entry => ¬ (entry.1 = k8sConfig ∧ entry.2.Name = name)))
  GetClusterByIDOnly := fun _ clusterID =>
    match clusters.find? (fun cluster => cluster.ID = clusterID) with
    | some cluster => .ok cluster
    | none => .error (.foreign "cluster not found")
  GetClusterByID := fun _ _ clusterID =>
    match clusters.find? (fun cluster => cluster.ID = clusterID) with
    | some cluster => .ok cluster
    | none => .error (.foreign "cluster not found")
  repoFindByName := fun _ clusterGroupID deploymentName =>
    match deployments.find? (fun model => model.ClusterGroupID = clusterGroupID ∧
        model.DeploymentReleaseName = deploymentName) with
    | some model => .ok model
    | none => .error (.withStack (.deploymentNotFound clusterGroupID deploymentName))
  repoDelete := fun t _ _ => (none, t)
  cgFindOne := fun _ query => (none, some (.withStack (.clusterGroupNotFound query)))
  cgFindMemberClusterByID := fun _ _ => .error (.withStack .recordNotFound)
  cgCreate := fun t _ _ _ => (.ok 1, t)
  cgSaveFeature := fun t _ => (none, t)
  jsonUnmarshal := fun bytes => if bytes = "" then .ok [] else .ok [(bytes, .null)]
  GetRequestedChart := fun _ _ _ name version _ =>
    if name = "stable/nginx" then
      .ok { Metadata := { Name := "nginx", Version := if version = "" then "1.2.3" else version } }
    else
      .error (.foreign "chart not found")
  DefaultNamespace := "default"
  repoFindAll := fun _ clusterGroupID =>
    (deployments.filter (fun model => model.ClusterGroupID = clusterGroupID), none)
  repoSave := fun t _ => (none, t)
  cgUpdateMembers := fun t _ _ _ => (none, t)
  GetFeatures := fun _ clusterGroup =>
    .ok [("deployment", { Name := "deployment", ClusterGroup := clusterGroup, Enabled := true })]
  GetFeatureHandler := fun name =>
    if name = "deployment" then none else some (.withStack (.unknownFeature name))
  ValidateState := fun _ _ _ => none
  ReconcileFeatures := fun t _ _ => (none, t)

/-- Member cluster 10, ready and reachable. -/
def cluster10 : Cluster := { ID := 10, Name := "c10", GetK8sConfig := .ok "kube10" }

/-- Member cluster 11, ready and reachable. -/
def cluster11 : Cluster := { ID := 11, Name := "c11", GetK8sConfig := .ok "kube11" }

/-- Cluster 12: its kubeconfig cannot be obtained. -/
def cluster12 : Cluster :=
  { ID := 12, Name := "c12", GetK8sConfig := .error (.foreign "no kubeconfig") }

/-- Cluster 13: resolvable but not ready. -/
def cluster13 : Cluster := { ID := 13, Name := "c13", IsReady := (false, none) }

/-- The clusters the simulated cluster getter resolves. -/
def clusters : List Cluster := [cluster10, cluster11, cluster12, cluster13]

/-- A desired deployment of chart nginx 1.2.3 as release `web`. -/
def depInfo : DeploymentInfo :=
  { ReleaseName := "web", Chart := "stable/nginx", ChartName := "nginx", ChartVersion := "1.2.3",
    Namespace := "default" }

/-- The chart the request resolves to. -/
def nginx : Chart := { Metadata := { Name := "nginx", Version := "1.2.3" } }

/-- The empty world: nothing installed, nothing traced. -/
def world0 : World Tiller := { state := [] }

/-- The world after release `web` was installed and then upgraded on cluster 10
with `requestedChart`. -/
def world1 (requestedChart : Chart) : World Tiller :=
  { state := [("kube10", { Name := "web", Chart := requestedChart, Config := { Raw := ";" } })]
    trace := [.installDeploymentOnCluster 10 false, .upgradeDeploymentOnCluster 10 false] }

/-- The world in which release `web` is installed on clusters 10 and 11. -/
def worldWebOn10And11 : World Tiller :=
  { state := [("kube10", { Name := "web", Chart := nginx, Config := { Raw := ";" } }),
              ("kube11", { Name := "web", Chart := nginx, Config := { Raw := ";" } })] }

/-- The same desired deployment requested with a version range. -/
def depInfoRange : DeploymentInfo := { depInfo with ChartVersion := "1.x" }

/-- The same desired deployment with the chart reference as its chart name. -/
def depInfoReference : DeploymentInfo := { depInfo with ChartName := "stable/nginx" }

/-- The stored desired deployment `web` of group 1, recorded on clusters 10
and 11. -/
def webModel : ClusterGroupDeploymentModel :=
  { ClusterGroupID := 1, DeploymentName := "stable/nginx", DeploymentReleaseName := "web",
    DeploymentVersion := "1.2.3", ChartName := "nginx", Values := some "",
    TargetClusters := [{ ClusterID := 10, ClusterName := "c10" },
      { ClusterID := 11, ClusterName := "c11" }] }

/-- Group 1 after cluster 11 has left it. -/
def group1 : ClusterGroup := { Id := 1, Name := "g1", Clusters := [(10, cluster10)] }

/-- A second stored desired deployment of group 1, release `cache`, recorded on
cluster 12 only. -/
def cacheModel : ClusterGroupDeploymentModel :=
  { ClusterGroupID := 1, DeploymentName := "stable/redis", DeploymentReleaseName := "cache",
    DeploymentVersion := "4.0.0", ChartName := "redis", Values := some "",
    TargetClusters := [{ ClusterID := 12, ClusterName := "c12" }] }

/-- A dry-run request for chart `stable/nginx` as release `web`, without
version and namespace. -/
def dryRunRequest : ClusterGroupDeployment :=
  { Name := "stable/nginx", ReleaseName := "web", DryRun := true }

/-- The model CreateDeployment builds for `dryRunRequest` on group 1 in
organization `org`. -/
def createdModel : ClusterGroupDeploymentModel :=
  { ClusterGroupID := 1, DeploymentName := "stable/nginx", DeploymentVersion := "1.2.3",
    DeploymentReleaseName := "web", ChartName := "nginx", Namespace := "default",
    OrganizationName := "org", Values := some "",
    TargetClusters := [{ ClusterID := 10, ClusterName := "c10" }] }

/-- The deployment feature of group 1, enabled or not. -/
def deploymentFeature (enabled : Bool) : Feature :=
  { Name := "deployment", ClusterGroup := group1, Enabled := enabled }

/-- The persisted group 1 of organization 7, with cluster 10 as its member. -/
def group1Model : ClusterGroupModel :=
  { ID := 1, Name := "g1", OrganizationID := 7,
    Members := [{ ID := 1, ClusterGroupID := 1, ClusterID := 10 }],
    FeatureParams := [{ ID := 1, Name := "deployment", ClusterGroupID := 1, Enabled := true }] }

/-- The world of `env` in which group 1 exists and cluster 10 is recorded as
its member. -/
def envWithGroup (clusters : List Cluster) (deployments : List ClusterGroupDeploymentModel) :
    Env Tiller :=
  { env clusters deployments with
    cgFindOne := fun _ query =>
      if query.ID = 1 ∨ (query.Name = "g1" ∧ query.OrganizationID = 7) then
        (some group1Model, none)
      else
        (none, some (.withStack (.clusterGroupNotFound query)))
    cgFindMemberClusterByID := fun _ clusterID =>
      if clusterID = 10 then
        .ok { ID := 1, ClusterGroupID := 1, ClusterID := 10 }
      else
        .error (.withStack .recordNotFound) }

/-- The world of `envWithGroup` in which every membership lookup fails with a
storage error. -/
def envStorageDown (clusters : List Cluster) (deployments : List ClusterGroupDeploymentModel) :
    Env Tiller :=
  { envWithGroup clusters deployments with
    cgFindMemberClusterByID := fun _ _ => .error (.foreign "connection refused") }

/-- Three features of a group: `monitoring`, disabled, and `quota` and
`deployment`, enabled. -/
def quotaFeatures (clusterGroup : ClusterGroup) : List (String × Feature) :=
  [("monitoring", { Name := "monitoring", ClusterGroup := clusterGroup, Enabled := false }),
   ("quota", { Name := "quota", ClusterGroup := clusterGroup, Enabled := true }),
   ("deployment", { Name := "deployment", ClusterGroup := clusterGroup, Enabled := true })]

/-- The world of `envWithGroup` in which group 1 has two enabled features,
`quota` and `deployment`, and a disabled one, `monitoring`; the handler of
`quota` rejects every state, the other handlers accept. -/
def envQuotaRejects (clusters : List Cluster) (deployments : List ClusterGroupDeploymentModel) :
    Env Tiller :=
  { envWithGroup clusters deployments with
    GetFeatures := fun _ clusterGroup => .ok (quotaFeatures clusterGroup)
    GetFeatureHandler := fun name =>
      if name = "deployment" ∨ name = "quota" ∨ name = "monitoring" then none
      else some (.withStack (.unknownFeature name))
    ValidateState := fun _ name _ =>
      if name = "quota" then some (.foreign "quota exceeded") else none }

/-- The world of `envQuotaRejects` in which every handler rejects every state. -/
def envAllReject (clusters : List Cluster) (deployments : List ClusterGroupDeploymentModel) :
    Env Tiller :=
  { envQuotaRejects clusters deployments with
    ValidateState := fun _ name _ => some (.foreign (name ++ " rejects")) }

/-- The world of `env` in which the deployments of a group cannot be listed. -/
def envListFails (clusters : List Cluster) (deployments : List ClusterGroupDeploymentModel) :
    Env Tiller :=
  { env clusters deployments with
    repoFindAll := fun _ _ => ([], some (.foreign "connection refused")) }

/-- Cluster 14: resolvable, with a cloud and a distribution. -/
def cluster14 : Cluster :=
  { ID := 14, Name := "c14", Cloud := "amazon", Distribution := "eks",
    GetK8sConfig := .ok "kube14" }

/-- A stored desired deployment of group 1, release `web`, recorded on cluster
10 only. -/
def webModelOn10 : ClusterGroupDeploymentModel :=
  { webModel with TargetClusters := [{ ClusterID := 10, ClusterName := "c10" }] }

/-- Group 1 after cluster 11 has joined it. -/
def group1With11 : ClusterGroup :=
  { Id := 1, Name := "g1", Clusters := [(10, cluster10), (11, cluster11)] }

/-- A request that reuses the stored values of release `web`. -/
def reuseRequest : ClusterGroupDeployment :=
  { Name := "stable/nginx", ReleaseName := "web", Version := "1.2.3", ReUseValues := true }

/-- A release name of 54 bytes. -/
def longReleaseName : String := "release-name-with-fifty-four-bytes-0123456789-01234567"

/-- The bytes of `longReleaseName` (the name is ASCII). -/
def longReleaseNameBytes : List Nat := longReleaseName.data.map Char.toNat

/-- A request for chart `stable/nginx` that supplies the 54-byte release name. -/
def longNameRequest : ClusterGroupDeployment :=
  { Name := "stable/nginx", ReleaseName := longReleaseName, Version := "1.2.3" }

/-- A request for chart `stable/nginx` as release `web` with an override for
cluster `c10` and one for `c99`, which is not the name of a member. -/
def overrideRequest : ClusterGroupDeployment :=
  { Name := "stable/nginx", ReleaseName := "web", Version := "1.2.3", Namespace := "default",
    Values := [("image", .string "nginx")],
    ValueOverrides := [("c10", [("replicas", .number "3")]), ("c99", [("debug", .bool true)])] }

/-- Cluster 15: resolvable, its status cannot be read. -/
def cluster15 : Cluster :=
  { ID := 15, Name := "c15", GetStatus := .error (.foreign "status unavailable") }

/-- The persisted group 1 with three member records: clusters 10, 99 and 15, of
which 99 does not resolve. -/
def group1ModelWithGhost : ClusterGroupModel :=
  { ID := 1, Name := "g1", OrganizationID := 7,
    Members := [{ ID := 1, ClusterGroupID := 1, ClusterID := 10 },
      { ID := 2, ClusterGroupID := 1, ClusterID := 99 },
      { ID := 3, ClusterGroupID := 1, ClusterID := 15 }] }

end Sim

/-! ## Helper lemmas -/

section Lemmas

variable {σ : Type}

theorem failedToGetStatus_ne_notInstalled (msg : String) :
    "failed to get status: " ++ msg ≠ NotInstalledStatus := by
  intro h
  have h2 := congrArg String.data h
  simp [NotInstalledStatus, String.data_append] at h2

theorem statusCode_ne_notInstalled (code : Status_Code) : code.String ≠ NotInstalledStatus := by
  cases code <;> decide

theorem failedToDelete_ne_deleted (msg : String) :
    "failed to delete cluster group deployment from cluster: " ++ msg ≠ DeletedStatus := by
  intro h
  have h2 := congrArg String.data h
  simp [DeletedStatus, String.data_append] at h2

theorem failed_ne_succeeded (msg : String) : FailedStatus ++ ": " ++ msg ≠ SucceededStatus := by
  intro h
  have h2 := congrArg String.data h
  simp [FailedStatus, SucceededStatus, String.data_append] at h2

/-- When the live-status query fails nothing is installed or upgraded and the
transition returns nil. -/
theorem upgradeOrInstall_of_query_error (env : Env σ) (w : World σ) (apiCluster : Cluster)
    (depInfo : DeploymentInfo) (requestedChart : Chart) (dryRun : Bool) (err : GoError)
    (hq : findRelease env w.state apiCluster depInfo.ReleaseName = .error err) :
    upgradeOrInstallDeploymentOnCluster env w apiCluster depInfo requestedChart dryRun
      = (none, w) := by
  simp [upgradeOrInstallDeploymentOnCluster, getClusterDeploymentStatus, hq,
    failedToGetStatus_ne_notInstalled]

/-- When the release is absent the transition installs and, when the install
succeeded, goes on to upgrade. -/
theorem upgradeOrInstall_of_absent (env : Env σ) (w : World σ) (apiCluster : Cluster)
    (depInfo : DeploymentInfo) (requestedChart : Chart) (dryRun : Bool)
    (hq : findRelease env w.state apiCluster depInfo.ReleaseName = .ok none) :
    upgradeOrInstallDeploymentOnCluster env w apiCluster depInfo requestedChart dryRun
      = match installDeploymentOnCluster env w apiCluster depInfo requestedChart dryRun with
        | (some err, w1) => (some err, w1)
        | (none, w1) =>
          upgradeDeploymentOnCluster env w1 apiCluster depInfo requestedChart dryRun := by
  simp only [upgradeOrInstallDeploymentOnCluster, getClusterDeploymentStatus, hq]
  simp only [if_true]
  rcases installDeploymentOnCluster env w apiCluster depInfo requestedChart dryRun with ⟨e, w1⟩
  cases e with
  | some err => rfl
  | none =>
    simp only [if_true]
    rcases upgradeDeploymentOnCluster env w1 apiCluster depInfo requestedChart dryRun with ⟨e2, w2⟩
    cases e2 <;> rfl

/-- When the release is present the transition never installs; it upgrades
exactly when the release is stale. -/
theorem upgradeOrInstall_of_present (env : Env σ) (w : World σ) (apiCluster : Cluster)
    (depInfo : DeploymentInfo) (requestedChart : Chart) (dryRun : Bool) (release : Release)
    (hq : findRelease env w.state apiCluster depInfo.ReleaseName = .ok (some release)) :
    upgradeOrInstallDeploymentOnCluster env w apiCluster depInfo requestedChart dryRun
      = if isStaleDeployment env release depInfo apiCluster = true then
          upgradeDeploymentOnCluster env w apiCluster depInfo requestedChart dryRun
        else (none, w) := by
  simp only [upgradeOrInstallDeploymentOnCluster, getClusterDeploymentStatus, hq]
  simp only [statusCode_ne_notInstalled, if_false]
  by_cases hs : isStaleDeployment env release depInfo apiCluster = true
  · simp only [hs, if_true]
    rcases upgradeDeploymentOnCluster env w apiCluster depInfo requestedChart dryRun with ⟨e2, w2⟩
    cases e2 <;> rfl
  · simp only [hs, if_false]
    simp

end Lemmas

/-! ## Drift detection -/

section Drift

variable {σ : Type}

/-- C1: for every installed release, desired deployment and member cluster
whose values render successfully (to `values`), isStaleDeployment returns true
if and only if the installed chart name differs from the desired chart name, or
the installed chart version differs from the desired chart version, or the raw
applied config of the release is not equal to the freshly rendered values. -/
theorem isStaleDeployment_iff (env : Env σ) (release : Release) (depInfo : DeploymentInfo)
    (apiCluster : Cluster) (values : String)
    (hrender : env.GetValuesForCluster depInfo apiCluster.Name = .ok values) :
    isStaleDeployment env release depInfo apiCluster = true ↔
      (release.Chart.Metadata.Name ≠ depInfo.ChartName ∨
        release.Chart.Metadata.Version ≠ depInfo.ChartVersion ∨
        release.Config.Raw ≠ values) := by
  unfold isStaleDeployment
  by_cases hn : release.Chart.Metadata.Name = depInfo.ChartName
  · by_cases hv : release.Chart.Metadata.Version = depInfo.ChartVersion
    · by_cases hr : release.Config.Raw = values
      · simp [hn, hv, hr, hrender]
      · simp [hn, hv, hr, hrender]
    · simp [hn, hv]
  · simp [hn]

/-- Witness of C1 in the simulated world: a release whose applied config
differs from the rendered values. -/
theorem isStaleDeployment_iff_witness :
    (Sim.env Sim.clusters []).GetValuesForCluster Sim.depInfo Sim.cluster10.Name = .ok ";" ∧
    (isStaleDeployment (Sim.env Sim.clusters [])
        { Name := "web", Chart := Sim.nginx, Config := { Raw := "replicas" } }
        Sim.depInfo Sim.cluster10 = true ↔
      ((({ Name := "web", Chart := Sim.nginx, Config := { Raw := "replicas" } } : Release).Chart.Metadata.Name
          ≠ Sim.depInfo.ChartName) ∨
        (({ Name := "web", Chart := Sim.nginx, Config := { Raw := "replicas" } } : Release).Chart.Metadata.Version
          ≠ Sim.depInfo.ChartVersion) ∨
        (({ Name := "web", Chart := Sim.nginx, Config := { Raw := "replicas" } } : Release).Config.Raw
          ≠ ";"))) :=
  ⟨by decide, isStaleDeployment_iff (Sim.env Sim.clusters [])
    { Name := "web", Chart := Sim.nginx, Config := { Raw := "replicas" } }
    Sim.depInfo Sim.cluster10 ";" (by decide)⟩

end Drift

/-! ## The install-or-upgrade transition -/

section Transition

/-- C2 (the code departs from the claim): on a member where the release is
absent and the install succeeds, upgradeOrInstallDeploymentOnCluster calls
install and then also upgrade, because `status.Stale` is true for a release
that is not installed and the second `if` is not an `else` branch. -/
theorem upgradeOrInstall_absent_calls_install_then_upgrade :
    findRelease (Sim.env Sim.clusters []) Sim.world0.state Sim.cluster10 Sim.depInfo.ReleaseName
      = .ok none ∧
    (upgradeOrInstallDeploymentOnCluster (Sim.env Sim.clusters []) Sim.world0 Sim.cluster10
        Sim.depInfo Sim.nginx false).1 = none ∧
    (upgradeOrInstallDeploymentOnCluster (Sim.env Sim.clusters []) Sim.world0 Sim.cluster10
        Sim.depInfo Sim.nginx false).2.trace
      = [.installDeploymentOnCluster 10 false, .upgradeDeploymentOnCluster 10 false] := by
  refine ⟨by decide, by decide, by decide⟩

/-- C3 (the code departs from the claim): for a member whose live-status query
fails, the entry returned by upgradeOrInstallDeploymentToTargetClusters carries
the status "deployed", although nothing was installed or upgraded. -/
theorem upgradeOrInstall_query_failure_reported_deployed :
    findRelease (Sim.env Sim.clusters []) Sim.world0.state Sim.cluster12 Sim.depInfo.ReleaseName
      = .error (.foreign "no kubeconfig") ∧
    (upgradeOrInstallDeploymentToTargetClusters (Sim.env Sim.clusters []) Sim.world0
        { Clusters := [(12, Sim.cluster12)] } Sim.depInfo Sim.nginx false).1
      = .returned [{ ClusterId := 12, ClusterName := "c12", Status := "deployed" }] ∧
    (upgradeOrInstallDeploymentToTargetClusters (Sim.env Sim.clusters []) Sim.world0
        { Clusters := [(12, Sim.cluster12)] } Sim.depInfo Sim.nginx false).2.trace = [] := by
  refine ⟨by decide, by decide, by decide⟩

end Transition

/-! ## The delete fan-out: dispatch and join -/

section DeleteJoin

/-- C4 (the code departs from the claim): with `deleteAll = false` and a
recorded target that is still a current member, the dispatch loop counts the
target (`deploymentCount = 1`) but starts no goroutine for it, so the join
waits for a status that is never sent and the function does not return. -/
theorem deleteDeploymentFromTargetClusters_blocks_on_current_member :
    deleteDeploymentFromTargetClusters.dispatch [(10, Sim.cluster10)] false
        [{ ClusterID := 10, ClusterName := "c10" }] = (1, []) ∧
    (deleteDeploymentFromTargetClusters (Sim.env Sim.clusters []) Sim.world0
        { Id := 1, Clusters := [(10, Sim.cluster10)] } "web"
        { ClusterGroupID := 1, DeploymentReleaseName := "web",
          TargetClusters := [{ ClusterID := 10, ClusterName := "c10" }] }
        false false).1 = .blocked := by
  refine ⟨by decide, by decide⟩

end DeleteJoin

/-! ## Updating the desired deployment -/

section UpdateModel

/-- C5 (the code departs from the claim): a request without reuse-values that
carries an override for current member `c10` leaves the recorded target of
`c10` with the override stored earlier, and a request without any override
leaves it there as well; a member recorded for the first time gets no override
although the request has one for it.  The assignments to `target.Values` reach
only the local copy of the target. -/
theorem updateDeploymentModel_keeps_previous_override :
    (Sim.env Sim.clusters []).jsonMarshal [("replicas", .number "3")] = .ok "replicas" ∧
    updateDeploymentModel (Sim.env Sim.clusters []) { Id := 1, Clusters := [(10, Sim.cluster10)] }
        { ClusterGroupID := 1, DeploymentReleaseName := "web", Values := some "",
          TargetClusters := [{ ClusterID := 10, ClusterName := "c10", Values := some "old" }] }
        { ReleaseName := "web", ValueOverrides := [("c10", [("replicas", .number "3")])] }
        Sim.nginx
      = (none,
        { ClusterGroupID := 1, DeploymentReleaseName := "web", Values := some "",
          ChartName := "nginx",
          TargetClusters := [{ ClusterID := 10, ClusterName := "c10", Values := some "old" }] }) ∧
    updateDeploymentModel (Sim.env Sim.clusters []) { Id := 1, Clusters := [(10, Sim.cluster10)] }
        { ClusterGroupID := 1, DeploymentReleaseName := "web", Values := some "",
          TargetClusters := [{ ClusterID := 10, ClusterName := "c10", Values := some "old" }] }
        { ReleaseName := "web" }
        Sim.nginx
      = (none,
        { ClusterGroupID := 1, DeploymentReleaseName := "web", Values := some "",
          ChartName := "nginx",
          TargetClusters := [{ ClusterID := 10, ClusterName := "c10", Values := some "old" }] }) ∧
    updateDeploymentModel (Sim.env Sim.clusters []) { Id := 1, Clusters := [(10, Sim.cluster10)] }
        { ClusterGroupID := 1, DeploymentReleaseName := "web", Values := some "" }
        { ReleaseName := "web", ValueOverrides := [("c10", [("replicas", .number "3")])] }
        Sim.nginx
      = (none,
        { ClusterGroupID := 1, DeploymentReleaseName := "web", Values := some "",
          ChartName := "nginx",
          TargetClusters := [{ ClusterID := 10, ClusterName := "c10", Values := none }] }) := by
  refine ⟨by decide, by decide, by decide, by decide⟩

end UpdateModel

/-! ## Creating a cluster group -/

section CreateGroup

variable {σ : Type}

/-- Whenever the name is free and the member loop admits nobody,
CreateClusterGroup dereferences the nil `cgModel` and panics; the world is
left as it was. -/
theorem CreateClusterGroup_panics_of_no_admitted_member (env : Env σ) (w : World σ)
    (name : String) (orgID : Nat) (members : List Nat) (err : Option GoError)
    (hfree : env.cgFindOne w.state { OrganizationID := orgID, Name := name } = (none, err))
    (hnf : err = none ∨ IsClusterGroupNotFoundError err = true)
    (hloop : CreateClusterGroup.loop env w.state orgID members [] = .ok []) :
    CreateClusterGroup env w name orgID members = (.panicked, w) := by
  unfold CreateClusterGroup
  rw [hfree]
  rcases hnf with h | h
  · subst h
    simp [hloop]
  · cases err with
    | none => simp [hloop]
    | some e => simp [h, hloop]

/-- C6 (the code departs from the claim): creating group `g1` in organization
7 from the single member 13, which resolves and is ungrouped but is not ready,
does not return a NoReadyMembers error: building the error evaluates
`*cgModel` with `cgModel` nil and the call panics.  No group is created. -/
theorem CreateClusterGroup_no_ready_member_panics :
    (Sim.env Sim.clusters []).GetClusterByID Sim.world0.state 7 13 = .ok Sim.cluster13 ∧
    isClusterMemberOfAClusterGroup (Sim.env Sim.clusters []) Sim.world0.state 13 0
      = (false, none) ∧
    Sim.cluster13.IsReady = (false, none) ∧
    (CreateClusterGroup (Sim.env Sim.clusters []) Sim.world0 "g1" 7 [13]).1 = .panicked ∧
    (CreateClusterGroup (Sim.env Sim.clusters []) Sim.world0 "g1" 7 [13]).2.trace = [] := by
  refine ⟨by decide, by decide, by decide, by decide, by decide⟩

end CreateGroup

/-! ## Idempotence of the install-or-upgrade transition -/

section Idempotence

variable {σ : Type}

theorem isStaleDeployment_eq_false (env : Env σ) (release : Release) (depInfo : DeploymentInfo)
    (apiCluster : Cluster) (values : String)
    (hrender : env.GetValuesForCluster depInfo apiCluster.Name = .ok values)
    (hn : release.Chart.Metadata.Name = depInfo.ChartName)
    (hv : release.Chart.Metadata.Version = depInfo.ChartVersion)
    (hr : release.Config.Raw = values) :
    isStaleDeployment env release depInfo apiCluster = false := by
  simp [isStaleDeployment, hn, hv, hr, hrender]

/-- A successful upgrade leaves, under `InstallerRecords`, a recorded release. -/
theorem upgrade_success_recorded (env : Env σ) (w0 w1 : World σ) (apiCluster : Cluster)
    (depInfo : DeploymentInfo) (requestedChart : Chart) (dryRun : Bool)
    (hrec : InstallerRecords env dryRun)
    (hup : upgradeDeploymentOnCluster env w0 apiCluster depInfo requestedChart dryRun
      = (none, w1)) :
    ∃ k8sConfig values, apiCluster.GetK8sConfig = .ok k8sConfig ∧
      env.GetValuesForCluster depInfo apiCluster.Name = .ok values ∧
      Recorded env w1.state k8sConfig depInfo.ReleaseName requestedChart values := by
  unfold upgradeDeploymentOnCluster at hup
  cases hk : apiCluster.GetK8sConfig with
  | error e => simp [hk] at hup
  | ok k8sConfig =>
    cases hg : env.GetValuesForCluster depInfo apiCluster.Name with
    | error e => simp [hk, hg] at hup
    | ok values =>
      simp only [hk, hg] at hup
      cases hc : env.NewClient (w0.emit (.upgradeDeploymentOnCluster apiCluster.ID dryRun)).state
          k8sConfig with
      | some e => simp [hc] at hup
      | none =>
        simp only [hc] at hup
        rcases hu : env.UpdateReleaseFromChart
            (w0.emit (.upgradeDeploymentOnCluster apiCluster.ID dryRun)).state k8sConfig
            depInfo.ReleaseName requestedChart values dryRun with ⟨e, s1⟩
        cases e with
        | some e => simp [hu] at hup
        | none =>
          simp only [hu, Prod.mk.injEq, true_and] at hup
          refine ⟨k8sConfig, values, rfl, rfl, ?_⟩
          rw [← hup]
          exact hrec.2 _ _ _ _ _ _ hu

/-- On a member whose listed release carries the desired chart and the
rendered values, the transition does nothing and returns nil. -/
theorem upgradeOrInstall_of_recorded (env : Env σ) (w : World σ) (apiCluster : Cluster)
    (depInfo : DeploymentInfo) (requestedChart : Chart) (dryRun : Bool)
    (k8sConfig values : String)
    (hk : apiCluster.GetK8sConfig = .ok k8sConfig)
    (hg : env.GetValuesForCluster depInfo apiCluster.Name = .ok values)
    (hname : requestedChart.Metadata.Name = depInfo.ChartName)
    (hversion : requestedChart.Metadata.Version = depInfo.ChartVersion)
    (hrec : Recorded env w.state k8sConfig depInfo.ReleaseName requestedChart values) :
    upgradeOrInstallDeploymentOnCluster env w apiCluster depInfo requestedChart dryRun
      = (none, w) := by
  obtain ⟨deployments, release, hl, hf, hn, hv, hr⟩ := hrec
  have hq : findRelease env w.state apiCluster depInfo.ReleaseName = .ok (some release) := by
    simp [findRelease, hk, hl, hf]
  rw [upgradeOrInstall_of_present env w apiCluster depInfo requestedChart dryRun release hq]
  rw [isStaleDeployment_eq_false env release depInfo apiCluster values hg (hn.trans hname)
    (hv.trans hversion) hr]
  simp

/-- A transition that returned nil either left the world untouched or ended
with a successful upgrade. -/
theorem upgradeOrInstall_success_cases (env : Env σ) (w w1 : World σ) (apiCluster : Cluster)
    (depInfo : DeploymentInfo) (requestedChart : Chart) (dryRun : Bool)
    (hfirst : upgradeOrInstallDeploymentOnCluster env w apiCluster depInfo requestedChart dryRun
      = (none, w1)) :
    w1 = w ∨ ∃ w0, upgradeDeploymentOnCluster env w0 apiCluster depInfo requestedChart dryRun
      = (none, w1) := by
  cases hq : findRelease env w.state apiCluster depInfo.ReleaseName with
  | error err =>
    rw [upgradeOrInstall_of_query_error env w apiCluster depInfo requestedChart dryRun err hq]
      at hfirst
    left
    exact (congrArg Prod.snd hfirst).symm
  | ok found =>
    cases found with
    | none =>
      rw [upgradeOrInstall_of_absent env w apiCluster depInfo requestedChart dryRun hq] at hfirst
      rcases hi : installDeploymentOnCluster env w apiCluster depInfo requestedChart dryRun
        with ⟨e, w0⟩
      rw [hi] at hfirst
      cases e with
      | some err => simp at hfirst
      | none => exact Or.inr ⟨w0, hfirst⟩
    | some release =>
      rw [upgradeOrInstall_of_present env w apiCluster depInfo requestedChart dryRun release hq]
        at hfirst
      by_cases hs : isStaleDeployment env release depInfo apiCluster = true
      · rw [if_pos hs] at hfirst
        exact Or.inr ⟨w, hfirst⟩
      · rw [if_neg hs] at hfirst
        left
        exact (congrArg Prod.snd hfirst).symm

/-- The simulated installer records what it is given when it is not asked
for a dry run. -/
theorem Sim.installerRecords (clusters : List Cluster)
    (deployments : List ClusterGroupDeploymentModel) :
    InstallerRecords (Sim.env clusters deployments) false := by
  constructor
  · intro s k8sConfig requestedChart ns name values s1 h
    simp only [Sim.env] at h
    by_cases he : Sim.releasesOf s name k8sConfig ≠ []
    · simp [he] at h
    · simp only [he, if_false, Bool.false_eq_true, Prod.mk.injEq, true_and] at h
      subst h
      refine ⟨_, { Name := name, Chart := requestedChart, Config := { Raw := values } }, rfl, ?_,
        rfl, rfl, rfl⟩
      simp [Sim.releasesOf, Sim.record]
  · intro s k8sConfig name requestedChart values s1 h
    simp only [Sim.env] at h
    by_cases he : Sim.releasesOf s name k8sConfig = []
    · simp [he] at h
    · simp only [he, if_false, Bool.false_eq_true, Prod.mk.injEq, true_and] at h
      subst h
      refine ⟨_, { Name := name, Chart := requestedChart, Config := { Raw := values } }, rfl, ?_,
        rfl, rfl, rfl⟩
      simp [Sim.releasesOf, Sim.record]

/-- C7 (as stated, false): with an installer that records what it is given,
a desired deployment whose requested version is the range `1.x` and a resolved
chart of version `1.2.3`, the first transition on cluster 10 succeeds (install,
then upgrade) and the second transition, run on the world the first one left,
calls upgrade again.  The same happens when the chart name of the desired
deployment differs from the name in the metadata of the resolved chart. -/
theorem upgradeOrInstall_second_call_upgrades_again :
    InstallerRecords (Sim.env Sim.clusters []) false ∧
    upgradeOrInstallDeploymentOnCluster (Sim.env Sim.clusters []) Sim.world0 Sim.cluster10
        Sim.depInfoRange Sim.nginx false = (none, Sim.world1 Sim.nginx) ∧
    (upgradeOrInstallDeploymentOnCluster (Sim.env Sim.clusters []) (Sim.world1 Sim.nginx)
        Sim.cluster10 Sim.depInfoRange Sim.nginx false).2.trace
      = (Sim.world1 Sim.nginx).trace ++ [.upgradeDeploymentOnCluster 10 false] ∧
    upgradeOrInstallDeploymentOnCluster (Sim.env Sim.clusters []) Sim.world0 Sim.cluster10
        Sim.depInfoReference Sim.nginx false = (none, Sim.world1 Sim.nginx) ∧
    (upgradeOrInstallDeploymentOnCluster (Sim.env Sim.clusters []) (Sim.world1 Sim.nginx)
        Sim.cluster10 Sim.depInfoReference Sim.nginx false).2.trace
      = (Sim.world1 Sim.nginx).trace ++ [.upgradeDeploymentOnCluster 10 false] :=
  ⟨Sim.installerRecords _ _, rfl, by decide, rfl, by decide⟩

/-- C7 (amended): for every member cluster, desired deployment and resolved
chart whose metadata name and version equal the chart name and chart version of
the desired deployment, if the installer records the chart name, chart version
and rendered values it was given and a first call of
upgradeOrInstallDeploymentOnCluster returns nil leaving the world `w1`, then a
second call on `w1` returns nil and leaves `w1` as it is (no install and no
upgrade is traced, the external state is unchanged), and the goroutine of the
fan-out reports the member as "deployed". -/
theorem upgradeOrInstall_idempotent (env : Env σ) (w w1 : World σ) (apiCluster : Cluster)
    (depInfo : DeploymentInfo) (requestedChart : Chart) (dryRun : Bool)
    (hrec : InstallerRecords env dryRun)
    (hname : requestedChart.Metadata.Name = depInfo.ChartName)
    (hversion : requestedChart.Metadata.Version = depInfo.ChartVersion)
    (hfirst : upgradeOrInstallDeploymentOnCluster env w apiCluster depInfo requestedChart dryRun
      = (none, w1)) :
    upgradeOrInstallDeploymentOnCluster env w1 apiCluster depInfo requestedChart dryRun
      = (none, w1) ∧
    upgradeOrInstallDeploymentToTargetClusters.goroutine env depInfo requestedChart dryRun w1
        apiCluster
      = ({ ClusterId := apiCluster.ID, ClusterName := apiCluster.Name,
           Status := SucceededStatus }, w1) := by
  have hsecond : upgradeOrInstallDeploymentOnCluster env w1 apiCluster depInfo requestedChart
      dryRun = (none, w1) := by
    rcases upgradeOrInstall_success_cases env w w1 apiCluster depInfo requestedChart dryRun hfirst
      with h | ⟨w0, hup⟩
    · subst h
      exact hfirst
    · obtain ⟨k8sConfig, values, hk, hg, hr⟩ :=
        upgrade_success_recorded env w0 w1 apiCluster depInfo requestedChart dryRun hrec hup
      exact upgradeOrInstall_of_recorded env w1 apiCluster depInfo requestedChart dryRun
        k8sConfig values hk hg hname hversion hr
  refine ⟨hsecond, ?_⟩
  simp [upgradeOrInstallDeploymentToTargetClusters.goroutine, hsecond]

/-- Witness of C7 (amended): chart nginx 1.2.3 requested as version 1.2.3 on
cluster 10 of the simulated world. -/
theorem upgradeOrInstall_idempotent_witness :
    InstallerRecords (Sim.env Sim.clusters []) false ∧
    Sim.nginx.Metadata.Name = Sim.depInfo.ChartName ∧
    Sim.nginx.Metadata.Version = Sim.depInfo.ChartVersion ∧
    upgradeOrInstallDeploymentOnCluster (Sim.env Sim.clusters []) Sim.world0 Sim.cluster10
        Sim.depInfo Sim.nginx false = (none, Sim.world1 Sim.nginx) ∧
    upgradeOrInstallDeploymentOnCluster (Sim.env Sim.clusters []) (Sim.world1 Sim.nginx)
        Sim.cluster10 Sim.depInfo Sim.nginx false = (none, Sim.world1 Sim.nginx) ∧
    upgradeOrInstallDeploymentToTargetClusters.goroutine (Sim.env Sim.clusters []) Sim.depInfo
        Sim.nginx false (Sim.world1 Sim.nginx) Sim.cluster10
      = ({ ClusterId := Sim.cluster10.ID, ClusterName := Sim.cluster10.Name,
           Status := SucceededStatus }, Sim.world1 Sim.nginx) :=
  ⟨Sim.installerRecords _ _, rfl, rfl, rfl,
    upgradeOrInstall_idempotent (Sim.env Sim.clusters []) Sim.world0 (Sim.world1 Sim.nginx)
      Sim.cluster10 Sim.depInfo Sim.nginx false (Sim.installerRecords _ _) rfl rfl rfl⟩

end Idempotence

/-! ## Fan-out and aggregation -/

section FanOut

variable {σ : Type}

theorem runGoroutines_cons {τ : Type} (body : World σ → τ → TargetClusterStatus × World σ)
    (w : World σ) (task : τ) (rest : List τ) :
    runGoroutines body w (task :: rest)
      = ((body w task).1 :: (runGoroutines body (body w task).2 rest).1,
         (runGoroutines body (body w task).2 rest).2) := by
  rw [runGoroutines]

theorem runGoroutines_length {τ : Type} (body : World σ → τ → TargetClusterStatus × World σ)
    (tasks : List τ) : ∀ w : World σ, (runGoroutines body w tasks).1.length = tasks.length := by
  induction tasks with
  | nil => intro w; simp [runGoroutines]
  | cons task rest ih => intro w; simp [runGoroutines_cons, ih]

/-- The status sent by the goroutine at position `i` is computed in the world
left by the goroutines dispatched before it. -/
theorem runGoroutines_getElem? {τ : Type}
    (body : World σ → τ → TargetClusterStatus × World σ) (tasks : List τ) :
    ∀ (w : World σ) (i : Nat), (runGoroutines body w tasks).1[i]?
      = (tasks[i]?).map (fun task => (body (runGoroutines body w (tasks.take i)).2 task).1) := by
  induction tasks with
  | nil => intro w i; simp [runGoroutines]
  | cons task rest ih =>
    intro w i
    cases i with
    | zero => simp [runGoroutines_cons, runGoroutines]
    | succ i => simp [runGoroutines_cons, ih]

theorem runGoroutines_map {τ κ : Type} (body : World σ → τ → TargetClusterStatus × World σ)
    (f : TargetClusterStatus → κ) (g : τ → κ) (h : ∀ w task, f (body w task).1 = g task)
    (tasks : List τ) : ∀ w : World σ, (runGoroutines body w tasks).1.map f = tasks.map g := by
  induction tasks with
  | nil => intro w; simp [runGoroutines]
  | cons task rest ih => intro w; simp [runGoroutines_cons, ih, h]

theorem joinStatuses_of_length (deploymentCount : Nat) (sent : List TargetClusterStatus)
    (h : sent.length = deploymentCount) : joinStatuses deploymentCount sent = .returned sent := by
  subst h
  simp [joinStatuses]

theorem upgradeOrInstall_dispatch (clusters : List (Nat × Cluster)) :
    upgradeOrInstallDeploymentToTargetClusters.dispatch clusters
      = (clusters.length, clusters.map Prod.snd) := by
  induction clusters with
  | nil => rfl
  | cons entry rest ih =>
    rw [upgradeOrInstallDeploymentToTargetClusters.dispatch, ih]
    simp

theorem failed_status_text (msg : String) : FailedStatus ++ ": " ++ msg = "failed: " ++ msg := by
  have h : FailedStatus ++ ": " = "failed: " := by decide
  rw [h]

/-- C8: for every cluster group and desired deployment,
upgradeOrInstallDeploymentToTargetClusters returns, and the list it returns has
exactly one entry per cluster of `clusterGroup.Clusters`: the entries carry, in
dispatch order, the ids and names of the clusters (so every id occurs among the
entries as often as among the clusters: once), and the entry at position
`i` has the status "deployed" when the transition of that member (run in the
world left by the members dispatched before it) returned no error and
"failed: " followed by the error text otherwise.  The number of entries and
their ids and names do not depend on the result of any transition. -/
theorem upgradeOrInstallDeploymentToTargetClusters_one_entry_per_cluster (env : Env σ)
    (w : World σ) (clusterGroup : ClusterGroup) (depInfo : DeploymentInfo)
    (requestedChart : Chart) (dryRun : Bool) :
    ∃ statuses : List TargetClusterStatus,
      (upgradeOrInstallDeploymentToTargetClusters env w clusterGroup depInfo requestedChart
        dryRun).1 = .returned statuses ∧
      statuses.length = clusterGroup.Clusters.length ∧
      statuses.map (fun status => (status.ClusterId, status.ClusterName))
        = clusterGroup.Clusters.map (fun entry => (entry.2.ID, entry.2.Name)) ∧
      (∀ clusterID : Nat, (statuses.map (fun status => status.ClusterId)).count clusterID
        = (clusterGroup.Clusters.map (fun entry => entry.2.ID)).count clusterID) ∧
      ∀ i : Nat, statuses[i]? = (clusterGroup.Clusters[i]?).map (fun entry =>
        { ClusterId := entry.2.ID
          ClusterName := entry.2.Name
          Status :=
            match (upgradeOrInstallDeploymentOnCluster env
              (runGoroutines
                (upgradeOrInstallDeploymentToTargetClusters.goroutine env depInfo requestedChart
                  dryRun)
                w ((clusterGroup.Clusters.take i).map Prod.snd)).2
              entry.2 depInfo requestedChart dryRun).1 with
            | none => "deployed"
            | some err => "failed: " ++ err.Error }) := by
  refine ⟨(runGoroutines
    (upgradeOrInstallDeploymentToTargetClusters.goroutine env depInfo requestedChart dryRun)
    w (clusterGroup.Clusters.map Prod.snd)).1, ?_, ?_, ?_, ?_, ?_⟩
  · simp only [upgradeOrInstallDeploymentToTargetClusters, upgradeOrInstall_dispatch]
    rw [joinStatuses_of_length]
    simp [runGoroutines_length]
  · simp [runGoroutines_length]
  · rw [runGoroutines_map _ (fun status => (status.ClusterId, status.ClusterName))
      (fun apiCluster => (apiCluster.ID, apiCluster.Name))]
    · simp
    · intro w0 task
      simp [upgradeOrInstallDeploymentToTargetClusters.goroutine]
  · intro clusterID
    rw [runGoroutines_map _ (fun status => status.ClusterId) (fun apiCluster => apiCluster.ID)]
    · rw [List.map_map]
      rfl
    · intro w0 task
      simp [upgradeOrInstallDeploymentToTargetClusters.goroutine]
  · intro i
    rw [runGoroutines_getElem?]
    simp only [List.getElem?_map, Option.map_map, List.map_take]
    congr 1
    funext entry
    simp only [Function.comp, upgradeOrInstallDeploymentToTargetClusters.goroutine]
    rcases upgradeOrInstallDeploymentOnCluster env _ entry.2 depInfo requestedChart dryRun
      with ⟨clerr, w1⟩
    cases clerr with
    | none => rfl
    | some err => simp [failed_status_text]

end FanOut

/-! ## Deleting a deployment -/

section Delete

variable {σ : Type}

theorem deleteDeploymentFromCluster_trace (env : Env σ) (w : World σ) (clusterId : Nat)
    (apiCluster : Option Cluster) (name : String) :
    (deleteDeploymentFromCluster env w clusterId apiCluster name).2.trace
      = w.trace ++ [.deleteDeploymentFromCluster clusterId] := by
  unfold deleteDeploymentFromCluster
  simp only [World.emit]
  split
  · rfl
  · split
    · rfl
    · split <;> rfl

theorem delete_goroutines_trace (env : Env σ) (forceDelete : Bool) (name : String)
    (tasks : List (Nat × Option Cluster)) : ∀ w : World σ,
    (runGoroutines (deleteDeploymentFromTargetClusters.goroutine env forceDelete name) w
      tasks).2.trace
      = w.trace ++ tasks.map (fun task => Event.deleteDeploymentFromCluster task.1) := by
  induction tasks with
  | nil => intro w; simp [runGoroutines]
  | cons task rest ih =>
    intro w
    rw [runGoroutines_cons]
    simp only [ih, deleteDeploymentFromTargetClusters.goroutine,
      deleteDeploymentFromCluster_trace]
    simp

theorem delete_dispatch_all (clusters : List (Nat × Cluster)) (targets : List TargetCluster) :
    deleteDeploymentFromTargetClusters.dispatch clusters true targets
      = (targets.length,
         targets.map (fun target => (target.ClusterID, clusters.lookup target.ClusterID))) := by
  induction targets with
  | nil => rfl
  | cons target rest ih =>
    rw [deleteDeploymentFromTargetClusters.dispatch, ih]
    simp

/-- C9: in the delete fan-out, for every dispatched target and every world,
the status the goroutine reports is "deleted" if and only if the per-target
delete returned nil, or its error is a member-cluster-not-found error, or
forceDelete is set; otherwise the delete returned an error and the status is
"failed to delete cluster group deployment from cluster: " followed by the
message of that error. -/
theorem delete_goroutine_status (env : Env σ) (forceDelete : Bool) (name : String)
    (w : World σ) (task : Nat × Option Cluster) :
    ((deleteDeploymentFromTargetClusters.goroutine env forceDelete name w task).1.Status
        = "deleted" ↔
      ((deleteDeploymentFromCluster env w task.1 task.2 name).1 = none ∨
        (IsMemberClusterNotFoundError
          (deleteDeploymentFromCluster env w task.1 task.2 name).1).2 = true ∨
        forceDelete = true)) ∧
    ((deleteDeploymentFromTargetClusters.goroutine env forceDelete name w task).1.Status
        ≠ "deleted" →
      ∃ err, (deleteDeploymentFromCluster env w task.1 task.2 name).1 = some err ∧
        (deleteDeploymentFromTargetClusters.goroutine env forceDelete name w task).1.Status
          = "failed to delete cluster group deployment from cluster: " ++ err.Error) := by
  unfold deleteDeploymentFromTargetClusters.goroutine
  rcases deleteDeploymentFromCluster env w task.1 task.2 name with ⟨clErr, w1⟩
  have hd : DeletedStatus = "deleted" := rfl
  cases clErr with
  | none => simp [hd]
  | some err =>
    by_cases hok : (IsMemberClusterNotFoundError (some err)).2 = true
    · simp [hok, hd]
    · cases forceDelete with
      | true => simp [hok, hd]
      | false =>
        have hne := failedToDelete_ne_deleted err.Error
        rw [hd] at hne
        simp [hok, hne]

/-- The external state the per-target delete leaves behind: the state after
the Helm delete on the cluster the getter resolves the id to, when the cluster
resolves and its kubeconfig is obtained, and the state as it was otherwise. -/
theorem deleteDeploymentFromCluster_state (env : Env σ) (w : World σ) (clusterId : Nat)
    (apiCluster : Option Cluster) (name : String) :
    (deleteDeploymentFromCluster env w clusterId apiCluster name).2.state
      = match env.GetClusterByIDOnly w.state clusterId with
        | .error _ => w.state
        | .ok cluster =>
          match cluster.GetK8sConfig with
          | .error _ => w.state
          | .ok k8sConfig => (env.helmDeleteDeployment w.state name k8sConfig).2 := by
  unfold deleteDeploymentFromCluster
  simp only [World.emit]
  cases env.GetClusterByIDOnly w.state clusterId with
  | error err => rfl
  | ok cluster =>
    simp only []
    cases cluster.GetK8sConfig with
    | error err => rfl
    | ok k8sConfig =>
      simp only []
      rcases env.helmDeleteDeployment w.state name k8sConfig with ⟨e, s⟩
      cases e <;> rfl

/-- The external state after the delete goroutines: the per-target deletes,
one after the other, on every dispatched target. -/
theorem delete_goroutines_state (env : Env σ) (forceDelete : Bool) (name : String)
    (tasks : List (Nat × Option Cluster)) : ∀ w : World σ,
    (runGoroutines (deleteDeploymentFromTargetClusters.goroutine env forceDelete name) w
      tasks).2.state
      = tasks.foldl (fun s task =>
          match env.GetClusterByIDOnly s task.1 with
          | .error _ => s
          | .ok cluster =>
            match cluster.GetK8sConfig with
            | .error _ => s
            | .ok k8sConfig => (env.helmDeleteDeployment s name k8sConfig).2) w.state := by
  induction tasks with
  | nil => intro w; simp [runGoroutines]
  | cons task rest ih =>
    intro w
    rw [runGoroutines_cons]
    simp only [ih, List.foldl_cons]
    congr 1
    simp only [deleteDeploymentFromTargetClusters.goroutine]
    exact deleteDeploymentFromCluster_state env w task.1 task.2 name

/-- C10: whenever the desired deployment record is found, DeleteDeployment
attempts the delete on every recorded target, in recorded order and whatever
`clusterGroup.Clusters` holds: for every recorded target in turn it resolves
the target's cluster id through the cluster getter and, when the cluster
resolves and gives its kubeconfig, calls the Helm delete of the release on that
cluster, so that the external state handed to the repository's Delete is the
state left by these Helm deletes one after the other.  It calls
deleteDeploymentFromCluster once per recorded target and completes its join; it
then returns the error of the repository's Delete, or else a list with exactly
one status entry per recorded target, carrying the ids of the targets. -/
theorem DeleteDeployment_reaches_every_recorded_target (env : Env σ) (w : World σ)
    (clusterGroup : ClusterGroup) (deploymentName : String) (forceDelete : Bool)
    (deploymentModel : ClusterGroupDeploymentModel)
    (hfound : env.repoFindByName w.state clusterGroup.Id deploymentName = .ok deploymentModel) :
    ∃ (statuses : List TargetClusterStatus) (w1 : World σ),
      statuses.map (fun status => status.ClusterId)
        = deploymentModel.TargetClusters.map (fun target => target.ClusterID) ∧
      w1.trace = w.trace ++ deploymentModel.TargetClusters.map
        (fun target => Event.deleteDeploymentFromCluster target.ClusterID) ∧
      w1.state = deploymentModel.TargetClusters.foldl (fun s target =>
          match env.GetClusterByIDOnly s target.ClusterID with
          | .error _ => s
          | .ok cluster =>
            match cluster.GetK8sConfig with
            | .error _ => s
            | .ok k8sConfig => (env.helmDeleteDeployment s deploymentName k8sConfig).2)
        w.state ∧
      (DeleteDeployment env w clusterGroup deploymentName forceDelete).2.trace = w1.trace ∧
      (DeleteDeployment env w clusterGroup deploymentName forceDelete).2.state
        = (env.repoDelete w1.state deploymentModel statuses).2 ∧
      (DeleteDeployment env w clusterGroup deploymentName forceDelete).1
        = match (env.repoDelete w1.state deploymentModel statuses).1 with
          | none => .returned (.ok statuses)
          | some err => .returned (.error err) := by
  refine ⟨(runGoroutines
      (deleteDeploymentFromTargetClusters.goroutine env forceDelete deploymentName) w
      (deploymentModel.TargetClusters.map
        (fun target => (target.ClusterID, clusterGroup.Clusters.lookup target.ClusterID)))).1,
    (runGoroutines
      (deleteDeploymentFromTargetClusters.goroutine env forceDelete deploymentName) w
      (deploymentModel.TargetClusters.map
        (fun target => (target.ClusterID, clusterGroup.Clusters.lookup target.ClusterID)))).2,
    ?_, ?_, ?_, ?_, ?_, ?_⟩
  · rw [runGoroutines_map _ (fun status => status.ClusterId) (fun task => task.1)]
    · simp
    · intro w0 task
      simp [deleteDeploymentFromTargetClusters.goroutine]
  · rw [delete_goroutines_trace]
    simp
  · rw [delete_goroutines_state, List.foldl_map]
  · simp only [DeleteDeployment, hfound, deleteDeploymentFromTargetClusters, delete_dispatch_all]
    rw [joinStatuses_of_length _ _ (by simp [runGoroutines_length])]
    simp only []
    rcases env.repoDelete _ deploymentModel _ with ⟨e, s⟩
    cases e <;> rfl
  · simp only [DeleteDeployment, hfound, deleteDeploymentFromTargetClusters, delete_dispatch_all]
    rw [joinStatuses_of_length _ _ (by simp [runGoroutines_length])]
    simp only []
    rcases env.repoDelete _ deploymentModel _ with ⟨e, s⟩
    cases e <;> rfl
  · simp only [DeleteDeployment, hfound, deleteDeploymentFromTargetClusters, delete_dispatch_all]
    rw [joinStatuses_of_length _ _ (by simp [runGoroutines_length])]
    simp only []
    rcases env.repoDelete _ deploymentModel _ with ⟨e, s⟩
    cases e <;> rfl

/-- Witness of C10: release `web` is recorded and installed on clusters 10 and
11, and cluster 11 has left the group.  DeleteDeployment deletes it from both:
no release is left, and the two statuses are `deleted`. -/
theorem DeleteDeployment_reaches_every_recorded_target_witness :
    (Sim.env Sim.clusters [Sim.webModel]).repoFindByName Sim.worldWebOn10And11.state
      Sim.group1.Id "web" = .ok Sim.webModel ∧
    Sim.group1.Clusters.lookup 11 = none ∧
    DeleteDeployment (Sim.env Sim.clusters [Sim.webModel]) Sim.worldWebOn10And11 Sim.group1
        "web" false
      = (.returned (.ok [{ ClusterId := 10, ClusterName := "c10", Status := "deleted" },
                         { ClusterId := 11, Status := "deleted" }]),
         { state := []
           trace := [.deleteDeploymentFromCluster 10, .deleteDeploymentFromCluster 11] }) ∧
    ∃ (statuses : List TargetClusterStatus) (w1 : World Sim.Tiller),
      statuses.map (fun status => status.ClusterId)
        = Sim.webModel.TargetClusters.map (fun target => target.ClusterID) ∧
      w1.trace = Sim.worldWebOn10And11.trace ++ Sim.webModel.TargetClusters.map
        (fun target => Event.deleteDeploymentFromCluster target.ClusterID) ∧
      w1.state = Sim.webModel.TargetClusters.foldl (fun s target =>
          match (Sim.env Sim.clusters [Sim.webModel]).GetClusterByIDOnly s target.ClusterID with
          | .error _ => s
          | .ok cluster =>
            match cluster.GetK8sConfig with
            | .error _ => s
            | .ok k8sConfig =>
              ((Sim.env Sim.clusters [Sim.webModel]).helmDeleteDeployment s "web" k8sConfig).2)
        Sim.worldWebOn10And11.state ∧
      (DeleteDeployment (Sim.env Sim.clusters [Sim.webModel]) Sim.worldWebOn10And11 Sim.group1
        "web" false).2.trace = w1.trace ∧
      (DeleteDeployment (Sim.env Sim.clusters [Sim.webModel]) Sim.worldWebOn10And11 Sim.group1
        "web" false).2.state
        = ((Sim.env Sim.clusters [Sim.webModel]).repoDelete w1.state Sim.webModel statuses).2 ∧
      (DeleteDeployment (Sim.env Sim.clusters [Sim.webModel]) Sim.worldWebOn10And11 Sim.group1
        "web" false).1
        = match ((Sim.env Sim.clusters [Sim.webModel]).repoDelete w1.state Sim.webModel
            statuses).1 with
          | none => .returned (.ok statuses)
          | some err => .returned (.error err) :=
  ⟨by decide, by decide, rfl,
    DeleteDeployment_reaches_every_recorded_target (Sim.env Sim.clusters [Sim.webModel])
      Sim.worldWebOn10And11 Sim.group1 "web" false Sim.webModel (by decide)⟩

end Delete

/-! ## Reconciling the deployments of a group -/

section Reconcile

/-- C11 (the code departs from the claim): group 1 has the single member 10
and two desired deployments, `web` recorded on clusters 10 and 11 and `cache`
recorded on cluster 12.  With the feature enabled, ReconcileState deletes from
cluster 11 for the first deployment and then waits for ever in the join of
deleteDeploymentFromTargetClusters (the member target 10 is counted but not
dispatched); the delete on the departed target 12 of the second deployment is
never attempted. -/
theorem ReconcileState_enabled_stops_at_first_deployment :
    (Sim.env Sim.clusters [Sim.webModel, Sim.cacheModel]).repoFindAll Sim.world0.state 1
      = ([Sim.webModel, Sim.cacheModel], none) ∧
    Sim.cacheModel.TargetClusters.filter
        (fun target => Sim.group1.Clusters.lookup target.ClusterID = none)
      = [{ ClusterID := 12, ClusterName := "c12" }] ∧
    (ReconcileState (Sim.env Sim.clusters [Sim.webModel, Sim.cacheModel]) Sim.world0
        (Sim.deploymentFeature true)).1 = .blocked ∧
    (ReconcileState (Sim.env Sim.clusters [Sim.webModel, Sim.cacheModel]) Sim.world0
        (Sim.deploymentFeature true)).2.trace = [.deleteDeploymentFromCluster 11] := by
  refine ⟨by decide, by decide, by decide, by decide⟩

/-- C12 (the code departs from the claim): with the feature disabled,
ReconcileState calls DeleteDeployment with `deployment.DeploymentName` (the
chart reference `stable/nginx`), not with the release name `web` under which
the record is looked up; the record is not found, the error is dropped, and no
delete reaches cluster 10 or 11.  DeleteDeployment called with the release name
deletes from both. -/
theorem ReconcileState_disabled_looks_up_by_chart_name :
    Sim.webModel.DeploymentName = "stable/nginx" ∧
    Sim.webModel.DeploymentReleaseName = "web" ∧
    (Sim.env Sim.clusters [Sim.webModel]).repoFindAll Sim.world0.state 1
      = ([Sim.webModel], none) ∧
    (Sim.env Sim.clusters [Sim.webModel]).repoFindByName Sim.world0.state 1 "stable/nginx"
      = .error (.withStack (.deploymentNotFound 1 "stable/nginx")) ∧
    (ReconcileState (Sim.env Sim.clusters [Sim.webModel]) Sim.world0
        (Sim.deploymentFeature false)).1 = .returned none ∧
    (ReconcileState (Sim.env Sim.clusters [Sim.webModel]) Sim.world0
        (Sim.deploymentFeature false)).2.trace = [] ∧
    (DeleteDeployment (Sim.env Sim.clusters [Sim.webModel]) Sim.world0 Sim.group1 "web"
        false).2.trace
      = [.deleteDeploymentFromCluster 10, .deleteDeploymentFromCluster 11] := by
  refine ⟨by decide, by decide, by decide, by decide, by decide, by decide, by decide⟩

end Reconcile

/-! ## Reading a deployment -/

section Read

variable {σ : Type}

theorem runGoroutines_world {τ : Type} (body : World σ → τ → TargetClusterStatus × World σ)
    (h : ∀ w task, (body w task).2 = w) (tasks : List τ) :
    ∀ w : World σ, (runGoroutines body w tasks).2 = w := by
  induction tasks with
  | nil => intro w; simp [runGoroutines]
  | cons task rest ih => intro w; simp [runGoroutines_cons, ih, h]

theorem GetDeployment_dispatch (clusters : List (Nat × Cluster)) :
    GetDeployment.dispatch clusters = (clusters.length, clusters.map Prod.snd) := by
  induction clusters with
  | nil => rfl
  | cons entry rest ih =>
    rw [GetDeployment.dispatch, ih]
    simp

theorem stale_not_found_text : StaleStatus ++ ", cluster not found" = "stale, cluster not found" := by
  decide

/-- C13: for every current-cluster map and list of recorded targets,
addStaleClusterStatuses returns, in recorded order, one entry for each recorded
target whose cluster id is not a key of the map, with the id and name of that
target and the status "stale" when the cluster resolves and "stale, cluster not
found" when it does not, and no entry for a target that is a key of the map.
Whenever the record is found and converts, GetDeployment returns one live entry
per current member followed by these stale entries. -/
theorem addStaleClusterStatuses_one_entry_per_departed_target (env : Env σ) (w : World σ)
    (clusterGroup : ClusterGroup) (deploymentName : String)
    (deploymentModel : ClusterGroupDeploymentModel) (depInfo : DeploymentInfo)
    (hfound : env.repoFindByName w.state clusterGroup.Id deploymentName = .ok deploymentModel)
    (hconv : getDeploymentFromModel env deploymentModel = .ok depInfo) :
    (∀ (s : σ) (clusters : List (Nat × Cluster)) (overrides : List TargetCluster),
      addStaleClusterStatuses env s clusters overrides
        = (overrides.filter (fun o => clusters.lookup o.ClusterID = none)).map (fun o =>
            { ClusterId := o.ClusterID
              ClusterName := o.ClusterName
              Status :=
                match env.GetClusterByIDOnly s o.ClusterID with
                | .ok _ => "stale"
                | .error _ => "stale, cluster not found" })) ∧
    ∃ live : List TargetClusterStatus,
      live.length = clusterGroup.Clusters.length ∧
      GetDeployment env w clusterGroup deploymentName
        = (.returned (.ok { depInfo with
            TargetClusters := live ++
              addStaleClusterStatuses env w.state clusterGroup.Clusters
                deploymentModel.TargetClusters }), w) := by
  constructor
  · intro s clusters overrides
    induction overrides with
    | nil => rfl
    | cons o rest ih =>
      by_cases hmember : clusters.lookup o.ClusterID = none
      · simp only [addStaleClusterStatuses, hmember, if_true, ih, List.filter_cons, decide_True,
          List.map_cons]
        cases env.GetClusterByIDOnly s o.ClusterID with
        | error e => simp [stale_not_found_text]
        | ok cluster => simp [StaleStatus]
      · simp only [addStaleClusterStatuses, hmember, if_false, ih, List.filter_cons,
          decide_False]
        simp
  · refine ⟨(runGoroutines (GetDeployment.goroutine env deploymentName depInfo) w
      (clusterGroup.Clusters.map Prod.snd)).1, by simp [runGoroutines_length], ?_⟩
    have hw : (runGoroutines (GetDeployment.goroutine env deploymentName depInfo) w
        (clusterGroup.Clusters.map Prod.snd)).2 = w :=
      runGoroutines_world _ (fun _ _ => rfl) _ w
    simp only [GetDeployment, hfound, hconv, GetDeployment_dispatch]
    rw [joinStatuses_of_length _ _ (by simp [runGoroutines_length])]
    simp only [hw]

/-- Witness of C13: release `web` of group 1, recorded on clusters 10 and 11
while only cluster 10 is still a member. -/
theorem addStaleClusterStatuses_one_entry_per_departed_target_witness :
    (Sim.env Sim.clusters [Sim.webModel]).repoFindByName Sim.world0.state Sim.group1.Id "web"
      = .ok Sim.webModel ∧
    getDeploymentFromModel (Sim.env Sim.clusters [Sim.webModel]) Sim.webModel
      = .ok { ReleaseName := "web", Chart := "stable/nginx", ChartName := "nginx",
              ChartVersion := "1.2.3" } ∧
    addStaleClusterStatuses (Sim.env Sim.clusters [Sim.webModel]) Sim.world0.state
        Sim.group1.Clusters Sim.webModel.TargetClusters
      = [{ ClusterId := 11, ClusterName := "c11", Status := "stale" }] ∧
    ∃ live : List TargetClusterStatus,
      live.length = Sim.group1.Clusters.length ∧
      GetDeployment (Sim.env Sim.clusters [Sim.webModel]) Sim.world0 Sim.group1 "web"
        = (.returned (.ok
          { ReleaseName := "web", Chart := "stable/nginx", ChartName := "nginx",
            ChartVersion := "1.2.3",
            TargetClusters := live ++
              addStaleClusterStatuses (Sim.env Sim.clusters [Sim.webModel]) Sim.world0.state
                Sim.group1.Clusters Sim.webModel.TargetClusters }), Sim.world0) :=
  ⟨by decide, rfl, by decide,
    (addStaleClusterStatuses_one_entry_per_departed_target (Sim.env Sim.clusters [Sim.webModel])
      Sim.world0 Sim.group1 "web" Sim.webModel _ (by decide) rfl).2⟩

end Read

/-! ## Updating with reuse-values -/

section ReuseValues

variable {σ : Type}

/-- C14: for every request with reuse-values set, updateDeploymentModel
returns nil and leaves the stored base values and the recorded targets (ids,
names and per-target overrides) of the model unchanged, while the version of
the model becomes the version of the request and its description and chart name
become those of the resolved chart. -/
theorem updateDeploymentModel_reuse_values (env : Env σ) (clusterGroup : ClusterGroup)
    (deploymentModel : ClusterGroupDeploymentModel) (cgDeployment : ClusterGroupDeployment)
    (requestedChart : Chart) (hreuse : cgDeployment.ReUseValues = true) :
    (updateDeploymentModel env clusterGroup deploymentModel cgDeployment requestedChart).1
      = none ∧
    (updateDeploymentModel env clusterGroup deploymentModel cgDeployment requestedChart).2.Values
      = deploymentModel.Values ∧
    (updateDeploymentModel env clusterGroup deploymentModel cgDeployment
      requestedChart).2.TargetClusters = deploymentModel.TargetClusters ∧
    (updateDeploymentModel env clusterGroup deploymentModel cgDeployment
      requestedChart).2.DeploymentVersion = cgDeployment.Version ∧
    (updateDeploymentModel env clusterGroup deploymentModel cgDeployment
      requestedChart).2.Description = requestedChart.Metadata.Description ∧
    (updateDeploymentModel env clusterGroup deploymentModel cgDeployment
      requestedChart).2.ChartName = requestedChart.Metadata.Name := by
  simp [updateDeploymentModel, hreuse]

/-- Witness of C14: an update of release `web` to version 2.0.0 that reuses
the stored values. -/
theorem updateDeploymentModel_reuse_values_witness :
    ({ ReleaseName := "web", Version := "2.0.0", ReUseValues := true,
       ValueOverrides := [("c10", [("replicas", .number "3")])] }
      : ClusterGroupDeployment).ReUseValues = true ∧
    (updateDeploymentModel (Sim.env Sim.clusters []) Sim.group1 Sim.webModel
      { ReleaseName := "web", Version := "2.0.0", ReUseValues := true,
        ValueOverrides := [("c10", [("replicas", .number "3")])] } Sim.nginx).2.TargetClusters
      = Sim.webModel.TargetClusters ∧
    (updateDeploymentModel (Sim.env Sim.clusters []) Sim.group1 Sim.webModel
      { ReleaseName := "web", Version := "2.0.0", ReUseValues := true,
        ValueOverrides := [("c10", [("replicas", .number "3")])] } Sim.nginx).2.DeploymentVersion
      = "2.0.0" :=
  ⟨rfl, (updateDeploymentModel_reuse_values (Sim.env Sim.clusters []) Sim.group1 Sim.webModel
      { ReleaseName := "web", Version := "2.0.0", ReUseValues := true,
        ValueOverrides := [("c10", [("replicas", .number "3")])] } Sim.nginx rfl).2.2.1,
    (updateDeploymentModel_reuse_values (Sim.env Sim.clusters []) Sim.group1 Sim.webModel
      { ReleaseName := "web", Version := "2.0.0", ReUseValues := true,
        ValueOverrides := [("c10", [("replicas", .number "3")])] } Sim.nginx rfl).2.2.2.1⟩

end ReuseValues

/-! ## Creating and updating a deployment -/

section CreateUpdate

variable {σ : Type}

theorem utf8ByteSize_eq_zero_iff (s : String) : s.utf8ByteSize = 0 ↔ s = "" := by
  cases s with
  | mk data =>
    cases data with
    | nil => simp [String.utf8ByteSize, String.utf8ByteSize.go]
    | cons c cs =>
      have hpos := Char.utf8Size_pos c
      constructor
      · intro h
        simp [String.utf8ByteSize, String.utf8ByteSize.go] at h
        omega
      · intro h
        have := congrArg String.data h
        simp at this

theorem installDeploymentOnCluster_trace (env : Env σ) (w : World σ) (apiCluster : Cluster)
    (depInfo : DeploymentInfo) (requestedChart : Chart) (dryRun : Bool) :
    (installDeploymentOnCluster env w apiCluster depInfo requestedChart dryRun).2.trace
      = w.trace ++ [.installDeploymentOnCluster apiCluster.ID dryRun] := by
  unfold installDeploymentOnCluster
  simp only [World.emit]
  split
  · rfl
  · split
    · rfl
    · split
      · rfl
      · split <;> rfl

theorem upgradeDeploymentOnCluster_trace (env : Env σ) (w : World σ) (apiCluster : Cluster)
    (depInfo : DeploymentInfo) (requestedChart : Chart) (dryRun : Bool) :
    (upgradeDeploymentOnCluster env w apiCluster depInfo requestedChart dryRun).2.trace
      = w.trace ++ [.upgradeDeploymentOnCluster apiCluster.ID dryRun] := by
  unfold upgradeDeploymentOnCluster
  simp only [World.emit]
  split
  · rfl
  · split
    · rfl
    · split
      · rfl
      · split <;> rfl

/-- The transition on one member only adds calls of install and upgrade,
made with its own dry-run flag, to the trace. -/
theorem upgradeOrInstall_trace (env : Env σ) (w : World σ) (apiCluster : Cluster)
    (depInfo : DeploymentInfo) (requestedChart : Chart) (dryRun : Bool) :
    ∃ events : List Event, (∀ e ∈ events, Event.isInstallerCallWith dryRun e) ∧
      (upgradeOrInstallDeploymentOnCluster env w apiCluster depInfo requestedChart dryRun).2.trace
        = w.trace ++ events := by
  have hi := installDeploymentOnCluster_trace env w apiCluster depInfo requestedChart dryRun
  cases hq : findRelease env w.state apiCluster depInfo.ReleaseName with
  | error err =>
    rw [upgradeOrInstall_of_query_error env w apiCluster depInfo requestedChart dryRun err hq]
    exact ⟨[], by simp, by simp⟩
  | ok found =>
    cases found with
    | none =>
      rw [upgradeOrInstall_of_absent env w apiCluster depInfo requestedChart dryRun hq]
      rcases hr : installDeploymentOnCluster env w apiCluster depInfo requestedChart dryRun
        with ⟨e, w0⟩
      rw [hr] at hi
      cases e with
      | some err =>
        exact ⟨[.installDeploymentOnCluster apiCluster.ID dryRun],
          by simp [Event.isInstallerCallWith], hi⟩
      | none =>
        refine ⟨[.installDeploymentOnCluster apiCluster.ID dryRun,
          .upgradeDeploymentOnCluster apiCluster.ID dryRun],
          by simp [Event.isInstallerCallWith], ?_⟩
        simp only [upgradeDeploymentOnCluster_trace]
        simp only [] at hi
        rw [hi]
        simp
    | some release =>
      rw [upgradeOrInstall_of_present env w apiCluster depInfo requestedChart dryRun release hq]
      by_cases hs : isStaleDeployment env release depInfo apiCluster = true
      · rw [if_pos hs]
        exact ⟨[.upgradeDeploymentOnCluster apiCluster.ID dryRun],
          by simp [Event.isInstallerCallWith],
          upgradeDeploymentOnCluster_trace env w apiCluster depInfo requestedChart dryRun⟩
      · rw [if_neg hs]
        exact ⟨[], by simp, by simp⟩

/-- A fan-out whose goroutines only add events with a property to the trace
only adds such events. -/
theorem runGoroutines_trace {τ : Type} (body : World σ → τ → TargetClusterStatus × World σ)
    (P : Event → Prop)
    (h : ∀ w task, ∃ events : List Event, (∀ e ∈ events, P e) ∧
      (body w task).2.trace = w.trace ++ events)
    (tasks : List τ) : ∀ w : World σ, ∃ events : List Event, (∀ e ∈ events, P e) ∧
      (runGoroutines body w tasks).2.trace = w.trace ++ events := by
  induction tasks with
  | nil => intro w; exact ⟨[], by simp, by simp [runGoroutines]⟩
  | cons task rest ih =>
    intro w
    obtain ⟨ev1, hp1, h1⟩ := h w task
    obtain ⟨ev2, hp2, h2⟩ := ih (body w task).2
    refine ⟨ev1 ++ ev2, ?_, ?_⟩
    · intro e he
      rcases List.mem_append.mp he with h' | h'
      · exact hp1 e h'
      · exact hp2 e h'
    · rw [runGoroutines_cons]
      simp only [h2, h1, List.append_assoc]

/-- The install-or-upgrade fan-out returns one status per member and only
adds installer calls made with its dry-run flag to the trace. -/
theorem upgradeOrInstallDeploymentToTargetClusters_returns (env : Env σ) (w : World σ)
    (clusterGroup : ClusterGroup) (depInfo : DeploymentInfo) (requestedChart : Chart)
    (dryRun : Bool) :
    ∃ (statuses : List TargetClusterStatus) (events : List Event),
      (upgradeOrInstallDeploymentToTargetClusters env w clusterGroup depInfo requestedChart
        dryRun).1 = .returned statuses ∧
      statuses.length = clusterGroup.Clusters.length ∧
      (∀ e ∈ events, Event.isInstallerCallWith dryRun e) ∧
      (upgradeOrInstallDeploymentToTargetClusters env w clusterGroup depInfo requestedChart
        dryRun).2.trace = w.trace ++ events := by
  obtain ⟨events, hp, ht⟩ := runGoroutines_trace
    (upgradeOrInstallDeploymentToTargetClusters.goroutine env depInfo requestedChart dryRun)
    (Event.isInstallerCallWith dryRun)
    (fun w0 task => by
      simpa [upgradeOrInstallDeploymentToTargetClusters.goroutine] using
        upgradeOrInstall_trace env w0 task depInfo requestedChart dryRun)
    (clusterGroup.Clusters.map Prod.snd) w
  refine ⟨(runGoroutines
    (upgradeOrInstallDeploymentToTargetClusters.goroutine env depInfo requestedChart dryRun)
    w (clusterGroup.Clusters.map Prod.snd)).1, events, ?_, ?_, hp, ?_⟩
  · simp only [upgradeOrInstallDeploymentToTargetClusters, upgradeOrInstall_dispatch]
    rw [joinStatuses_of_length _ _ (by simp [runGoroutines_length])]
  · simp [runGoroutines_length]
  · simp only [upgradeOrInstallDeploymentToTargetClusters, upgradeOrInstall_dispatch]
    exact ht

theorem defaultVersionAndNamespace_dryRun (env : Env σ) (cgDeployment : ClusterGroupDeployment)
    (requestedChart : Chart) :
    (defaultVersionAndNamespace env cgDeployment requestedChart).DryRun = cgDeployment.DryRun ∧
    (defaultVersionAndNamespace env cgDeployment requestedChart).ReleaseName
      = cgDeployment.ReleaseName := by
  unfold defaultVersionAndNamespace
  constructor <;> (simp only []; split <;> split <;> rfl)

theorem defaultVersionAndNamespace_fields (env : Env σ) (cgDeployment : ClusterGroupDeployment)
    (requestedChart : Chart) :
    (defaultVersionAndNamespace env cgDeployment requestedChart).Version
      = (if cgDeployment.Version = "" then requestedChart.Metadata.Version
         else cgDeployment.Version) ∧
    (defaultVersionAndNamespace env cgDeployment requestedChart).Namespace
      = (if cgDeployment.Namespace = "" then env.DefaultNamespace
         else cgDeployment.Namespace) := by
  unfold defaultVersionAndNamespace
  simp only [utf8ByteSize_eq_zero_iff]
  by_cases h : cgDeployment.Version = "" <;> by_cases hn : cgDeployment.Namespace = "" <;>
    simp [h, hn]

/-- The persistence step and the steps after it: the trace grows by the Save
(unless the request is a dry run) and by installer calls made with the dry-run
flag of the request. -/
theorem save_convert_fanOut_trace (env : Env σ) (w : World σ) (clusterGroup : ClusterGroup)
    (cgDeployment : ClusterGroupDeployment) (deploymentModel : ClusterGroupDeploymentModel)
    (requestedChart : Chart) :
    ∃ events : List Event, (∀ e ∈ events, Event.isInstallerCallWith cgDeployment.DryRun e) ∧
      (match saveUnlessDryRun env w cgDeployment deploymentModel with
        | (some err, w1) =>
          ((.returned (.error err), w1) :
            Outcome (Except GoError (List TargetClusterStatus)) × World σ)
        | (none, w1) =>
          convertAndFanOut env w1 clusterGroup cgDeployment deploymentModel requestedChart).2.trace
        = w.trace ++ (if cgDeployment.DryRun = true then [] else [Event.repoSave deploymentModel])
          ++ events := by
  have hconv : ∀ w1 : World σ, ∃ events : List Event,
      (∀ e ∈ events, Event.isInstallerCallWith cgDeployment.DryRun e) ∧
      (convertAndFanOut env w1 clusterGroup cgDeployment deploymentModel requestedChart).2.trace
        = w1.trace ++ events := by
    intro w1
    unfold convertAndFanOut
    cases hg : getDeploymentFromModel env deploymentModel with
    | error err => exact ⟨[], by simp, by simp⟩
    | ok depInfo =>
      obtain ⟨statuses, events, hr, _, hp, ht⟩ :=
        upgradeOrInstallDeploymentToTargetClusters_returns env w1 clusterGroup depInfo
          requestedChart cgDeployment.DryRun
      refine ⟨events, hp, ?_⟩
      simp only []
      rcases hf : upgradeOrInstallDeploymentToTargetClusters env w1 clusterGroup depInfo
        requestedChart cgDeployment.DryRun with ⟨o, w2⟩
      rw [hf] at hr ht
      simp only [] at hr ht
      subst hr
      exact ht
  unfold saveUnlessDryRun
  cases hd : cgDeployment.DryRun with
  | true =>
    obtain ⟨events, hp, ht⟩ := hconv w
    rw [hd] at hp
    refine ⟨events, hp, ?_⟩
    simpa using ht
  | false =>
    simp only [World.emit, if_true]
    rcases hs : env.repoSave w.state deploymentModel with ⟨e, s1⟩
    cases e with
    | some err => exact ⟨[], by simp, by simp⟩
    | none =>
      obtain ⟨events, hp, ht⟩ :=
        hconv { state := s1, trace := w.trace ++ [.repoSave deploymentModel] }
      rw [hd] at hp
      refine ⟨events, hp, ?_⟩
      simp only []
      rw [ht]
      simp

theorem createDeploymentModel_fields (env : Env σ) (clusterGroup : ClusterGroup)
    (orgName : String) (cgDeployment : ClusterGroupDeployment) (requestedChart : Chart)
    (deploymentModel : ClusterGroupDeploymentModel)
    (h : createDeploymentModel env clusterGroup orgName cgDeployment requestedChart
      = .ok deploymentModel) :
    deploymentModel.DeploymentVersion = cgDeployment.Version ∧
    deploymentModel.Namespace = cgDeployment.Namespace := by
  unfold createDeploymentModel at h
  cases hm : env.jsonMarshal cgDeployment.Values with
  | error err => simp [hm] at h
  | ok values =>
    cases hl : createDeploymentModel.loop env cgDeployment clusterGroup.Clusters [] with
    | error err => simp [hm, hl] at h
    | ok targetClusters =>
      simp only [hm, hl, Except.ok.injEq] at h
      subst h
      exact ⟨rfl, rfl⟩

/-- With a dry-run request the persistence step does nothing and the call
is the conversion of the model followed by the fan-out with the flag set. -/
theorem dryRun_convert_fanOut (env : Env σ) (w : World σ) (clusterGroup : ClusterGroup)
    (cgDeployment : ClusterGroupDeployment) (deploymentModel : ClusterGroupDeploymentModel)
    (requestedChart : Chart) (depInfo : DeploymentInfo)
    (hdry : cgDeployment.DryRun = true)
    (hconv : getDeploymentFromModel env deploymentModel = .ok depInfo) :
    ∃ statuses : List TargetClusterStatus,
      statuses.length = clusterGroup.Clusters.length ∧
      (upgradeOrInstallDeploymentToTargetClusters env w clusterGroup depInfo requestedChart
        true).1 = .returned statuses ∧
      (match saveUnlessDryRun env w cgDeployment deploymentModel with
        | (some err, w1) =>
          ((.returned (.error err), w1) :
            Outcome (Except GoError (List TargetClusterStatus)) × World σ)
        | (none, w1) =>
          convertAndFanOut env w1 clusterGroup cgDeployment deploymentModel requestedChart)
        = (.returned (.ok statuses),
          (upgradeOrInstallDeploymentToTargetClusters env w clusterGroup depInfo requestedChart
            true).2) := by
  obtain ⟨statuses, events, hr, hl, _, _⟩ :=
    upgradeOrInstallDeploymentToTargetClusters_returns env w clusterGroup depInfo requestedChart
      true
  refine ⟨statuses, hl, hr, ?_⟩
  simp only [saveUnlessDryRun, hdry, convertAndFanOut, hconv]
  simp only [Bool.true_eq_false, if_false]
  rcases hf : upgradeOrInstallDeploymentToTargetClusters env w clusterGroup depInfo
    requestedChart true with ⟨o, w2⟩
  rw [hf] at hr
  simp only [] at hr
  subst hr
  rfl

/-- An install asked for as a dry run leaves the external state as it was,
when the installer applies nothing on a dry run. -/
theorem installDeploymentOnCluster_dryRun_state (env : Env σ) (w : World σ)
    (apiCluster : Cluster) (depInfo : DeploymentInfo) (requestedChart : Chart)
    (hinstall : ∀ s k8sConfig chart ns name values,
      (env.InstallReleaseFromChart s k8sConfig chart ns name values true).2 = s) :
    (installDeploymentOnCluster env w apiCluster depInfo requestedChart true).2.state
      = w.state := by
  unfold installDeploymentOnCluster
  simp only [World.emit]
  cases apiCluster.GetK8sConfig with
  | error err => rfl
  | ok k8sConfig =>
    simp only []
    cases env.GetValuesForCluster depInfo apiCluster.Name with
    | error err => rfl
    | ok values =>
      simp only []
      cases env.NewClient w.state k8sConfig with
      | some err => rfl
      | none =>
        simp only []
        have h := hinstall w.state k8sConfig requestedChart depInfo.Namespace
          depInfo.ReleaseName values
        rcases hr : env.InstallReleaseFromChart w.state k8sConfig requestedChart
          depInfo.Namespace depInfo.ReleaseName values true with ⟨e, s⟩
        rw [hr] at h
        cases e <;> exact h

/-- An upgrade asked for as a dry run leaves the external state as it was,
when the installer applies nothing on a dry run. -/
theorem upgradeDeploymentOnCluster_dryRun_state (env : Env σ) (w : World σ)
    (apiCluster : Cluster) (depInfo : DeploymentInfo) (requestedChart : Chart)
    (hupgrade : ∀ s k8sConfig name chart values,
      (env.UpdateReleaseFromChart s k8sConfig name chart values true).2 = s) :
    (upgradeDeploymentOnCluster env w apiCluster depInfo requestedChart true).2.state
      = w.state := by
  unfold upgradeDeploymentOnCluster
  simp only [World.emit]
  cases apiCluster.GetK8sConfig with
  | error err => rfl
  | ok k8sConfig =>
    simp only []
    cases env.GetValuesForCluster depInfo apiCluster.Name with
    | error err => rfl
    | ok values =>
      simp only []
      cases env.NewClient w.state k8sConfig with
      | some err => rfl
      | none =>
        simp only []
        have h := hupgrade w.state k8sConfig depInfo.ReleaseName requestedChart values
        rcases hr : env.UpdateReleaseFromChart w.state k8sConfig depInfo.ReleaseName
          requestedChart values true with ⟨e, s⟩
        rw [hr] at h
        cases e <;> exact h

/-- The transition on one member, asked for as a dry run, leaves the external
state as it was, when the installer applies nothing on a dry run. -/
theorem upgradeOrInstall_dryRun_state (env : Env σ) (w : World σ) (apiCluster : Cluster)
    (depInfo : DeploymentInfo) (requestedChart : Chart)
    (hinstall : ∀ s k8sConfig chart ns name values,
      (env.InstallReleaseFromChart s k8sConfig chart ns name values true).2 = s)
    (hupgrade : ∀ s k8sConfig name chart values,
      (env.UpdateReleaseFromChart s k8sConfig name chart values true).2 = s) :
    (upgradeOrInstallDeploymentOnCluster env w apiCluster depInfo requestedChart true).2.state
      = w.state := by
  cases hq : findRelease env w.state apiCluster depInfo.ReleaseName with
  | error err =>
    rw [upgradeOrInstall_of_query_error env w apiCluster depInfo requestedChart true err hq]
  | ok found =>
    cases found with
    | none =>
      rw [upgradeOrInstall_of_absent env w apiCluster depInfo requestedChart true hq]
      have hi := installDeploymentOnCluster_dryRun_state env w apiCluster depInfo requestedChart
        hinstall
      rcases hr : installDeploymentOnCluster env w apiCluster depInfo requestedChart true
        with ⟨e, w1⟩
      rw [hr] at hi
      cases e with
      | some err => exact hi
      | none =>
        simp only [] at hi ⊢
        rw [upgradeDeploymentOnCluster_dryRun_state env w1 apiCluster depInfo requestedChart
          hupgrade]
        exact hi
    | some release =>
      rw [upgradeOrInstall_of_present env w apiCluster depInfo requestedChart true release hq]
      by_cases hs : isStaleDeployment env release depInfo apiCluster = true
      · rw [if_pos hs]
        exact upgradeDeploymentOnCluster_dryRun_state env w apiCluster depInfo requestedChart
          hupgrade
      · rw [if_neg hs]

/-- A fan-out whose goroutines leave the external state as it was leaves it
as it was. -/
theorem runGoroutines_state {τ : Type} (body : World σ → τ → TargetClusterStatus × World σ)
    (h : ∀ w task, (body w task).2.state = w.state) (tasks : List τ) :
    ∀ w : World σ, (runGoroutines body w tasks).2.state = w.state := by
  induction tasks with
  | nil => intro w; simp [runGoroutines]
  | cons task rest ih =>
    intro w
    rw [runGoroutines_cons]
    simp only [ih, h]

/-- The install-or-upgrade fan-out is the run of its goroutines over the
member clusters, in order. -/
theorem upgradeOrInstallDeploymentToTargetClusters_eq (env : Env σ) (w : World σ)
    (clusterGroup : ClusterGroup) (depInfo : DeploymentInfo) (requestedChart : Chart)
    (dryRun : Bool) :
    upgradeOrInstallDeploymentToTargetClusters env w clusterGroup depInfo requestedChart dryRun
      = (.returned (runGoroutines
          (upgradeOrInstallDeploymentToTargetClusters.goroutine env depInfo requestedChart dryRun)
          w (clusterGroup.Clusters.map Prod.snd)).1,
         (runGoroutines
          (upgradeOrInstallDeploymentToTargetClusters.goroutine env depInfo requestedChart dryRun)
          w (clusterGroup.Clusters.map Prod.snd)).2) := by
  simp only [upgradeOrInstallDeploymentToTargetClusters, upgradeOrInstall_dispatch]
  rw [joinStatuses_of_length _ _ (by simp [runGoroutines_length])]

theorem failed_deploying_text (msg : String) :
    FailedStatus ++ ": " ++ ("error deploying chart: " ++ msg)
      = "failed: error deploying chart: " ++ msg := by
  rw [failed_status_text, ← String.append_assoc]
  rfl

/-- On a member on which the release is absent, a dry run calls the installer's
install with the flag set and, when that returns nil, the installer's upgrade
with the flag set; the error of the transition is the error of these calls. -/
theorem upgradeOrInstall_absent_dryRun (env : Env σ) (w : World σ) (apiCluster : Cluster)
    (depInfo : DeploymentInfo) (requestedChart : Chart) (k8sConfig values : String)
    (releases : List Release)
    (hinstall : ∀ s k8sConfig chart ns name values,
      (env.InstallReleaseFromChart s k8sConfig chart ns name values true).2 = s)
    (hcfg : apiCluster.GetK8sConfig = .ok k8sConfig)
    (hlist : env.ListDeployments w.state depInfo.ReleaseName k8sConfig = .ok releases)
    (habsent : releases.find? (fun release => release.Name = depInfo.ReleaseName) = none)
    (hvalues : env.GetValuesForCluster depInfo apiCluster.Name = .ok values)
    (hclient : env.NewClient w.state k8sConfig = none) :
    (upgradeOrInstallDeploymentOnCluster env w apiCluster depInfo requestedChart true).1
      = match (env.InstallReleaseFromChart w.state k8sConfig requestedChart depInfo.Namespace
          depInfo.ReleaseName values true).1 with
        | some err => some (.foreign ("error deploying chart: " ++ err.Error))
        | none =>
          match (env.UpdateReleaseFromChart w.state k8sConfig depInfo.ReleaseName requestedChart
              values true).1 with
          | some err => some (.foreign ("error deploying chart: " ++ err.Error))
          | none => none := by
  have hq : findRelease env w.state apiCluster depInfo.ReleaseName = .ok none := by
    simp only [findRelease, hcfg, hlist, habsent]
  rw [upgradeOrInstall_of_absent env w apiCluster depInfo requestedChart true hq]
  have hs := hinstall w.state k8sConfig requestedChart depInfo.Namespace depInfo.ReleaseName values
  unfold installDeploymentOnCluster
  simp only [World.emit, hcfg, hvalues, hclient]
  rcases hr : env.InstallReleaseFromChart w.state k8sConfig requestedChart depInfo.Namespace
    depInfo.ReleaseName values true with ⟨e, s⟩
  rw [hr] at hs
  simp only [] at hs
  subst hs
  cases e with
  | some err => rfl
  | none =>
    simp only []
    unfold upgradeDeploymentOnCluster
    simp only [World.emit, hcfg, hvalues, hclient]
    rcases env.UpdateReleaseFromChart w.state k8sConfig depInfo.ReleaseName requestedChart values
      true with ⟨e2, s2⟩
    cases e2 <;> rfl

/-- On a member on which the release is present and stale, the transition
calls the installer's upgrade with its dry-run flag; its error is the error of
that call. -/
theorem upgradeOrInstall_stale_upgrade (env : Env σ) (w : World σ) (apiCluster : Cluster)
    (depInfo : DeploymentInfo) (requestedChart : Chart) (dryRun : Bool)
    (k8sConfig values : String) (releases : List Release) (release : Release)
    (hcfg : apiCluster.GetK8sConfig = .ok k8sConfig)
    (hlist : env.ListDeployments w.state depInfo.ReleaseName k8sConfig = .ok releases)
    (hpresent : releases.find? (fun release => release.Name = depInfo.ReleaseName)
      = some release)
    (hstale : isStaleDeployment env release depInfo apiCluster = true)
    (hvalues : env.GetValuesForCluster depInfo apiCluster.Name = .ok values)
    (hclient : env.NewClient w.state k8sConfig = none) :
    (upgradeOrInstallDeploymentOnCluster env w apiCluster depInfo requestedChart dryRun).1
      = match (env.UpdateReleaseFromChart w.state k8sConfig depInfo.ReleaseName requestedChart
          values dryRun).1 with
        | some err => some (.foreign ("error deploying chart: " ++ err.Error))
        | none => none := by
  have hq : findRelease env w.state apiCluster depInfo.ReleaseName = .ok (some release) := by
    simp only [findRelease, hcfg, hlist, hpresent]
  rw [upgradeOrInstall_of_present env w apiCluster depInfo requestedChart dryRun release hq,
    if_pos hstale]
  unfold upgradeDeploymentOnCluster
  simp only [World.emit, hcfg, hvalues, hclient]
  rcases env.UpdateReleaseFromChart w.state k8sConfig depInfo.ReleaseName requestedChart values
    dryRun with ⟨e2, s2⟩
  cases e2 <;> rfl

/-- The status sent for the member at position `i` of a dry-run fan-out, when
the installer applies nothing on a dry run: the member's own transition, run on
the external state the fan-out started from. -/
theorem fanOut_dryRun_member (env : Env σ) (w : World σ) (clusters : List (Nat × Cluster))
    (depInfo : DeploymentInfo) (requestedChart : Chart) (i : Nat) (entry : Nat × Cluster)
    (hinstall : ∀ s k8sConfig chart ns name values,
      (env.InstallReleaseFromChart s k8sConfig chart ns name values true).2 = s)
    (hupgrade : ∀ s k8sConfig name chart values,
      (env.UpdateReleaseFromChart s k8sConfig name chart values true).2 = s)
    (hentry : clusters[i]? = some entry) :
    ∃ wi : World σ, wi.state = w.state ∧
      (runGoroutines
        (upgradeOrInstallDeploymentToTargetClusters.goroutine env depInfo requestedChart true)
        w (clusters.map Prod.snd)).1[i]?
        = some
          { ClusterId := entry.2.ID, ClusterName := entry.2.Name,
            Status :=
              match (upgradeOrInstallDeploymentOnCluster env wi entry.2 depInfo requestedChart
                  true).1 with
              | some err => FailedStatus ++ ": " ++ err.Error
              | none => SucceededStatus } := by
  refine ⟨(runGoroutines
      (upgradeOrInstallDeploymentToTargetClusters.goroutine env depInfo requestedChart true)
      w ((clusters.map Prod.snd).take i)).2, ?_, ?_⟩
  · apply runGoroutines_state
    intro w0 task
    simp only [upgradeOrInstallDeploymentToTargetClusters.goroutine]
    exact upgradeOrInstall_dryRun_state env w0 task depInfo requestedChart hinstall hupgrade
  · rw [runGoroutines_getElem?, List.getElem?_map, hentry]
    rfl

/-- C15: CreateDeployment, once the chart resolves and the deployment model is
built, and UpdateDeployment, once the chart resolves and the stored record is
found and updated, go on in the same way with that model (`run` is either
call).  The repository's Save is called, with that model, if and only if the
request is not a dry run: the trace grows by that one Save if the request is not
a dry run and by no Save if it is, followed only by calls of install and upgrade
made with the dry-run flag of the request.  Without the flag, a failing Save
ends the call with its error and the state Save left, and after a successful
Save the fan-out runs on the state Save left.  With the flag, the call returns
the statuses of the install-or-upgrade fan-out run on the state the call started
from, one per member; and when the installer applies nothing on a dry run, the
external state at the end is the state at the start, while the installer is
reached with the flag set: the status of a member on which the release is
absent is that of the installer's install and upgrade called with the flag, and
the status of a member on which the release is stale is that of the installer's
upgrade called with the flag. -/
theorem save_iff_not_dry_run (env : Env σ) (w : World σ) (clusterGroup : ClusterGroup)
    (orgName : String) (cgDeployment : ClusterGroupDeployment) (requestedChart : Chart)
    (deploymentModel : ClusterGroupDeploymentModel)
    (run : Outcome (Except GoError (List TargetClusterStatus)) × World σ)
    (hchart : env.GetRequestedChart w.state orgName cgDeployment.ReleaseName cgDeployment.Name
      cgDeployment.Version cgDeployment.Package = .ok requestedChart)
    (hrun : (run = CreateDeployment env w clusterGroup orgName cgDeployment ∧
        createDeploymentModel env clusterGroup orgName
          (defaultVersionAndNamespace env cgDeployment requestedChart) requestedChart
          = .ok deploymentModel) ∨
      (run = UpdateDeployment env w clusterGroup orgName cgDeployment ∧
        ∃ storedModel,
          env.repoFindByName w.state clusterGroup.Id cgDeployment.ReleaseName = .ok storedModel ∧
          updateDeploymentModel env clusterGroup storedModel
            (defaultVersionAndNamespace env cgDeployment requestedChart) requestedChart
            = (none, deploymentModel))) :
    (∃ events : List Event, (∀ e ∈ events, Event.isInstallerCallWith cgDeployment.DryRun e) ∧
      run.2.trace
        = w.trace ++
          (if cgDeployment.DryRun = true then [] else [Event.repoSave deploymentModel])
          ++ events) ∧
    (cgDeployment.DryRun = false →
      (∀ err s, env.repoSave w.state deploymentModel = (some err, s) →
        run = (.returned (.error (.withMessage err "Error saving deployment model")),
          { state := s, trace := w.trace ++ [.repoSave deploymentModel] })) ∧
      (∀ s depInfo, env.repoSave w.state deploymentModel = (none, s) →
        getDeploymentFromModel env deploymentModel = .ok depInfo →
        ∃ statuses : List TargetClusterStatus,
          statuses.length = clusterGroup.Clusters.length ∧
          (upgradeOrInstallDeploymentToTargetClusters env
            { state := s, trace := w.trace ++ [.repoSave deploymentModel] } clusterGroup depInfo
            requestedChart false).1 = .returned statuses ∧
          run = (.returned (.ok statuses),
            (upgradeOrInstallDeploymentToTargetClusters env
              { state := s, trace := w.trace ++ [.repoSave deploymentModel] } clusterGroup
              depInfo requestedChart false).2))) ∧
    (cgDeployment.DryRun = true →
      ∀ depInfo, getDeploymentFromModel env deploymentModel = .ok depInfo →
      ∃ statuses : List TargetClusterStatus,
        statuses.length = clusterGroup.Clusters.length ∧
        (upgradeOrInstallDeploymentToTargetClusters env w clusterGroup depInfo requestedChart
          true).1 = .returned statuses ∧
        run = (.returned (.ok statuses),
          (upgradeOrInstallDeploymentToTargetClusters env w clusterGroup depInfo requestedChart
            true).2) ∧
        ((∀ s k8sConfig chart ns name values,
            (env.InstallReleaseFromChart s k8sConfig chart ns name values true).2 = s) →
          (∀ s k8sConfig name chart values,
            (env.UpdateReleaseFromChart s k8sConfig name chart values true).2 = s) →
          run.2.state = w.state ∧
          (∀ (i : Nat) (entry : Nat × Cluster) (k8sConfig values : String)
              (releases : List Release),
            clusterGroup.Clusters[i]? = some entry →
            entry.2.GetK8sConfig = .ok k8sConfig →
            env.ListDeployments w.state depInfo.ReleaseName k8sConfig = .ok releases →
            releases.find? (fun release => release.Name = depInfo.ReleaseName) = none →
            env.GetValuesForCluster depInfo entry.2.Name = .ok values →
            env.NewClient w.state k8sConfig = none →
            statuses[i]? = some
              { ClusterId := entry.2.ID, ClusterName := entry.2.Name,
                Status :=
                  match (env.InstallReleaseFromChart w.state k8sConfig requestedChart
                      depInfo.Namespace depInfo.ReleaseName values true).1 with
                  | some err => "failed: error deploying chart: " ++ err.Error
                  | none =>
                    match (env.UpdateReleaseFromChart w.state k8sConfig depInfo.ReleaseName
                        requestedChart values true).1 with
                    | some err => "failed: error deploying chart: " ++ err.Error
                    | none => "deployed" }) ∧
          (∀ (i : Nat) (entry : Nat × Cluster) (k8sConfig values : String)
              (releases : List Release) (release : Release),
            clusterGroup.Clusters[i]? = some entry →
            entry.2.GetK8sConfig = .ok k8sConfig →
            env.ListDeployments w.state depInfo.ReleaseName k8sConfig = .ok releases →
            releases.find? (fun release => release.Name = depInfo.ReleaseName) = some release →
            isStaleDeployment env release depInfo entry.2 = true →
            env.GetValuesForCluster depInfo entry.2.Name = .ok values →
            env.NewClient w.state k8sConfig = none →
            statuses[i]? = some
              { ClusterId := entry.2.ID, ClusterName := entry.2.Name,
                Status :=
                  match (env.UpdateReleaseFromChart w.state k8sConfig depInfo.ReleaseName
                      requestedChart values true).1 with
                  | some err => "failed: error deploying chart: " ++ err.Error
                  | none => "deployed" }))) := by
  have hd := (defaultVersionAndNamespace_dryRun env cgDeployment requestedChart).1
  have hn := (defaultVersionAndNamespace_dryRun env cgDeployment requestedChart).2
  have htail : run
      = match saveUnlessDryRun env w (defaultVersionAndNamespace env cgDeployment requestedChart)
          deploymentModel with
        | (some err, w1) =>
          ((.returned (.error err), w1) :
            Outcome (Except GoError (List TargetClusterStatus)) × World σ)
        | (none, w1) =>
          convertAndFanOut env w1 clusterGroup
            (defaultVersionAndNamespace env cgDeployment requestedChart) deploymentModel
            requestedChart := by
    rcases hrun with ⟨hr, hcreate⟩ | ⟨hr, storedModel, hfound, hupdate⟩
    · rw [hr]
      simp only [CreateDeployment, hchart, hcreate]
    · rw [hr]
      rw [← hn] at hfound
      simp only [UpdateDeployment, hchart, hfound, hupdate]
  refine ⟨?_, ?_, ?_⟩
  · have h := save_convert_fanOut_trace env w clusterGroup
      (defaultVersionAndNamespace env cgDeployment requestedChart) deploymentModel requestedChart
    rw [hd] at h
    rw [htail]
    exact h
  · intro hdry
    refine ⟨?_, ?_⟩
    · intro err s hsave
      rw [htail]
      simp only [saveUnlessDryRun, hd, hdry, World.emit, if_true, hsave]
    · intro s depInfo hsave hconv
      refine ⟨(runGoroutines
          (upgradeOrInstallDeploymentToTargetClusters.goroutine env depInfo requestedChart false)
          { state := s, trace := w.trace ++ [.repoSave deploymentModel] }
          (clusterGroup.Clusters.map Prod.snd)).1, ?_, ?_, ?_⟩
      · simp [runGoroutines_length]
      · rw [upgradeOrInstallDeploymentToTargetClusters_eq]
      · rw [htail]
        simp only [saveUnlessDryRun, hd, hdry, World.emit, if_true, hsave, convertAndFanOut,
          hconv]
        rw [upgradeOrInstallDeploymentToTargetClusters_eq]
  · intro hdry depInfo hconv
    have hrunEq : run = (.returned (.ok (runGoroutines
          (upgradeOrInstallDeploymentToTargetClusters.goroutine env depInfo requestedChart true)
          w (clusterGroup.Clusters.map Prod.snd)).1),
        (upgradeOrInstallDeploymentToTargetClusters env w clusterGroup depInfo requestedChart
          true).2) := by
      rw [htail]
      simp only [saveUnlessDryRun, hd, hdry, convertAndFanOut, hconv]
      simp only [Bool.true_eq_false, if_false]
      rw [upgradeOrInstallDeploymentToTargetClusters_eq]
    refine ⟨(runGoroutines
        (upgradeOrInstallDeploymentToTargetClusters.goroutine env depInfo requestedChart true)
        w (clusterGroup.Clusters.map Prod.snd)).1, ?_, ?_, hrunEq, ?_⟩
    · simp [runGoroutines_length]
    · rw [upgradeOrInstallDeploymentToTargetClusters_eq]
    · intro hinstall hupgrade
      refine ⟨?_, ?_, ?_⟩
      · rw [hrunEq, upgradeOrInstallDeploymentToTargetClusters_eq]
        apply runGoroutines_state
        intro w0 task
        simp only [upgradeOrInstallDeploymentToTargetClusters.goroutine]
        exact upgradeOrInstall_dryRun_state env w0 task depInfo requestedChart hinstall hupgrade
      · intro i entry k8sConfig values releases hentry hcfg hlist habsent hvalues hclient
        obtain ⟨wi, hwi, hstatus⟩ := fanOut_dryRun_member env w clusterGroup.Clusters depInfo
          requestedChart i entry hinstall hupgrade hentry
        rw [← hwi] at hlist hclient
        rw [hstatus, upgradeOrInstall_absent_dryRun env wi entry.2 depInfo requestedChart
          k8sConfig values releases hinstall hcfg hlist habsent hvalues hclient, hwi]
        cases (env.InstallReleaseFromChart w.state k8sConfig requestedChart depInfo.Namespace
          depInfo.ReleaseName values true).1 with
        | some err =>
          simp only []
          rw [show (GoError.foreign ("error deploying chart: " ++ err.Error)).Error
            = "error deploying chart: " ++ err.Error from rfl, failed_deploying_text]
        | none =>
          simp only []
          cases (env.UpdateReleaseFromChart w.state k8sConfig depInfo.ReleaseName requestedChart
            values true).1 with
          | some err =>
            simp only []
            rw [show (GoError.foreign ("error deploying chart: " ++ err.Error)).Error
              = "error deploying chart: " ++ err.Error from rfl, failed_deploying_text]
          | none => rfl
      · intro i entry k8sConfig values releases release hentry hcfg hlist hpresent hstale hvalues
          hclient
        obtain ⟨wi, hwi, hstatus⟩ := fanOut_dryRun_member env w clusterGroup.Clusters depInfo
          requestedChart i entry hinstall hupgrade hentry
        rw [← hwi] at hlist hclient
        rw [hstatus, upgradeOrInstall_stale_upgrade env wi entry.2 depInfo requestedChart true
          k8sConfig values releases release hcfg hlist hpresent hstale hvalues hclient, hwi]
        cases (env.UpdateReleaseFromChart w.state k8sConfig depInfo.ReleaseName requestedChart
          values true).1 with
        | some err =>
          simp only []
          rw [show (GoError.foreign ("error deploying chart: " ++ err.Error)).Error
            = "error deploying chart: " ++ err.Error from rfl, failed_deploying_text]
        | none => rfl

/-- C16: for every CreateDeployment request whose chart resolves and whose
deployment model is built, the version of the model is the version of the
resolved chart when the request has no version and the requested version
otherwise, and its namespace is the default namespace when the request has none
and the requested namespace otherwise; unless the request is a dry run, this
model is the one handed to the repository's Save. -/
theorem CreateDeployment_version_and_namespace (env : Env σ) (w : World σ)
    (clusterGroup : ClusterGroup) (orgName : String) (cgDeployment : ClusterGroupDeployment)
    (requestedChart : Chart) (deploymentModel : ClusterGroupDeploymentModel)
    (hchart : env.GetRequestedChart w.state orgName cgDeployment.ReleaseName cgDeployment.Name
      cgDeployment.Version cgDeployment.Package = .ok requestedChart)
    (hcreate : createDeploymentModel env clusterGroup orgName
      (defaultVersionAndNamespace env cgDeployment requestedChart) requestedChart
      = .ok deploymentModel) :
    deploymentModel.DeploymentVersion
      = (if cgDeployment.Version = "" then requestedChart.Metadata.Version
         else cgDeployment.Version) ∧
    deploymentModel.Namespace
      = (if cgDeployment.Namespace = "" then env.DefaultNamespace
         else cgDeployment.Namespace) ∧
    (cgDeployment.DryRun = false →
      Event.repoSave deploymentModel
        ∈ (CreateDeployment env w clusterGroup orgName cgDeployment).2.trace) := by
  obtain ⟨hv, hns⟩ := createDeploymentModel_fields env clusterGroup orgName _ requestedChart
    deploymentModel hcreate
  refine ⟨?_, ?_, ?_⟩
  · rw [hv, (defaultVersionAndNamespace_fields env cgDeployment requestedChart).1]
  · rw [hns, (defaultVersionAndNamespace_fields env cgDeployment requestedChart).2]
  · intro hdry
    have hd := (defaultVersionAndNamespace_dryRun env cgDeployment requestedChart).1
    obtain ⟨events, _, ht⟩ := save_convert_fanOut_trace env w clusterGroup
      (defaultVersionAndNamespace env cgDeployment requestedChart) deploymentModel requestedChart
    rw [hd, hdry] at ht
    simp only [CreateDeployment, hchart, hcreate]
    rw [ht]
    simp

/-- The simulated installer applies nothing when asked to install as a dry
run. -/
theorem Sim.install_dryRun_applies_nothing (clusters : List Cluster)
    (deployments : List ClusterGroupDeploymentModel) (s : Sim.Tiller)
    (k8sConfig : String) (chart : Chart) (ns name values : String) :
    ((Sim.env clusters deployments).InstallReleaseFromChart s k8sConfig chart ns name values
      true).2 = s := by
  simp only [Sim.env]
  split <;> rfl

/-- The simulated installer applies nothing when asked to upgrade as a dry
run. -/
theorem Sim.upgrade_dryRun_applies_nothing (clusters : List Cluster)
    (deployments : List ClusterGroupDeploymentModel) (s : Sim.Tiller)
    (k8sConfig name : String) (chart : Chart) (values : String) :
    ((Sim.env clusters deployments).UpdateReleaseFromChart s k8sConfig name chart values
      true).2 = s := by
  simp only [Sim.env]
  split <;> rfl

/-- Witness of C15: a dry-run request for release `web` on group 1, as a
create in a world that has no record of the release and as an update in a world
that has one.  Nothing is saved and nothing is applied; the installer is asked
to install and then to upgrade as a dry run, and the failure of the upgrade
(nothing was installed) is the status of the member. -/
theorem save_iff_not_dry_run_witness :
    (Sim.env Sim.clusters []).GetRequestedChart Sim.world0.state "org"
      Sim.dryRunRequest.ReleaseName Sim.dryRunRequest.Name Sim.dryRunRequest.Version
      Sim.dryRunRequest.Package = .ok Sim.nginx ∧
    (Sim.env Sim.clusters []).repoFindByName Sim.world0.state Sim.group1.Id
      Sim.dryRunRequest.ReleaseName = .error (.withStack (.deploymentNotFound 1 "web")) ∧
    createDeploymentModel (Sim.env Sim.clusters []) Sim.group1 "org"
      (defaultVersionAndNamespace (Sim.env Sim.clusters []) Sim.dryRunRequest Sim.nginx)
      Sim.nginx = .ok Sim.createdModel ∧
    Sim.dryRunRequest.DryRun = true ∧
    CreateDeployment (Sim.env Sim.clusters []) Sim.world0 Sim.group1 "org" Sim.dryRunRequest
      = (.returned (.ok [{ ClusterId := 10, ClusterName := "c10",
                           Status := "failed: error deploying chart: release not found" }]),
         { state := []
           trace := [.installDeploymentOnCluster 10 true, .upgradeDeploymentOnCluster 10 true] }) ∧
    (CreateDeployment (Sim.env Sim.clusters []) Sim.world0 Sim.group1 "org"
      Sim.dryRunRequest).2.state = Sim.world0.state ∧
    (∃ events : List Event,
      (∀ e ∈ events, Event.isInstallerCallWith Sim.dryRunRequest.DryRun e) ∧
      (CreateDeployment (Sim.env Sim.clusters []) Sim.world0 Sim.group1 "org"
        Sim.dryRunRequest).2.trace
        = Sim.world0.trace ++
          (if Sim.dryRunRequest.DryRun = true then [] else [Event.repoSave Sim.createdModel])
          ++ events) ∧
    (Sim.env Sim.clusters [Sim.webModel]).repoFindByName Sim.world0.state Sim.group1.Id
      Sim.dryRunRequest.ReleaseName = .ok Sim.webModel ∧
    updateDeploymentModel (Sim.env Sim.clusters [Sim.webModel]) Sim.group1 Sim.webModel
      (defaultVersionAndNamespace (Sim.env Sim.clusters [Sim.webModel]) Sim.dryRunRequest
        Sim.nginx) Sim.nginx = (none, Sim.webModel) ∧
    (∃ events : List Event,
      (∀ e ∈ events, Event.isInstallerCallWith Sim.dryRunRequest.DryRun e) ∧
      (UpdateDeployment (Sim.env Sim.clusters [Sim.webModel]) Sim.world0 Sim.group1 "org"
        Sim.dryRunRequest).2.trace
        = Sim.world0.trace ++
          (if Sim.dryRunRequest.DryRun = true then [] else [Event.repoSave Sim.webModel])
          ++ events) := by
  refine ⟨by decide, by decide, by decide, rfl, rfl, ?_, ?_, by decide, by decide, ?_⟩
  · obtain ⟨statuses, _, _, _, h⟩ :=
      (save_iff_not_dry_run (Sim.env Sim.clusters []) Sim.world0 Sim.group1 "org"
        Sim.dryRunRequest Sim.nginx Sim.createdModel _ (by decide)
        (Or.inl ⟨rfl, by decide⟩)).2.2 rfl
        { ReleaseName := "web", Chart := "stable/nginx", ChartName := "nginx",
          ChartVersion := "1.2.3", Namespace := "default" } rfl
    exact (h (Sim.install_dryRun_applies_nothing _ _)
      (Sim.upgrade_dryRun_applies_nothing _ _)).1
  · exact (save_iff_not_dry_run (Sim.env Sim.clusters []) Sim.world0 Sim.group1 "org"
      Sim.dryRunRequest Sim.nginx Sim.createdModel _ (by decide) (Or.inl ⟨rfl, by decide⟩)).1
  · exact (save_iff_not_dry_run (Sim.env Sim.clusters [Sim.webModel]) Sim.world0 Sim.group1
      "org" Sim.dryRunRequest Sim.nginx Sim.webModel _ (by decide)
      (Or.inr ⟨rfl, Sim.webModel, by decide, by decide⟩)).1

/-- Witness of C16: a request without version and namespace gets the version
of the resolved chart and the default namespace. -/
theorem CreateDeployment_version_and_namespace_witness :
    (Sim.env Sim.clusters [Sim.webModel]).GetRequestedChart Sim.world0.state "org"
      Sim.dryRunRequest.ReleaseName Sim.dryRunRequest.Name Sim.dryRunRequest.Version
      Sim.dryRunRequest.Package = .ok Sim.nginx ∧
    createDeploymentModel (Sim.env Sim.clusters [Sim.webModel]) Sim.group1 "org"
      (defaultVersionAndNamespace (Sim.env Sim.clusters [Sim.webModel]) Sim.dryRunRequest
        Sim.nginx) Sim.nginx = .ok Sim.createdModel ∧
    Sim.createdModel.DeploymentVersion
      = (if Sim.dryRunRequest.Version = "" then Sim.nginx.Metadata.Version
         else Sim.dryRunRequest.Version) ∧
    Sim.createdModel.Namespace
      = (if Sim.dryRunRequest.Namespace = ""
         then (Sim.env Sim.clusters [Sim.webModel]).DefaultNamespace
         else Sim.dryRunRequest.Namespace) :=
  ⟨by decide, by decide,
    (CreateDeployment_version_and_namespace (Sim.env Sim.clusters [Sim.webModel]) Sim.world0
      Sim.group1 "org" Sim.dryRunRequest Sim.nginx Sim.createdModel (by decide) (by decide)).1,
    (CreateDeployment_version_and_namespace (Sim.env Sim.clusters [Sim.webModel]) Sim.world0
      Sim.group1 "org" Sim.dryRunRequest Sim.nginx Sim.createdModel (by decide) (by decide)).2.1⟩

end CreateUpdate

/-! ## Admission of members -/

section Admission

variable {σ : Type}

theorem CreateClusterGroup_loop_ready (env : Env σ) (s : σ) (orgID : Nat) (members : List Nat)
    (hmembers : ∀ clusterID ∈ members, ∃ cluster,
      env.GetClusterByID s orgID clusterID = .ok cluster ∧
      isClusterMemberOfAClusterGroup env s cluster.ID 0 = (false, none)) :
    ∀ memberClusterModels : List MemberClusterModel,
      CreateClusterGroup.loop env s orgID members memberClusterModels
        = .ok (memberClusterModels ++ readyRequestedMembers env s orgID members) := by
  induction members with
  | nil => intro acc; simp [CreateClusterGroup.loop, readyRequestedMembers]
  | cons clusterID rest ih =>
    intro acc
    obtain ⟨cluster, hres, hfree⟩ := hmembers clusterID (List.mem_cons_self _ _)
    have ih1 := ih (fun c hc => hmembers c (List.mem_cons_of_mem _ hc))
    have htail : readyRequestedMembers env s orgID (clusterID :: rest)
        = (if cluster.IsReady = (true, none) then [({ ClusterID := cluster.ID } : MemberClusterModel)]
           else []) ++ readyRequestedMembers env s orgID rest := by
      simp only [readyRequestedMembers, List.filterMap_cons, hres]
      by_cases hr : cluster.IsReady = (true, none) <;> simp [hr]
    rw [htail]
    simp only [CreateClusterGroup.loop, hres, hfree]
    rcases hr : cluster.IsReady with ⟨ready, err⟩
    cases ready <;> cases err <;> simp [ih1]

theorem readyRequestedMembers_ne_nil (env : Env σ) (s : σ) (orgID : Nat) (members : List Nat)
    (hready : ∃ clusterID ∈ members, ∃ cluster,
      env.GetClusterByID s orgID clusterID = .ok cluster ∧ cluster.IsReady = (true, none)) :
    (readyRequestedMembers env s orgID members).length ≠ 0 := by
  obtain ⟨clusterID, hmem, cluster, hres, hr⟩ := hready
  have hin : ({ ClusterID := cluster.ID } : MemberClusterModel)
      ∈ readyRequestedMembers env s orgID members := by
    unfold readyRequestedMembers
    rw [List.mem_filterMap]
    exact ⟨clusterID, hmem, by simp [hres, hr]⟩
  intro h0
  rw [List.length_eq_zero] at h0
  rw [h0] at hin
  exact List.not_mem_nil _ hin

/-- C17: for every CreateClusterGroup call that reaches the admission of the
members (the name is not yet used in the organization) in which all requested
members resolve and are ungrouped and at least one is ready, the repository's
Create is called with exactly the requested members that report ready, in
request order, and, the repository's Create and the SaveFeature that follows it
succeeding, the call succeeds with the id Create returned for that member list;
unready members are dropped without failing the call. -/
theorem CreateClusterGroup_admits_ready_members (env : Env σ) (w : World σ) (name : String)
    (orgID : Nat) (members : List Nat) (err : Option GoError) (cgId : Nat) (s1 s2 : σ)
    (hfree : env.cgFindOne w.state { OrganizationID := orgID, Name := name } = (none, err))
    (hnf : err = none ∨ IsClusterGroupNotFoundError err = true)
    (hmembers : ∀ clusterID ∈ members, ∃ cluster,
      env.GetClusterByID w.state orgID clusterID = .ok cluster ∧
      isClusterMemberOfAClusterGroup env w.state cluster.ID 0 = (false, none))
    (hready : ∃ clusterID ∈ members, ∃ cluster,
      env.GetClusterByID w.state orgID clusterID = .ok cluster ∧
      cluster.IsReady = (true, none))
    (hcreate : env.cgCreate w.state name orgID (readyRequestedMembers env w.state orgID members)
      = (.ok cgId, s1))
    (hsave : env.cgSaveFeature s1
      { Enabled := true, Name := FeatureName, ClusterGroupID := cgId } = (none, s2)) :
    CreateClusterGroup env w name orgID members
      = (.returned (.ok cgId),
        { state := s2
          trace := w.trace ++
            [.cgRepoCreate name orgID (readyRequestedMembers env w.state orgID members),
             .cgRepoSaveFeature
               { Enabled := true, Name := FeatureName, ClusterGroupID := cgId }] }) := by
  have hloop := CreateClusterGroup_loop_ready env w.state orgID members hmembers []
  have hne := readyRequestedMembers_ne_nil env w.state orgID members hready
  simp only [List.nil_append] at hloop
  unfold CreateClusterGroup
  rw [hfree]
  have hrest : ∀ e : Option GoError, (e = none ∨ IsClusterGroupNotFoundError e = true) →
      (match e, IsClusterGroupNotFoundError e with
        | some e1, false =>
          ((.returned (.error e1), w) : Outcome (Except GoError Nat) × World σ)
        | _, _ =>
          (.returned (.ok cgId),
            { state := s2
              trace := w.trace ++
                [.cgRepoCreate name orgID (readyRequestedMembers env w.state orgID members),
                 .cgRepoSaveFeature
                   { Enabled := true, Name := FeatureName, ClusterGroupID := cgId }] }))
        = (.returned (.ok cgId),
            { state := s2
              trace := w.trace ++
                [.cgRepoCreate name orgID (readyRequestedMembers env w.state orgID members),
                 .cgRepoSaveFeature
                   { Enabled := true, Name := FeatureName, ClusterGroupID := cgId }] }) := by
    intro e he
    rcases he with h | h
    · subst h; rfl
    · cases e with
      | none => rfl
      | some e1 => simp [h]
  rw [← hrest err hnf]
  simp only [hloop, hne, if_false, World.emit, hcreate, hsave, List.append_assoc,
    List.singleton_append]

/-- Witness of C17: group `g2` created from members 11, 13 and 10, of which
13 is not ready. -/
theorem CreateClusterGroup_admits_ready_members_witness :
    (Sim.env Sim.clusters []).cgFindOne Sim.world0.state { OrganizationID := 7, Name := "g2" }
      = (none, some (.withStack (.clusterGroupNotFound { OrganizationID := 7, Name := "g2" }))) ∧
    (∀ clusterID ∈ [11, 13, 10], ∃ cluster,
      (Sim.env Sim.clusters []).GetClusterByID Sim.world0.state 7 clusterID = .ok cluster ∧
      isClusterMemberOfAClusterGroup (Sim.env Sim.clusters []) Sim.world0.state cluster.ID 0
        = (false, none)) ∧
    (∃ clusterID ∈ [11, 13, 10], ∃ cluster,
      (Sim.env Sim.clusters []).GetClusterByID Sim.world0.state 7 clusterID = .ok cluster ∧
      cluster.IsReady = (true, none)) ∧
    readyRequestedMembers (Sim.env Sim.clusters []) Sim.world0.state 7 [11, 13, 10]
      = [{ ClusterID := 11 }, { ClusterID := 10 }] ∧
    CreateClusterGroup (Sim.env Sim.clusters []) Sim.world0 "g2" 7 [11, 13, 10]
      = (.returned (.ok 1),
        { state := Sim.world0.state
          trace := Sim.world0.trace ++
            [.cgRepoCreate "g2" 7
              (readyRequestedMembers (Sim.env Sim.clusters []) Sim.world0.state 7 [11, 13, 10]),
             .cgRepoSaveFeature { Enabled := true, Name := FeatureName, ClusterGroupID := 1 }] }) := by
  have hmembers : ∀ clusterID ∈ [11, 13, 10], ∃ cluster,
      (Sim.env Sim.clusters []).GetClusterByID Sim.world0.state 7 clusterID = .ok cluster ∧
      isClusterMemberOfAClusterGroup (Sim.env Sim.clusters []) Sim.world0.state cluster.ID 0
        = (false, none) := by
    intro clusterID hc
    simp only [List.mem_cons, List.mem_singleton, List.not_mem_nil, or_false] at hc
    rcases hc with h | h | h
    · subst h; exact ⟨Sim.cluster11, by decide, by decide⟩
    · subst h; exact ⟨Sim.cluster13, by decide, by decide⟩
    · subst h; exact ⟨Sim.cluster10, by decide, by decide⟩
  have hready : ∃ clusterID ∈ [11, 13, 10], ∃ cluster,
      (Sim.env Sim.clusters []).GetClusterByID Sim.world0.state 7 clusterID = .ok cluster ∧
      cluster.IsReady = (true, none) :=
    ⟨11, by simp, Sim.cluster11, by decide, by decide⟩
  exact ⟨by decide, hmembers, hready, by decide,
    CreateClusterGroup_admits_ready_members (Sim.env Sim.clusters []) Sim.world0 "g2" 7
      [11, 13, 10]
      (some (.withStack (.clusterGroupNotFound { OrganizationID := 7, Name := "g2" })))
      1 Sim.world0.state Sim.world0.state (by decide) (Or.inr (by decide))
      hmembers hready (by decide) (by decide)⟩

end Admission

/-! ## The single-membership check -/

section SingleMembership

variable {σ : Type}

/-- With a membership record at hand the check reports true exactly when the
record belongs to another group than the one being updated (to any group when
no group is being updated), and never an error. -/
theorem isClusterMemberOfAClusterGroup_of_record (env : Env σ) (s : σ)
    (clusterID clusterGroupId : Nat) (result : MemberClusterModel)
    (h : env.cgFindMemberClusterByID s clusterID = .ok result) :
    isClusterMemberOfAClusterGroup env s clusterID clusterGroupId
      = (decide (clusterGroupId = 0 ∨ result.ClusterGroupID ≠ clusterGroupId), none) := by
  unfold isClusterMemberOfAClusterGroup
  rw [h]
  by_cases hg : clusterGroupId > 0 ∧ result.ClusterGroupID = clusterGroupId
  · have hd : ¬ (clusterGroupId = 0 ∨ result.ClusterGroupID ≠ clusterGroupId) := by
      intro hc
      rcases hc with h0 | hne
      · omega
      · exact hne hg.2
    simp only []
    rw [if_pos hg, decide_eq_false hd]
  · have hd : clusterGroupId = 0 ∨ result.ClusterGroupID ≠ clusterGroupId := by
      by_cases h0 : clusterGroupId = 0
      · exact Or.inl h0
      · exact Or.inr (fun he => hg ⟨Nat.pos_of_ne_zero h0, he⟩)
    simp only []
    rw [if_neg hg, decide_eq_true hd]

/-- Without a membership record (record-not-found) the check reports false. -/
theorem isClusterMemberOfAClusterGroup_of_not_found (env : Env σ) (s : σ)
    (clusterID clusterGroupId : Nat) (err : GoError)
    (h : env.cgFindMemberClusterByID s clusterID = .error err)
    (hnf : IsRecordNotFoundError (some err) = true) :
    isClusterMemberOfAClusterGroup env s clusterID clusterGroupId = (false, none) := by
  simp [isClusterMemberOfAClusterGroup, h, hnf]

/-- When the lookup fails with another error the check reports true together
with that error. -/
theorem isClusterMemberOfAClusterGroup_of_storage_error (env : Env σ) (s : σ)
    (clusterID clusterGroupId : Nat) (err : GoError)
    (h : env.cgFindMemberClusterByID s clusterID = .error err)
    (hnf : IsRecordNotFoundError (some err) = false) :
    isClusterMemberOfAClusterGroup env s clusterID clusterGroupId = (true, some err) := by
  simp [isClusterMemberOfAClusterGroup, h, hnf]

/-- C18 (the code departs from the claim): when the membership lookup for
cluster 11 fails with a storage error, so that no membership record is at hand,
isClusterMemberOfAClusterGroup reports true, both for a create (group id 0) and
for an update of group 1. -/
theorem isClusterMemberOfAClusterGroup_true_without_record :
    (Sim.envStorageDown Sim.clusters []).cgFindMemberClusterByID Sim.world0.state 11
      = .error (.foreign "connection refused") ∧
    IsRecordNotFoundError (some (.foreign "connection refused")) = false ∧
    isClusterMemberOfAClusterGroup (Sim.envStorageDown Sim.clusters []) Sim.world0.state 11 0
      = (true, some (.foreign "connection refused")) ∧
    isClusterMemberOfAClusterGroup (Sim.envStorageDown Sim.clusters []) Sim.world0.state 11 1
      = (true, some (.foreign "connection refused")) := by
  refine ⟨by decide, by decide, by decide, by decide⟩

/-- C19 (the code departs from the claim): when the membership lookup fails
with the storage error "connection refused", CreateClusterGroup (new group `g2`
from member 11) and UpdateClusterGroup (group 1 with members 10 and 11) return
a MemberAlreadyGrouped error, whose root cause is not the storage error; the
`else if err != nil` branch that would return the storage error is never
reached because the check reports true together with the error. -/
theorem storage_error_reported_as_member_already_grouped :
    (Sim.envStorageDown Sim.clusters []).cgFindMemberClusterByID Sim.world0.state 11
      = .error (.foreign "connection refused") ∧
    (CreateClusterGroup (Sim.envStorageDown Sim.clusters []) Sim.world0 "g2" 7 [11]).1
      = .returned (.error (.withStack (.memberClusterPartOfAClusterGroup 7 11))) ∧
    (UpdateClusterGroup (Sim.envStorageDown Sim.clusters []) Sim.world0 7 1 "g1" [10, 11]).1
      = .returned (some (.withStack (.memberClusterPartOfAClusterGroup 7 10))) ∧
    (IsMemberClusterPartOfAClusterGroupError
      (some (.withStack (.memberClusterPartOfAClusterGroup 7 11)))).2 = true ∧
    Cause (some (.withStack (.memberClusterPartOfAClusterGroup 7 11)))
      ≠ some (.foreign "connection refused") := by
  refine ⟨by decide, by decide, by decide, by decide, by decide⟩

end SingleMembership

/-! ## Readiness of the members of an update -/

section UpdateReadiness

variable {σ : Type}

theorem UpdateClusterGroup_loop_unready (env : Env σ) (s : σ) (orgID : Nat)
    (existingClusterGroup : ClusterGroup) (clusterID : Nat) (cluster : Cluster)
    (hres : env.GetClusterByID s orgID clusterID = .ok cluster)
    (hunready : cluster.IsReady ≠ (true, none)) (members : List Nat)
    (hmem : clusterID ∈ members) :
    ∀ newMembers : List (Nat × Cluster), ∃ err,
      UpdateClusterGroup.loop env s orgID existingClusterGroup members newMembers
        = .error err := by
  induction members with
  | nil => exact absurd hmem (List.not_mem_nil _)
  | cons head rest ih =>
    intro newMembers
    unfold UpdateClusterGroup.loop
    cases hh : env.GetClusterByID s orgID head with
    | error e => exact ⟨_, rfl⟩
    | ok found =>
      simp only []
      rcases hc : isClusterMemberOfAClusterGroup env s found.ID existingClusterGroup.Id
        with ⟨grouped, e⟩
      cases grouped with
      | true => exact ⟨_, rfl⟩
      | false =>
        cases e with
        | some e1 => exact ⟨_, rfl⟩
        | none =>
          simp only []
          rcases hr : found.IsReady with ⟨ready, rerr⟩
          cases rerr with
          | some e2 => cases ready <;> exact ⟨_, rfl⟩
          | none =>
            cases ready with
            | false => exact ⟨_, rfl⟩
            | true =>
              simp only []
              have hne : clusterID ≠ head := by
                intro heq
                subst heq
                rw [hres] at hh
                injection hh with hh1
                subst hh1
                exact hunready hr
              have hin : clusterID ∈ rest := by
                rcases List.mem_cons.mp hmem with h | h
                · exact absurd h hne
                · exact h
              exact ih hin _

/-- C20: whenever a requested member resolves and is not ready, or its
readiness check errors, UpdateClusterGroup does not return nil and leaves the
world as it was: the repository's UpdateMembers is not called and no feature
handler is invoked.  It returns an error, unless `FindOne` hands back a nil
model without an error, in which case it panics. -/
theorem UpdateClusterGroup_fails_on_unready_member (env : Env σ) (w : World σ)
    (orgID clusterGroupId : Nat) (name : String) (members : List Nat) (clusterID : Nat)
    (cluster : Cluster) (hmem : clusterID ∈ members)
    (hres : env.GetClusterByID w.state orgID clusterID = .ok cluster)
    (hunready : cluster.IsReady ≠ (true, none)) :
    (UpdateClusterGroup env w orgID clusterGroupId name members).2 = w ∧
    (UpdateClusterGroup env w orgID clusterGroupId name members).1 ≠ .returned none ∧
    (env.cgFindOne w.state { ID := clusterGroupId } ≠ (none, none) →
      ∃ err, (UpdateClusterGroup env w orgID clusterGroupId name members).1
        = .returned (some err)) := by
  unfold UpdateClusterGroup
  rcases hf : env.cgFindOne w.state { ID := clusterGroupId } with ⟨cgModel, err⟩
  cases err with
  | some e => cases cgModel <;> exact ⟨rfl, by simp, fun _ => ⟨e, rfl⟩⟩
  | none =>
    cases cgModel with
    | none => exact ⟨rfl, by simp, fun h => absurd rfl h⟩
    | some model =>
      simp only []
      obtain ⟨e, he⟩ := UpdateClusterGroup_loop_unready env w.state orgID
        (GetClusterGroupFromModel env w.state model false) clusterID cluster hres hunready
        members hmem []
      rw [he]
      exact ⟨rfl, by simp, fun _ => ⟨e, rfl⟩⟩

/-- Witness of C20: updating group 1 to the members 10 and 13, of which 13
is not ready. -/
theorem UpdateClusterGroup_fails_on_unready_member_witness :
    (13 : Nat) ∈ [10, 13] ∧
    (Sim.envWithGroup Sim.clusters []).GetClusterByID Sim.world0.state 7 13 = .ok Sim.cluster13 ∧
    Sim.cluster13.IsReady ≠ (true, none) ∧
    (UpdateClusterGroup (Sim.envWithGroup Sim.clusters []) Sim.world0 7 1 "g1" [10, 13]).2
      = Sim.world0 ∧
    (UpdateClusterGroup (Sim.envWithGroup Sim.clusters []) Sim.world0 7 1 "g1" [10, 13]).1
      ≠ .returned none :=
  ⟨by decide, by decide, by decide,
    (UpdateClusterGroup_fails_on_unready_member (Sim.envWithGroup Sim.clusters []) Sim.world0
      7 1 "g1" [10, 13] 13 Sim.cluster13 (by decide) (by decide) (by decide)).1,
    (UpdateClusterGroup_fails_on_unready_member (Sim.envWithGroup Sim.clusters []) Sim.world0
      7 1 "g1" [10, 13] 13 Sim.cluster13 (by decide) (by decide) (by decide)).2.1⟩

end UpdateReadiness

/-! ## Recognising an unknown feature -/

section UnknownFeature

/-- IsUnknownFeatureError and IsClusterGroupNotFoundError are the same function. -/
theorem IsUnknownFeatureError_eq (err : Option GoError) :
    IsUnknownFeatureError err = IsClusterGroupNotFoundError err := rfl

/-- C24 (the code departs from the claim): IsUnknownFeatureError asserts the
root cause to be a `*clusterGroupNotFoundError`.  It is false for an
unknownFeature error, bare or wrapped, and true for a cluster-group-not-found
error. -/
theorem IsUnknownFeatureError_asserts_cluster_group_not_found :
    IsUnknownFeatureError (some (.unknownFeature "monitoring")) = false ∧
    IsUnknownFeatureError (some (.withStack (.unknownFeature "monitoring"))) = false ∧
    Cause (some (.withStack (.unknownFeature "monitoring")))
      = some (.unknownFeature "monitoring") ∧
    IsUnknownFeatureError (some (.clusterGroupNotFound { ID := 1 })) = true ∧
    IsUnknownFeatureError (some (.withStack (.clusterGroupNotFound { ID := 1 }))) = true := by
  refine ⟨by decide, by decide, by decide, by decide, by decide⟩

end UnknownFeature

/-! ## Validation of the API requests -/

section Requests

/-- C27: CreateRequest.Validate and UpdateRequest.Validate return an error if
and only if the name is empty or the member list is empty, and for an empty
name, whatever the member list, the error is the empty-name error. -/
theorem Validate_error_iff (c : CreateRequest) (u : UpdateRequest) (members : List Nat) :
    (c.Validate ≠ none ↔ (c.Name = "" ∨ c.Members = [])) ∧
    (u.Validate ≠ none ↔ (u.Name = "" ∨ u.Members = [])) ∧
    CreateRequest.Validate { Name := "", Members := members }
      = some (.foreign "cluster group name is empty") ∧
    UpdateRequest.Validate { Name := "", Members := members }
      = some (.foreign "cluster group name is empty") := by
  refine ⟨?_, ?_, ?_, ?_⟩
  · unfold CreateRequest.Validate
    by_cases hn : c.Name = ""
    · have hz : c.Name.utf8ByteSize = 0 := (utf8ByteSize_eq_zero_iff _).mpr hn
      rw [if_pos hz]
      simp [hn]
    · have h0 : ¬ c.Name.utf8ByteSize = 0 := fun hz => hn ((utf8ByteSize_eq_zero_iff _).mp hz)
      by_cases hm : c.Members = []
      · simp [h0, hm]
      · have hl : ¬ c.Members.length = 0 := fun hz => hm (List.length_eq_zero.mp hz)
        simp [h0, hn, hm, hl]
  · unfold UpdateRequest.Validate
    by_cases hn : u.Name = ""
    · have hz : u.Name.utf8ByteSize = 0 := (utf8ByteSize_eq_zero_iff _).mpr hn
      rw [if_pos hz]
      simp [hn]
    · have h0 : ¬ u.Name.utf8ByteSize = 0 := fun hz => hn ((utf8ByteSize_eq_zero_iff _).mp hz)
      by_cases hm : u.Members = []
      · simp [h0, hm]
      · have hl : ¬ u.Members.length = 0 := fun hz => hm (List.length_eq_zero.mp hz)
        simp [h0, hn, hm, hl]
  · unfold CreateRequest.Validate
    rw [if_pos ((utf8ByteSize_eq_zero_iff _).mpr rfl)]
  · unfold UpdateRequest.Validate
    rw [if_pos ((utf8ByteSize_eq_zero_iff _).mpr rfl)]

end Requests

/-! ## Stale entries -/

section StaleEntries

variable {σ : Type}

/-- C29: every stale entry returned by addStaleClusterStatuses has empty Cloud
and Distribution fields, for every current-cluster map, list of recorded
targets and cluster getter, also when the departed cluster resolves. -/
theorem addStaleClusterStatuses_cloud_and_distribution_empty (env : Env σ) (s : σ)
    (clusters : List (Nat × Cluster)) (overrides : List TargetCluster)
    (entry : TargetClusterStatus)
    (hentry : entry ∈ addStaleClusterStatuses env s clusters overrides) :
    entry.Cloud = "" ∧ entry.Distribution = "" := by
  induction overrides with
  | nil => simp [addStaleClusterStatuses] at hentry
  | cons o rest ih =>
    unfold addStaleClusterStatuses at hentry
    by_cases hmember : clusters.lookup o.ClusterID = none
    · simp only [hmember, if_true, List.mem_cons] at hentry
      rcases hentry with h | h
      · subst h
        exact ⟨rfl, rfl⟩
      · exact ih h
    · simp only [hmember, if_false] at hentry
      exact ih hentry

/-- Witness of C29: cluster 14 has left group 1 and still resolves, with
cloud `amazon` and distribution `eks`; its stale entry carries neither. -/
theorem addStaleClusterStatuses_cloud_and_distribution_empty_witness :
    (Sim.env (Sim.cluster14 :: Sim.clusters) []).GetClusterByIDOnly Sim.world0.state 14
      = .ok Sim.cluster14 ∧
    Sim.cluster14.Cloud = "amazon" ∧
    ({ ClusterId := 14, ClusterName := "c14", Status := "stale" } : TargetClusterStatus)
      ∈ addStaleClusterStatuses (Sim.env (Sim.cluster14 :: Sim.clusters) []) Sim.world0.state
          Sim.group1.Clusters [{ ClusterID := 14, ClusterName := "c14" }] ∧
    ({ ClusterId := 14, ClusterName := "c14", Status := "stale" } : TargetClusterStatus).Cloud
      = "" ∧
    ({ ClusterId := 14, ClusterName := "c14", Status := "stale" }
      : TargetClusterStatus).Distribution = "" :=
  ⟨by decide, by decide, by decide,
    (addStaleClusterStatuses_cloud_and_distribution_empty
      (Sim.env (Sim.cluster14 :: Sim.clusters) []) Sim.world0.state Sim.group1.Clusters
      [{ ClusterID := 14, ClusterName := "c14" }]
      { ClusterId := 14, ClusterName := "c14", Status := "stale" } (by decide)).1,
    (addStaleClusterStatuses_cloud_and_distribution_empty
      (Sim.env (Sim.cluster14 :: Sim.clusters) []) Sim.world0.state Sim.group1.Clusters
      [{ ClusterID := 14, ClusterName := "c14" }]
      { ClusterId := 14, ClusterName := "c14", Status := "stale" } (by decide)).2⟩

end StaleEntries

/-! ## Errors of the reconciliation -/

section ReconcileErrors

variable {σ : Type}

theorem joinStatuses_cases (deploymentCount : Nat) (sent : List TargetClusterStatus) :
    (∃ statuses, joinStatuses deploymentCount sent = .returned statuses) ∨
      joinStatuses deploymentCount sent = .blocked := by
  unfold joinStatuses
  split
  · exact Or.inl ⟨_, rfl⟩
  · exact Or.inr rfl

theorem deleteDeploymentFromTargetClusters_cases (env : Env σ) (w : World σ)
    (clusterGroup : ClusterGroup) (deploymentName : String)
    (deploymentModel : ClusterGroupDeploymentModel) (deleteAll forceDelete : Bool) :
    (∃ r, (deleteDeploymentFromTargetClusters env w clusterGroup deploymentName deploymentModel
        deleteAll forceDelete).1 = .returned r) ∨
      (deleteDeploymentFromTargetClusters env w clusterGroup deploymentName deploymentModel
        deleteAll forceDelete).1 = .blocked := by
  unfold deleteDeploymentFromTargetClusters
  simp only []
  rcases joinStatuses_cases
    (deleteDeploymentFromTargetClusters.dispatch clusterGroup.Clusters deleteAll
      deploymentModel.TargetClusters).1
    (runGoroutines (deleteDeploymentFromTargetClusters.goroutine env forceDelete deploymentName) w
      (deleteDeploymentFromTargetClusters.dispatch clusterGroup.Clusters deleteAll
        deploymentModel.TargetClusters).2).1 with ⟨statuses, h⟩ | h
  · rw [h]
    simp only []
    split <;> exact Or.inl ⟨_, rfl⟩
  · rw [h]
    exact Or.inr rfl

theorem DeleteDeployment_cases (env : Env σ) (w : World σ) (clusterGroup : ClusterGroup)
    (deploymentName : String) (forceDelete : Bool) :
    (∃ r, (DeleteDeployment env w clusterGroup deploymentName forceDelete).1 = .returned r) ∨
      (DeleteDeployment env w clusterGroup deploymentName forceDelete).1 = .blocked := by
  unfold DeleteDeployment
  cases env.repoFindByName w.state clusterGroup.Id deploymentName with
  | error err => exact Or.inl ⟨_, rfl⟩
  | ok deploymentModel =>
    simp only []
    rcases hd : deleteDeploymentFromTargetClusters env w clusterGroup deploymentName
      deploymentModel true forceDelete with ⟨o, w1⟩
    have hc := deleteDeploymentFromTargetClusters_cases env w clusterGroup deploymentName
      deploymentModel true forceDelete
    rw [hd] at hc
    rcases hc with ⟨r, hr⟩ | hb
    · simp only [] at hr
      subst hr
      cases r <;> exact Or.inl ⟨_, rfl⟩
    · simp only [] at hb
      subst hb
      exact Or.inr rfl

theorem ReconcileState_loop_cases (env : Env σ) (featureState : Feature)
    (deploymentModels : List ClusterGroupDeploymentModel) : ∀ w : World σ,
    (ReconcileState.loop env featureState w deploymentModels).1 = .returned () ∨
      (ReconcileState.loop env featureState w deploymentModels).1 = .blocked := by
  induction deploymentModels with
  | nil => intro w; exact Or.inl rfl
  | cons deployment rest ih =>
    intro w
    unfold ReconcileState.loop
    simp only []
    by_cases he : featureState.Enabled = false
    · rw [if_pos he]
      rcases hd : DeleteDeployment env w featureState.ClusterGroup deployment.DeploymentName
        false with ⟨o, w1⟩
      have hc := DeleteDeployment_cases env w featureState.ClusterGroup
        deployment.DeploymentName false
      rw [hd] at hc
      rcases hc with ⟨r, hr⟩ | hb
      · simp only [] at hr
        subst hr
        exact ih w1
      · simp only [] at hb
        subst hb
        exact Or.inr rfl
    · rw [if_neg he]
      rcases hd : deleteDeploymentFromTargetClusters env w featureState.ClusterGroup
        deployment.DeploymentName deployment false false with ⟨o, w1⟩
      have hc := deleteDeploymentFromTargetClusters_cases env w featureState.ClusterGroup
        deployment.DeploymentName deployment false false
      rw [hd] at hc
      rcases hc with ⟨r, hr⟩ | hb
      · simp only [] at hr
        subst hr
        exact ih w1
      · simp only [] at hb
        subst hb
        exact Or.inr rfl

/-- C30: for every feature state and every world, ReconcileState either
returns nil or never returns (it waits in a join); it returns no error, whatever
the repository's FindAll, DeleteDeployment and
deleteDeploymentFromTargetClusters return. -/
theorem ReconcileState_returns_no_error (env : Env σ) (w : World σ) (featureState : Feature) :
    (ReconcileState env w featureState).1 = .returned none ∨
      (ReconcileState env w featureState).1 = .blocked := by
  unfold ReconcileState
  simp only []
  rcases hl : ReconcileState.loop env featureState w
    (env.repoFindAll w.state featureState.ClusterGroup.Id).1 with ⟨o, w1⟩
  have hc := ReconcileState_loop_cases env featureState
    (env.repoFindAll w.state featureState.ClusterGroup.Id).1 w
  rw [hl] at hc
  rcases hc with h | h
  · simp only [] at h
    subst h
    exact Or.inl rfl
  · simp only [] at h
    subst h
    exact Or.inr rfl

end ReconcileErrors

/-! ## Length of the release name -/

section ReleaseName

variable {σ : Type}

/-- Counterexample to C25: a request that supplies a release name of 54 bytes.
API.Create keeps the supplied name, and CreateDeployment builds and saves a
record with that name. -/
theorem CreateDeployment_records_release_name_of_54_bytes :
    Sim.longReleaseNameBytes.length = 54 ∧
    releaseNameOfRequest Sim.longReleaseNameBytes (GenerateReleaseName [])
      = Sim.longReleaseNameBytes ∧
    ∃ model : ClusterGroupDeploymentModel,
      createDeploymentModel (Sim.env Sim.clusters []) Sim.group1 "org"
        (defaultVersionAndNamespace (Sim.env Sim.clusters []) Sim.longNameRequest Sim.nginx)
        Sim.nginx = .ok model ∧
      Event.repoSave model ∈ (CreateDeployment (Sim.env Sim.clusters []) Sim.world0 Sim.group1
        "org" Sim.longNameRequest).2.trace ∧
      model.DeploymentReleaseName = Sim.longReleaseName ∧
      model.DeploymentReleaseName.utf8ByteSize = 54 ∧
      ¬ model.DeploymentReleaseName.utf8ByteSize ≤ releaseNameMaxLen := by
  refine ⟨by decide, by decide, ?_⟩
  refine ⟨{ ClusterGroupID := 1, DeploymentName := "stable/nginx", DeploymentVersion := "1.2.3",
            DeploymentReleaseName := Sim.longReleaseName, ChartName := "nginx",
            Namespace := "default", OrganizationName := "org", Values := some "",
            TargetClusters := [{ ClusterID := 10, ClusterName := "c10" }] },
    by decide, by decide, rfl, by decide, by decide⟩

/-- C25, amended: every name returned by GenerateReleaseName has at most 53
bytes, and API.Create asks for it exactly when the request has no release name;
a release name supplied in the request is handed on as it is, and the record
CreateDeployment builds carries the release name it was handed, whatever its
length. -/
theorem release_name_recorded_as_given (env : Env σ) (clusterGroup : ClusterGroup)
    (orgName : String) (cgDeployment : ClusterGroupDeployment) (requestedChart : Chart)
    (model : ClusterGroupDeploymentModel) (monikerName requested generated : List Nat)
    (hcreate : createDeploymentModel env clusterGroup orgName
      (defaultVersionAndNamespace env cgDeployment requestedChart) requestedChart = .ok model) :
    (GenerateReleaseName monikerName).length ≤ 53 ∧
    releaseNameOfRequest [] generated = generated ∧
    (requested ≠ [] → releaseNameOfRequest requested generated = requested) ∧
    model.DeploymentReleaseName = cgDeployment.ReleaseName := by
  refine ⟨?_, rfl, ?_, ?_⟩
  · unfold GenerateReleaseName releaseNameMaxLen
    split
    · simp only [List.length_take]
      exact Nat.min_le_left _ _
    · omega
  · intro hne
    unfold releaseNameOfRequest
    rw [if_neg (fun h => hne (List.length_eq_zero.mp h))]
  · unfold createDeploymentModel at hcreate
    cases hm : env.jsonMarshal (defaultVersionAndNamespace env cgDeployment requestedChart).Values with
    | error err => simp [hm] at hcreate
    | ok values =>
      cases hl : createDeploymentModel.loop env
          (defaultVersionAndNamespace env cgDeployment requestedChart) clusterGroup.Clusters [] with
      | error err => simp [hm, hl] at hcreate
      | ok targetClusters =>
        simp only [hm, hl, Except.ok.injEq] at hcreate
        subst hcreate
        exact (defaultVersionAndNamespace_dryRun env cgDeployment requestedChart).2

/-- Witness of C25, amended: the request with the 54-byte release name. -/
theorem release_name_recorded_as_given_witness :
    createDeploymentModel (Sim.env Sim.clusters []) Sim.group1 "org"
      (defaultVersionAndNamespace (Sim.env Sim.clusters []) Sim.longNameRequest Sim.nginx)
      Sim.nginx
      = .ok { ClusterGroupID := 1, DeploymentName := "stable/nginx", DeploymentVersion := "1.2.3",
              DeploymentReleaseName := Sim.longReleaseName, ChartName := "nginx",
              Namespace := "default", OrganizationName := "org", Values := some "",
              TargetClusters := [{ ClusterID := 10, ClusterName := "c10" }] } ∧
    (GenerateReleaseName (List.replicate 60 97)).length ≤ 53 ∧
    releaseNameOfRequest [] (GenerateReleaseName (List.replicate 60 97))
      = GenerateReleaseName (List.replicate 60 97) ∧
    (Sim.longReleaseNameBytes ≠ [] →
      releaseNameOfRequest Sim.longReleaseNameBytes (GenerateReleaseName (List.replicate 60 97))
        = Sim.longReleaseNameBytes) ∧
    ({ ClusterGroupID := 1, DeploymentName := "stable/nginx", DeploymentVersion := "1.2.3",
       DeploymentReleaseName := Sim.longReleaseName, ChartName := "nginx",
       Namespace := "default", OrganizationName := "org", Values := some "",
       TargetClusters := [{ ClusterID := 10, ClusterName := "c10" }] }
      : ClusterGroupDeploymentModel).DeploymentReleaseName = Sim.longNameRequest.ReleaseName :=
  ⟨by decide,
    release_name_recorded_as_given (Sim.env Sim.clusters []) Sim.group1 "org"
      Sim.longNameRequest Sim.nginx
      { ClusterGroupID := 1, DeploymentName := "stable/nginx", DeploymentVersion := "1.2.3",
        DeploymentReleaseName := Sim.longReleaseName, ChartName := "nginx",
        Namespace := "default", OrganizationName := "org", Values := some "",
        TargetClusters := [{ ClusterID := 10, ClusterName := "c10" }] }
      (List.replicate 60 97) Sim.longReleaseNameBytes
      (GenerateReleaseName (List.replicate 60 97)) (by decide)⟩

end ReleaseName

/-! ## Recorded targets of a desired deployment -/

section RecordedTargets

variable {σ : Type}

/-- The map of the existing targets holds, under an id, a recorded target with
that id. -/
theorem existingTargetsMap_lookup (targets : List TargetCluster) (k : Nat) (t : TargetCluster)
    (h : (updateDeploymentModel.existingTargetsMap targets).lookup k = some t) :
    t ∈ targets ∧ t.ClusterID = k := by
  have hgen : ∀ (targets : List TargetCluster) (acc : List (Nat × TargetCluster)),
      (targets.foldl (fun existing target => (target.ClusterID, target) :: existing) acc).lookup k
        = some t → (t ∈ targets ∧ t.ClusterID = k) ∨ acc.lookup k = some t := by
    intro targets
    induction targets with
    | nil => intro acc h; exact Or.inr h
    | cons x xs ih =>
      intro acc h
      rcases ih _ h with ⟨hm, hk⟩ | hl
      · exact Or.inl ⟨List.mem_cons_of_mem _ hm, hk⟩
      · simp only [List.lookup] at hl
        cases hb : (k == x.ClusterID)
        · rw [hb] at hl
          exact Or.inr hl
        · rw [hb] at hl
          cases hl
          exact Or.inl ⟨List.mem_cons_self _ _, (beq_iff_eq.mp hb).symm⟩
  rcases hgen targets [] h with h1 | h1
  · exact h1
  · cases h1

/-- The target loop of updateDeploymentModel only appends to the recorded
targets. -/
theorem updateDeploymentModel_loop_appends (env : Env σ) (cgDeployment : ClusterGroupDeployment)
    (existing : List (Nat × TargetCluster)) :
    ∀ (clusters : List (Nat × Cluster)) (acc : List TargetCluster),
    ∃ added, (updateDeploymentModel.loop env cgDeployment existing clusters acc).2
      = acc ++ added := by
  intro clusters
  induction clusters with
  | nil => intro acc; exact ⟨[], by simp [updateDeploymentModel.loop]⟩
  | cons head rest ih =>
    intro acc
    obtain ⟨key, cluster⟩ := head
    unfold updateDeploymentModel.loop
    simp only []
    cases hx : existing.lookup cluster.ID with
    | some found =>
      simp only []
      cases cgDeployment.ValueOverrides.lookup cluster.Name with
      | none => exact ih acc
      | some valuesOverride =>
        simp only []
        cases env.jsonMarshal valuesOverride with
        | error err => exact ⟨[], by simp⟩
        | ok marshalledValues => exact ih acc
    | none =>
      simp only []
      have happend : ∀ added, (acc ++ [({ ClusterID := cluster.ID, ClusterName := cluster.Name }
          : TargetCluster)]) ++ added
          = acc ++ (({ ClusterID := cluster.ID, ClusterName := cluster.Name } : TargetCluster)
            :: added) := by
        intro added
        simp
      cases cgDeployment.ValueOverrides.lookup cluster.Name with
      | none =>
        obtain ⟨added, ha⟩ := ih (acc ++ [{ ClusterID := cluster.ID, ClusterName := cluster.Name }])
        exact ⟨_, ha.trans (happend added)⟩
      | some valuesOverride =>
        simp only []
        cases env.jsonMarshal valuesOverride with
        | error err => exact ⟨[{ ClusterID := cluster.ID, ClusterName := cluster.Name }], rfl⟩
        | ok marshalledValues =>
          obtain ⟨added, ha⟩ :=
            ih (acc ++ [{ ClusterID := cluster.ID, ClusterName := cluster.Name }])
          exact ⟨_, ha.trans (happend added)⟩

/-- When the target loop of updateDeploymentModel returns nil, every cluster
it went through has a target among the recorded ones. -/
theorem updateDeploymentModel_loop_covers (env : Env σ) (cgDeployment : ClusterGroupDeployment)
    (existing : List (Nat × TargetCluster)) :
    ∀ (clusters : List (Nat × Cluster)) (acc : List TargetCluster),
    (∀ k t, existing.lookup k = some t → t ∈ acc ∧ t.ClusterID = k) →
    (updateDeploymentModel.loop env cgDeployment existing clusters acc).1 = none →
    ∀ entry ∈ clusters,
      ∃ t ∈ (updateDeploymentModel.loop env cgDeployment existing clusters acc).2,
        t.ClusterID = entry.2.ID := by
  intro clusters
  induction clusters with
  | nil =>
    intro acc _ _ entry hentry
    cases hentry
  | cons head rest ih =>
    intro acc hexisting hnone entry hentry
    obtain ⟨key, cluster⟩ := head
    have hgrow : ∀ extra : List TargetCluster,
        ∀ k t, existing.lookup k = some t → t ∈ acc ++ extra ∧ t.ClusterID = k :=
      fun extra k t h => ⟨List.mem_append_left _ (hexisting k t h).1, (hexisting k t h).2⟩
    have hstep : ∀ acc2 : List TargetCluster,
        (∀ k t, existing.lookup k = some t → t ∈ acc2 ∧ t.ClusterID = k) →
        (∃ t ∈ acc2, t.ClusterID = cluster.ID) →
        (updateDeploymentModel.loop env cgDeployment existing rest acc2).1 = none →
        ∃ t ∈ (updateDeploymentModel.loop env cgDeployment existing rest acc2).2,
          t.ClusterID = entry.2.ID := by
      intro acc2 hex2 hhead hnone2
      rcases List.mem_cons.mp hentry with h | h
      · subst h
        obtain ⟨t, ht, hid⟩ := hhead
        obtain ⟨added, ha⟩ := updateDeploymentModel_loop_appends env cgDeployment existing rest acc2
        exact ⟨t, by rw [ha]; exact List.mem_append_left _ ht, hid⟩
      · exact ih acc2 hex2 hnone2 entry h
    unfold updateDeploymentModel.loop at hnone ⊢
    simp only [] at hnone ⊢
    cases hx : existing.lookup cluster.ID with
    | some found =>
      rw [hx] at hnone
      simp only [] at hnone ⊢
      have hhead : ∃ t ∈ acc, t.ClusterID = cluster.ID :=
        ⟨found, (hexisting _ _ hx).1, (hexisting _ _ hx).2⟩
      cases hv : cgDeployment.ValueOverrides.lookup cluster.Name with
      | none =>
        rw [hv] at hnone
        exact hstep acc hexisting hhead hnone
      | some valuesOverride =>
        rw [hv] at hnone
        simp only [] at hnone ⊢
        cases hm : env.jsonMarshal valuesOverride with
        | error err =>
          rw [hm] at hnone
          cases hnone
        | ok marshalledValues =>
          rw [hm] at hnone
          exact hstep acc hexisting hhead hnone
    | none =>
      rw [hx] at hnone
      simp only [] at hnone ⊢
      have hhead : ∃ t ∈ acc ++ [({ ClusterID := cluster.ID, ClusterName := cluster.Name }
          : TargetCluster)], t.ClusterID = cluster.ID :=
        ⟨_, List.mem_append_right _ (List.mem_singleton_self _), rfl⟩
      cases hv : cgDeployment.ValueOverrides.lookup cluster.Name with
      | none =>
        rw [hv] at hnone
        exact hstep _ (hgrow _) hhead hnone
      | some valuesOverride =>
        rw [hv] at hnone
        simp only [] at hnone ⊢
        cases hm : env.jsonMarshal valuesOverride with
        | error err =>
          rw [hm] at hnone
          cases hnone
        | ok marshalledValues =>
          rw [hm] at hnone
          exact hstep _ (hgrow _) hhead hnone

/-- What holds of the recorded targets on every path of updateDeploymentModel:
no recorded target is removed; and when the request does not reuse the values
and the call returns nil, every current member cluster has a recorded target. -/
theorem updateDeploymentModel_keeps_and_covers (env : Env σ) (clusterGroup : ClusterGroup)
    (deploymentModel : ClusterGroupDeploymentModel) (cgDeployment : ClusterGroupDeployment)
    (requestedChart : Chart) :
    (∃ added, (updateDeploymentModel env clusterGroup deploymentModel cgDeployment
        requestedChart).2.TargetClusters = deploymentModel.TargetClusters ++ added) ∧
    (cgDeployment.ReUseValues = false →
      (updateDeploymentModel env clusterGroup deploymentModel cgDeployment requestedChart).1
        = none →
      ∀ entry ∈ clusterGroup.Clusters,
        ∃ t ∈ (updateDeploymentModel env clusterGroup deploymentModel cgDeployment
            requestedChart).2.TargetClusters, t.ClusterID = entry.2.ID) := by
  unfold updateDeploymentModel
  simp only []
  by_cases hreuse : cgDeployment.ReUseValues = true
  · rw [if_pos hreuse]
    refine ⟨⟨[], by simp⟩, ?_⟩
    intro hfalse
    rw [hreuse] at hfalse
    cases hfalse
  · rw [if_neg hreuse]
    cases hm : env.jsonMarshal cgDeployment.Values with
    | error err =>
      refine ⟨⟨[], by simp⟩, ?_⟩
      intro _ hnone
      cases hnone
    | ok values =>
      simp only []
      refine ⟨updateDeploymentModel_loop_appends env cgDeployment _ _ _, ?_⟩
      intro _ hnone
      exact updateDeploymentModel_loop_covers env cgDeployment _ clusterGroup.Clusters
        deploymentModel.TargetClusters
        (fun k t h => existingTargetsMap_lookup deploymentModel.TargetClusters k t h) hnone

/-- C26 (the code departs from the claim): release `web` is recorded on cluster
10 only and cluster 11 has joined group 1.  An update with reuse-values returns
from updateDeploymentModel before the target loop: the saved model still has
the one target of cluster 10, while the release is installed on clusters 10 and
11.  The same update without reuse-values records cluster 11. -/
theorem updateDeploymentModel_reuse_values_records_no_new_member :
    Sim.reuseRequest.ReUseValues = true ∧
    Sim.group1With11.Clusters.map (fun entry => entry.2.ID) = [10, 11] ∧
    updateDeploymentModel (Sim.env Sim.clusters [Sim.webModelOn10]) Sim.group1With11
      Sim.webModelOn10 Sim.reuseRequest Sim.nginx = (none, Sim.webModelOn10) ∧
    Sim.webModelOn10.TargetClusters.map (fun target => target.ClusterID) = [10] ∧
    (UpdateDeployment (Sim.env Sim.clusters [Sim.webModelOn10]) Sim.world0 Sim.group1With11
      "org" Sim.reuseRequest).2.trace
      = [.repoSave Sim.webModelOn10,
         .installDeploymentOnCluster 10 false, .upgradeDeploymentOnCluster 10 false,
         .installDeploymentOnCluster 11 false, .upgradeDeploymentOnCluster 11 false] ∧
    (updateDeploymentModel (Sim.env Sim.clusters [Sim.webModelOn10]) Sim.group1With11
      Sim.webModelOn10 { Sim.reuseRequest with ReUseValues := false }
      Sim.nginx).2.TargetClusters.map (fun target => target.ClusterID) = [10, 11] := by
  refine ⟨rfl, by decide, by decide, by decide, by decide, by decide⟩

end RecordedTargets

/-! ## Targets recorded at creation -/

section CreatedTargets

variable {σ : Type}

/-- The target loop of createDeploymentModel appends one target per cluster,
in order; every override it looks up was marshalled. -/
theorem createDeploymentModel_loop_eq (env : Env σ) (cgDeployment : ClusterGroupDeployment) :
    ∀ (clusters : List (Nat × Cluster)) (acc targets : List TargetCluster),
    createDeploymentModel.loop env cgDeployment clusters acc = .ok targets →
    targets = acc ++ clusters.map (fun entry =>
        { ClusterID := entry.2.ID, ClusterName := entry.2.Name,
          Values := (cgDeployment.ValueOverrides.lookup entry.2.Name).bind
            (fun valuesOverride => (env.jsonMarshal valuesOverride).toOption) }) ∧
      ∀ entry ∈ clusters, ∀ valuesOverride,
        cgDeployment.ValueOverrides.lookup entry.2.Name = some valuesOverride →
        ∃ marshalledValues, env.jsonMarshal valuesOverride = .ok marshalledValues := by
  intro clusters
  induction clusters with
  | nil =>
    intro acc targets h
    simp only [createDeploymentModel.loop, Except.ok.injEq] at h
    subst h
    exact ⟨by simp, by simp⟩
  | cons head rest ih =>
    intro acc targets h
    obtain ⟨key, cluster⟩ := head
    unfold createDeploymentModel.loop at h
    cases hlook : cgDeployment.ValueOverrides.lookup cluster.Name with
    | none =>
      simp only [hlook] at h
      obtain ⟨heq, hall⟩ := ih _ _ h
      refine ⟨?_, ?_⟩
      · rw [heq]
        simp [hlook]
      · intro entry hentry valuesOverride hv
        rcases List.mem_cons.mp hentry with he | he
        · subst he
          rw [hlook] at hv
          cases hv
        · exact hall entry he valuesOverride hv
    | some valuesOverride =>
      simp only [hlook] at h
      cases hm : env.jsonMarshal valuesOverride with
      | error err => simp [hm] at h
      | ok marshalledValues =>
        simp only [hm] at h
        obtain ⟨heq, hall⟩ := ih _ _ h
        refine ⟨?_, ?_⟩
        · rw [heq]
          simp [hlook, hm, Except.toOption]
        · intro entry hentry v hv
          rcases List.mem_cons.mp hentry with he | he
          · subst he
            rw [hlook] at hv
            cases hv
            exact ⟨marshalledValues, hm⟩
          · exact hall entry he v hv

/-- The target loop of createDeploymentModel reads the override map of the
request at the names of the clusters only. -/
theorem createDeploymentModel_loop_congr (env : Env σ)
    (cgDeployment other : ClusterGroupDeployment) :
    ∀ (clusters : List (Nat × Cluster)) (acc : List TargetCluster),
    (∀ entry ∈ clusters, other.ValueOverrides.lookup entry.2.Name
      = cgDeployment.ValueOverrides.lookup entry.2.Name) →
    createDeploymentModel.loop env other clusters acc
      = createDeploymentModel.loop env cgDeployment clusters acc := by
  intro clusters
  induction clusters with
  | nil => intro acc _; rfl
  | cons head rest ih =>
    intro acc hagree
    obtain ⟨key, cluster⟩ := head
    have hhead := hagree (key, cluster) (List.mem_cons_self _ _)
    have hrest : ∀ entry ∈ rest, other.ValueOverrides.lookup entry.2.Name
        = cgDeployment.ValueOverrides.lookup entry.2.Name :=
      fun entry hentry => hagree entry (List.mem_cons_of_mem _ hentry)
    simp only [] at hhead
    unfold createDeploymentModel.loop
    rw [hhead]
    cases cgDeployment.ValueOverrides.lookup cluster.Name with
    | none => exact ih _ hrest
    | some valuesOverride =>
      simp only []
      cases env.jsonMarshal valuesOverride with
      | error err => rfl
      | ok marshalledValues => exact ih _ hrest

/-- C28: when createDeploymentModel returns a model, its targets are, in the
order of `clusterGroup.Clusters`, one per cluster, each with the cluster's id
and name and with the marshalled override the request's override map holds
under the cluster's name, if any; a target carries an override exactly when the
map has an entry under the cluster's name; and the model is the same for every
override map that agrees with the request's at the names of the current
clusters, so an override under any other name is recorded nowhere. -/
theorem createDeploymentModel_one_target_per_cluster (env : Env σ)
    (clusterGroup : ClusterGroup) (orgName : String) (cgDeployment : ClusterGroupDeployment)
    (requestedChart : Chart) (model : ClusterGroupDeploymentModel)
    (hcreate : createDeploymentModel env clusterGroup orgName cgDeployment requestedChart
      = .ok model) :
    model.TargetClusters = clusterGroup.Clusters.map (fun entry =>
      { ClusterID := entry.2.ID, ClusterName := entry.2.Name,
        Values := (cgDeployment.ValueOverrides.lookup entry.2.Name).bind
          (fun valuesOverride => (env.jsonMarshal valuesOverride).toOption) }) ∧
    (∀ entry ∈ clusterGroup.Clusters,
      ((cgDeployment.ValueOverrides.lookup entry.2.Name).bind
          (fun valuesOverride => (env.jsonMarshal valuesOverride).toOption) ≠ none ↔
        cgDeployment.ValueOverrides.lookup entry.2.Name ≠ none)) ∧
    (∀ other : List (String × Document),
      (∀ entry ∈ clusterGroup.Clusters,
        other.lookup entry.2.Name = cgDeployment.ValueOverrides.lookup entry.2.Name) →
      createDeploymentModel env clusterGroup orgName
        { cgDeployment with ValueOverrides := other } requestedChart = .ok model) := by
  have hcopy := hcreate
  unfold createDeploymentModel at hcreate
  cases hm : env.jsonMarshal cgDeployment.Values with
  | error err => simp [hm] at hcreate
  | ok values =>
    cases hl : createDeploymentModel.loop env cgDeployment clusterGroup.Clusters [] with
    | error err => simp [hm, hl] at hcreate
    | ok targetClusters =>
      simp only [hm, hl, Except.ok.injEq] at hcreate
      obtain ⟨heq, hall⟩ := createDeploymentModel_loop_eq env cgDeployment _ _ _ hl
      refine ⟨?_, ?_, ?_⟩
      · subst hcreate
        simpa using heq
      · intro entry hentry
        cases hlook : cgDeployment.ValueOverrides.lookup entry.2.Name with
        | none => simp
        | some valuesOverride =>
          obtain ⟨marshalledValues, hmv⟩ := hall entry hentry valuesOverride hlook
          simp [hmv, Except.toOption]
      · intro other hagree
        rw [← hcopy]
        unfold createDeploymentModel
        simp only []
        rw [createDeploymentModel_loop_congr env cgDeployment
          { cgDeployment with ValueOverrides := other } clusterGroup.Clusters [] hagree]

/-- Witness of C28: release `web` created on clusters 10 and 11 with an
override for `c10` and one for `c99`. -/
theorem createDeploymentModel_one_target_per_cluster_witness :
    createDeploymentModel (Sim.env Sim.clusters []) Sim.group1With11 "org" Sim.overrideRequest
      Sim.nginx
      = .ok { ClusterGroupID := 1, DeploymentName := "stable/nginx", DeploymentVersion := "1.2.3",
              DeploymentReleaseName := "web", ChartName := "nginx", Namespace := "default",
              OrganizationName := "org", Values := some "image",
              TargetClusters := [{ ClusterID := 10, ClusterName := "c10",
                                   Values := some "replicas" },
                                 { ClusterID := 11, ClusterName := "c11" }] } ∧
    ([{ ClusterID := 10, ClusterName := "c10", Values := some "replicas" },
      { ClusterID := 11, ClusterName := "c11" }] : List TargetCluster)
      = Sim.group1With11.Clusters.map (fun entry =>
        { ClusterID := entry.2.ID, ClusterName := entry.2.Name,
          Values := (Sim.overrideRequest.ValueOverrides.lookup entry.2.Name).bind
            (fun valuesOverride =>
              ((Sim.env Sim.clusters []).jsonMarshal valuesOverride).toOption) }) :=
  ⟨by decide,
    (createDeploymentModel_one_target_per_cluster (Sim.env Sim.clusters []) Sim.group1With11
      "org" Sim.overrideRequest Sim.nginx
      { ClusterGroupID := 1, DeploymentName := "stable/nginx", DeploymentVersion := "1.2.3",
        DeploymentReleaseName := "web", ChartName := "nginx", Namespace := "default",
        OrganizationName := "org", Values := some "image",
        TargetClusters := [{ ClusterID := 10, ClusterName := "c10",
                             Values := some "replicas" },
                           { ClusterID := 11, ClusterName := "c11" }] }
      (by decide)).1⟩

end CreatedTargets

/-! ## Validation before an update of the members -/

section Validation

variable {σ : Type}

/-- The feature loop of validateBeforeClusterGroupUpdate calls ValidateState
for enabled features only, in the order of the iteration and each with the
prospective cluster group, and for all of them when it returns nil; it leaves
the external state as it was. -/
theorem validateBeforeClusterGroupUpdate_loop_calls (env : Env σ)
    (newClusters : List (Nat × Cluster)) (members : List Member) (prospective : ClusterGroup) :
    ∀ (features : List (String × Feature)) (w : World σ) (clusterGroup : ClusterGroup),
    ({ clusterGroup with Clusters := newClusters, Members := members } : ClusterGroup)
      = prospective →
    ∃ called rest : List (String × Feature),
      called ++ rest = features.filter (fun nf => nf.2.Enabled) ∧
      (validateBeforeClusterGroupUpdate.loop env newClusters members w clusterGroup features).2
        = { state := w.state
            trace := w.trace ++ called.map (fun nf => Event.validateState nf.1 prospective) } ∧
      ((validateBeforeClusterGroupUpdate.loop env newClusters members w clusterGroup features).1
        = none → rest = []) := by
  intro features
  induction features with
  | nil =>
    intro w clusterGroup _
    refine ⟨[], [], rfl, ?_, fun _ => rfl⟩
    cases w
    simp [validateBeforeClusterGroupUpdate.loop]
  | cons head tail ih =>
    intro w clusterGroup hP
    obtain ⟨name, feature⟩ := head
    unfold validateBeforeClusterGroupUpdate.loop
    by_cases he : feature.Enabled = false
    · rw [if_pos he]
      obtain ⟨called, rest, h1, h2, h3⟩ := ih w clusterGroup hP
      refine ⟨called, rest, ?_, h2, h3⟩
      rw [h1]
      simp [he]
    · rw [if_neg he]
      have het : feature.Enabled = true := by simpa using he
      simp only []
      rw [hP]
      cases hh : env.GetFeatureHandler name with
      | some err =>
        refine ⟨[], List.filter (fun nf => nf.2.Enabled) ((name, feature) :: tail), rfl, ?_, ?_⟩
        · cases w
          simp
        · intro h
          cases h
      | none =>
        simp only []
        cases hv : env.ValidateState (w.emit (.validateState name prospective)).state name
            { feature with ClusterGroup := prospective } with
        | some err =>
          refine ⟨[(name, feature)], List.filter (fun nf => nf.2.Enabled) tail, ?_, ?_, ?_⟩
          · simp [het]
          · rfl
          · intro h
            cases h
        | none =>
          simp only []
          have hP2 : ({ prospective with Clusters := newClusters, Members := members }
              : ClusterGroup) = prospective := by
            subst hP
            rfl
          obtain ⟨called, rest, h1, h2, h3⟩ :=
            ih (w.emit (.validateState name prospective)) prospective hP2
          refine ⟨(name, feature) :: called, rest, ?_, ?_, h3⟩
          · simp [het, h1]
          · rw [h2]
            simp [World.emit]

/-- When every enabled feature has a handler and the handler of one of them
rejects the prospective cluster group, the feature loop returns the rejection of
an enabled feature whose handler rejects. -/
theorem validateBeforeClusterGroupUpdate_loop_rejects (env : Env σ)
    (newClusters : List (Nat × Cluster)) (members : List Member) (prospective : ClusterGroup) :
    ∀ (features : List (String × Feature)) (w : World σ) (clusterGroup : ClusterGroup),
    ({ clusterGroup with Clusters := newClusters, Members := members } : ClusterGroup)
      = prospective →
    (∀ nf ∈ features, nf.2.Enabled = true → env.GetFeatureHandler nf.1 = none) →
    (∃ nf ∈ features, nf.2.Enabled = true ∧
      env.ValidateState w.state nf.1 { nf.2 with ClusterGroup := prospective } ≠ none) →
    ∃ nf ∈ features, nf.2.Enabled = true ∧
      env.ValidateState w.state nf.1 { nf.2 with ClusterGroup := prospective } ≠ none ∧
      (validateBeforeClusterGroupUpdate.loop env newClusters members w clusterGroup features).1
        = some (.clusterGroupUpdateRejected nf.2.Name) := by
  intro features
  induction features with
  | nil =>
    intro w clusterGroup _ _ hreject
    obtain ⟨nf, hnf, _⟩ := hreject
    cases hnf
  | cons head tail ih =>
    intro w clusterGroup hP hhandlers hreject
    obtain ⟨name, feature⟩ := head
    have htail : ∀ nf ∈ tail, nf.2.Enabled = true → env.GetFeatureHandler nf.1 = none :=
      fun nf hnf => hhandlers nf (List.mem_cons_of_mem _ hnf)
    unfold validateBeforeClusterGroupUpdate.loop
    by_cases he : feature.Enabled = false
    · rw [if_pos he]
      have hreject2 : ∃ nf ∈ tail, nf.2.Enabled = true ∧
          env.ValidateState w.state nf.1 { nf.2 with ClusterGroup := prospective } ≠ none := by
        obtain ⟨nf, hnf, hen, hv⟩ := hreject
        rcases List.mem_cons.mp hnf with h | h
        · subst h
          simp only [] at hen
          rw [he] at hen
          cases hen
        · exact ⟨nf, h, hen, hv⟩
      obtain ⟨nf, hnf, hen, hv, hr⟩ := ih w clusterGroup hP htail hreject2
      exact ⟨nf, List.mem_cons_of_mem _ hnf, hen, hv, hr⟩
    · rw [if_neg he]
      have het : feature.Enabled = true := by simpa using he
      simp only []
      rw [hP, hhandlers (name, feature) (List.mem_cons_self _ _) het]
      simp only []
      cases hv : env.ValidateState (w.emit (.validateState name prospective)).state name
          { feature with ClusterGroup := prospective } with
      | some err =>
        refine ⟨(name, feature), List.mem_cons_self _ _, het, ?_, rfl⟩
        intro hnone
        have hv2 : env.ValidateState w.state name { feature with ClusterGroup := prospective }
            = some err := hv
        rw [hnone] at hv2
        cases hv2
      | none =>
        simp only []
        have hP2 : ({ prospective with Clusters := newClusters, Members := members }
            : ClusterGroup) = prospective := by
          subst hP
          rfl
        have hreject2 : ∃ nf ∈ tail, nf.2.Enabled = true ∧
            env.ValidateState (w.emit (.validateState name prospective)).state nf.1
              { nf.2 with ClusterGroup := prospective } ≠ none := by
          obtain ⟨nf, hnf, hen, hne⟩ := hreject
          rcases List.mem_cons.mp hnf with h | h
          · subst h
            exact absurd hv hne
          · exact ⟨nf, h, hen, hne⟩
        obtain ⟨nf, hnf, hen, hne, hr⟩ :=
          ih (w.emit (.validateState name prospective)) prospective hP2 htail hreject2
        exact ⟨nf, List.mem_cons_of_mem _ hnf, hen, hne, hr⟩

/-- C21: when the group is found, the requested members pass the member loop
and the features of the group are listed with a handler for every enabled one,
and the handler of an enabled feature rejects the prospective cluster group,
UpdateClusterGroup returns the rejection of such a feature wrapped as `update
denied`; IsClusterGroupUpdateRejectedError holds for the returned error and
yields the error that names the feature; the external state is left as it was,
and the only calls traced are calls of ValidateState: neither the repository's
UpdateMembers nor ReconcileFeatures is called. -/
theorem UpdateClusterGroup_rejected_by_feature (env : Env σ) (w : World σ)
    (orgID clusterGroupId : Nat) (name : String) (members : List Nat)
    (cgModel : ClusterGroupModel) (newMembers : List (Nat × Cluster))
    (features : List (String × Feature))
    (hfound : env.cgFindOne w.state { ID := clusterGroupId } = (some cgModel, none))
    (hloop : UpdateClusterGroup.loop env w.state orgID
      (GetClusterGroupFromModel env w.state cgModel false) members [] = .ok newMembers)
    (hfeatures : env.GetFeatures w.state (GetClusterGroupFromModel env w.state cgModel false)
      = .ok features)
    (hhandlers : ∀ nf ∈ features, nf.2.Enabled = true → env.GetFeatureHandler nf.1 = none)
    (hreject : ∃ nf ∈ features, nf.2.Enabled = true ∧
      env.ValidateState w.state nf.1
        { nf.2 with ClusterGroup :=
          { GetClusterGroupFromModel env w.state cgModel false with
            Clusters := newMembers
            Members := validateBeforeClusterGroupUpdate.members newMembers } } ≠ none) :
    ∃ nf ∈ features, nf.2.Enabled = true ∧
      env.ValidateState w.state nf.1
        { nf.2 with ClusterGroup :=
          { GetClusterGroupFromModel env w.state cgModel false with
            Clusters := newMembers
            Members := validateBeforeClusterGroupUpdate.members newMembers } } ≠ none ∧
      (UpdateClusterGroup env w orgID clusterGroupId name members).1
        = .returned (some (.withMessage (.clusterGroupUpdateRejected nf.2.Name) "update denied")) ∧
      IsClusterGroupUpdateRejectedError
          (some (.withMessage (.clusterGroupUpdateRejected nf.2.Name) "update denied"))
        = (some (.clusterGroupUpdateRejected nf.2.Name), true) ∧
      (UpdateClusterGroup env w orgID clusterGroupId name members).2.state = w.state ∧
      ∃ events : List Event,
        (UpdateClusterGroup env w orgID clusterGroupId name members).2.trace
          = w.trace ++ events ∧
        ∀ e ∈ events, ∃ handler clusterGroup, e = Event.validateState handler clusterGroup := by
  obtain ⟨nf, hnf, hen, hne, hr⟩ :=
    validateBeforeClusterGroupUpdate_loop_rejects env newMembers
      (validateBeforeClusterGroupUpdate.members newMembers) _ features w
      (GetClusterGroupFromModel env w.state cgModel false) rfl hhandlers hreject
  obtain ⟨called, rest, _, hw, _⟩ :=
    validateBeforeClusterGroupUpdate_loop_calls env newMembers
      (validateBeforeClusterGroupUpdate.members newMembers) _ features w
      (GetClusterGroupFromModel env w.state cgModel false) rfl
  have hvalidate : validateBeforeClusterGroupUpdate env w
      (GetClusterGroupFromModel env w.state cgModel false) newMembers
      = validateBeforeClusterGroupUpdate.loop env newMembers
          (validateBeforeClusterGroupUpdate.members newMembers) w
          (GetClusterGroupFromModel env w.state cgModel false) features := by
    unfold validateBeforeClusterGroupUpdate
    rw [hfeatures]
  have hupdate : UpdateClusterGroup env w orgID clusterGroupId name members
      = (.returned (some (.withMessage (.clusterGroupUpdateRejected nf.2.Name) "update denied")),
          (validateBeforeClusterGroupUpdate.loop env newMembers
            (validateBeforeClusterGroupUpdate.members newMembers) w
            (GetClusterGroupFromModel env w.state cgModel false) features).2) := by
    unfold UpdateClusterGroup
    rw [hfound]
    simp only []
    rw [hloop]
    simp only []
    rw [hvalidate]
    rcases hl : validateBeforeClusterGroupUpdate.loop env newMembers
      (validateBeforeClusterGroupUpdate.members newMembers) w
      (GetClusterGroupFromModel env w.state cgModel false) features with ⟨err, w1⟩
    rw [hl] at hr
    simp only [] at hr
    subst hr
    rfl
  refine ⟨nf, hnf, hen, hne, ?_, rfl, ?_, ?_⟩
  · rw [hupdate]
  · rw [hupdate]
    simp only []
    rw [hw]
  · refine ⟨called.map (fun nf2 => Event.validateState nf2.1
      { GetClusterGroupFromModel env w.state cgModel false with
        Clusters := newMembers
        Members := validateBeforeClusterGroupUpdate.members newMembers }), ?_, ?_⟩
    · rw [hupdate]
      simp only []
      rw [hw]
    · intro e hmem
      obtain ⟨nf2, _, h2⟩ := List.mem_map.mp hmem
      exact ⟨_, _, h2.symm⟩

/-- Witness of C21: organization 7 asks for clusters 10 and 11 as the members
of group 1, whose `quota` feature rejects every state. -/
theorem UpdateClusterGroup_rejected_by_feature_witness :
    (Sim.envQuotaRejects Sim.clusters []).cgFindOne Sim.world0.state { ID := 1 }
      = (some Sim.group1Model, none) ∧
    UpdateClusterGroup.loop (Sim.envQuotaRejects Sim.clusters []) Sim.world0.state 7
      (GetClusterGroupFromModel (Sim.envQuotaRejects Sim.clusters []) Sim.world0.state
        Sim.group1Model false) [10, 11] []
      = .ok [(10, Sim.cluster10), (11, Sim.cluster11)] ∧
    (UpdateClusterGroup (Sim.envQuotaRejects Sim.clusters []) Sim.world0 7 1 "g1" [10, 11]).1
      = .returned (some (.withMessage (.clusterGroupUpdateRejected "quota") "update denied")) ∧
    ∃ nf ∈ Sim.quotaFeatures (GetClusterGroupFromModel (Sim.envQuotaRejects Sim.clusters [])
        Sim.world0.state Sim.group1Model false),
      nf.2.Enabled = true ∧
      (Sim.envQuotaRejects Sim.clusters []).ValidateState Sim.world0.state nf.1
        { nf.2 with ClusterGroup :=
          { GetClusterGroupFromModel (Sim.envQuotaRejects Sim.clusters []) Sim.world0.state
              Sim.group1Model false with
            Clusters := [(10, Sim.cluster10), (11, Sim.cluster11)]
            Members := validateBeforeClusterGroupUpdate.members
              [(10, Sim.cluster10), (11, Sim.cluster11)] } } ≠ none ∧
      (UpdateClusterGroup (Sim.envQuotaRejects Sim.clusters []) Sim.world0 7 1 "g1"
          [10, 11]).1
        = .returned (some (.withMessage (.clusterGroupUpdateRejected nf.2.Name)
            "update denied")) ∧
      IsClusterGroupUpdateRejectedError
          (some (.withMessage (.clusterGroupUpdateRejected nf.2.Name) "update denied"))
        = (some (.clusterGroupUpdateRejected nf.2.Name), true) ∧
      (UpdateClusterGroup (Sim.envQuotaRejects Sim.clusters []) Sim.world0 7 1 "g1"
          [10, 11]).2.state = Sim.world0.state ∧
      ∃ events : List Event,
        (UpdateClusterGroup (Sim.envQuotaRejects Sim.clusters []) Sim.world0 7 1 "g1"
            [10, 11]).2.trace = Sim.world0.trace ++ events ∧
        ∀ e ∈ events, ∃ handler clusterGroup, e = Event.validateState handler clusterGroup :=
  ⟨by decide, by decide, by decide,
    UpdateClusterGroup_rejected_by_feature (Sim.envQuotaRejects Sim.clusters []) Sim.world0
      7 1 "g1" [10, 11] Sim.group1Model [(10, Sim.cluster10), (11, Sim.cluster11)] _
      (by decide) (by decide) rfl
      (by
        intro nf hnf _
        simp only [Sim.quotaFeatures, List.mem_cons, List.mem_singleton, List.not_mem_nil,
          or_false] at hnf
        rcases hnf with h | h | h <;> subst h <;> decide)
      ⟨("quota",
          { Name := "quota", Enabled := true,
            ClusterGroup := GetClusterGroupFromModel (Sim.envQuotaRejects Sim.clusters [])
              Sim.world0.state Sim.group1Model false }),
        by simp [Sim.quotaFeatures], rfl, by decide⟩⟩

/-- Counterexample to C22: group 1 has two enabled features, `quota` and
`deployment`, and every handler rejects.  Whichever of the two the iteration
reaches first (the features in their listed order, then in the reverse order),
ValidateState is called for that one only. -/
theorem validateBeforeClusterGroupUpdate_stops_at_first_rejection :
    (validateBeforeClusterGroupUpdate (Sim.envAllReject Sim.clusters []) Sim.world0 Sim.group1
        Sim.group1With11.Clusters).2.trace
      = [.validateState "quota"
          { Sim.group1 with
            Clusters := Sim.group1With11.Clusters
            Members := validateBeforeClusterGroupUpdate.members Sim.group1With11.Clusters }] ∧
    (validateBeforeClusterGroupUpdate (Sim.envAllReject Sim.clusters []) Sim.world0 Sim.group1
        Sim.group1With11.Clusters).1 = some (.clusterGroupUpdateRejected "quota") ∧
    (validateBeforeClusterGroupUpdate.loop (Sim.envAllReject Sim.clusters [])
        Sim.group1With11.Clusters
        (validateBeforeClusterGroupUpdate.members Sim.group1With11.Clusters) Sim.world0
        Sim.group1
        (Sim.quotaFeatures Sim.group1).reverse).2.trace
      = [.validateState "deployment"
          { Sim.group1 with
            Clusters := Sim.group1With11.Clusters
            Members := validateBeforeClusterGroupUpdate.members Sim.group1With11.Clusters }] := by
  refine ⟨by decide, by decide, by decide⟩

/-- The feature loop of validateBeforeClusterGroupUpdate, outcome by outcome:
it goes through the enabled features in order, calling ValidateState with the
prospective cluster group for each one that has a handler, as long as the
handlers accept; it returns nil after the last one, the rejection at the first
one whose handler rejects, and the error of the handler lookup at the first one
without a handler. -/
theorem validateBeforeClusterGroupUpdate_loop_outcome (env : Env σ)
    (newClusters : List (Nat × Cluster)) (members : List Member) (prospective : ClusterGroup) :
    ∀ (features : List (String × Feature)) (w : World σ) (clusterGroup : ClusterGroup),
    ({ clusterGroup with Clusters := newClusters, Members := members } : ClusterGroup)
      = prospective →
    ∃ accepted : List (String × Feature),
      (∀ nf ∈ accepted, env.GetFeatureHandler nf.1 = none ∧
        env.ValidateState w.state nf.1 { nf.2 with ClusterGroup := prospective } = none) ∧
      ((accepted = features.filter (fun nf => nf.2.Enabled) ∧
          validateBeforeClusterGroupUpdate.loop env newClusters members w clusterGroup features
            = (none,
               { state := w.state
                 trace := w.trace ++
                   accepted.map (fun nf => Event.validateState nf.1 prospective) })) ∨
        (∃ (nf : String × Feature) (rest : List (String × Feature)),
          features.filter (fun nf => nf.2.Enabled) = accepted ++ nf :: rest ∧
          env.GetFeatureHandler nf.1 = none ∧
          env.ValidateState w.state nf.1 { nf.2 with ClusterGroup := prospective } ≠ none ∧
          validateBeforeClusterGroupUpdate.loop env newClusters members w clusterGroup features
            = (some (.clusterGroupUpdateRejected nf.2.Name),
               { state := w.state
                 trace := w.trace ++
                   (accepted ++ [nf]).map (fun nf => Event.validateState nf.1 prospective) })) ∨
        (∃ (nf : String × Feature) (rest : List (String × Feature)) (err : GoError),
          features.filter (fun nf => nf.2.Enabled) = accepted ++ nf :: rest ∧
          env.GetFeatureHandler nf.1 = some err ∧
          validateBeforeClusterGroupUpdate.loop env newClusters members w clusterGroup features
            = (some err,
               { state := w.state
                 trace := w.trace ++
                   accepted.map (fun nf => Event.validateState nf.1 prospective) }))) := by
  intro features
  induction features with
  | nil =>
    intro w clusterGroup _
    refine ⟨[], by simp, Or.inl ⟨rfl, ?_⟩⟩
    cases w
    simp [validateBeforeClusterGroupUpdate.loop]
  | cons head tail ih =>
    intro w clusterGroup hP
    obtain ⟨name, feature⟩ := head
    unfold validateBeforeClusterGroupUpdate.loop
    by_cases he : feature.Enabled = false
    · rw [if_pos he]
      have hfilter : List.filter (fun nf => nf.2.Enabled) ((name, feature) :: tail)
          = List.filter (fun nf => nf.2.Enabled) tail := by simp [he]
      rw [hfilter]
      exact ih w clusterGroup hP
    · rw [if_neg he]
      have het : feature.Enabled = true := by simpa using he
      have hfilter : List.filter (fun nf => nf.2.Enabled) ((name, feature) :: tail)
          = (name, feature) :: List.filter (fun nf => nf.2.Enabled) tail := by simp [het]
      rw [hfilter]
      simp only []
      rw [hP]
      cases hh : env.GetFeatureHandler name with
      | some err =>
        refine ⟨[], by simp, Or.inr (Or.inr ⟨(name, feature), _, err, rfl, hh, ?_⟩)⟩
        cases w
        simp
      | none =>
        simp only []
        cases hv : env.ValidateState (w.emit (.validateState name prospective)).state name
            { feature with ClusterGroup := prospective } with
        | some err =>
          refine ⟨[], by simp, Or.inr (Or.inl ⟨(name, feature), _, rfl, hh, ?_, rfl⟩)⟩
          intro hnone
          have hv2 : env.ValidateState w.state name { feature with ClusterGroup := prospective }
              = some err := hv
          rw [hnone] at hv2
          cases hv2
        | none =>
          simp only []
          have hP2 : ({ prospective with Clusters := newClusters, Members := members }
              : ClusterGroup) = prospective := by
            subst hP
            rfl
          obtain ⟨accepted, hacc, hcases⟩ :=
            ih (w.emit (.validateState name prospective)) prospective hP2
          have hacc2 : ∀ nf ∈ (name, feature) :: accepted, env.GetFeatureHandler nf.1 = none ∧
              env.ValidateState w.state nf.1 { nf.2 with ClusterGroup := prospective }
                = none := by
            intro nf hnf
            rcases List.mem_cons.mp hnf with h | h
            · subst h
              exact ⟨hh, hv⟩
            · exact hacc nf h
          refine ⟨(name, feature) :: accepted, hacc2, ?_⟩
          rcases hcases with ⟨h1, h2⟩ | ⟨nf, rest, h1, h2, h3, h4⟩ | ⟨nf, rest, err, h1, h2, h3⟩
          · refine Or.inl ⟨by rw [h1], ?_⟩
            rw [h2]
            simp [World.emit]
          · refine Or.inr (Or.inl ⟨nf, rest, by rw [h1]; rfl, h2, h3, ?_⟩)
            rw [h4]
            simp [World.emit]
          · refine Or.inr (Or.inr ⟨nf, rest, err, by rw [h1]; rfl, h2, ?_⟩)
            rw [h3]
            simp [World.emit]

/-- C22, amended: validateBeforeClusterGroupUpdate goes through the enabled
features of the group in the order of the iteration and through no disabled
one.  It calls ValidateState once for each enabled feature in turn, as long as
the feature has a handler and the handler accepts, and stops at the first
enabled feature whose handler is missing (returning the error of the lookup,
without a call for that feature) or whose handler rejects (returning the
rejection, after the call for that feature); when no such feature exists it has
called ValidateState exactly once for each enabled feature and returns nil.  In
every call the cluster group of the feature state has `Clusters` equal to the
prospective member map and `Members` with one entry per prospective member,
built from that member.  The external state is left as it was. -/
theorem validateBeforeClusterGroupUpdate_calls (env : Env σ) (w : World σ)
    (clusterGroup : ClusterGroup) (newClusters : List (Nat × Cluster))
    (features : List (String × Feature))
    (hfeatures : env.GetFeatures w.state clusterGroup = .ok features) :
    ∃ (accepted : List (String × Feature)) (prospective : ClusterGroup),
      prospective.Clusters = newClusters ∧
      prospective.Members = newClusters.map (fun entry =>
        { ID := entry.2.ID, Cloud := entry.2.Cloud, Distribution := entry.2.Distribution,
          Name := entry.2.Name }) ∧
      (∀ nf ∈ accepted, env.GetFeatureHandler nf.1 = none ∧
        env.ValidateState w.state nf.1 { nf.2 with ClusterGroup := prospective } = none) ∧
      ((accepted = features.filter (fun nf => nf.2.Enabled) ∧
          validateBeforeClusterGroupUpdate env w clusterGroup newClusters
            = (none,
               { state := w.state
                 trace := w.trace ++
                   accepted.map (fun nf => Event.validateState nf.1 prospective) })) ∨
        (∃ (nf : String × Feature) (rest : List (String × Feature)),
          features.filter (fun nf => nf.2.Enabled) = accepted ++ nf :: rest ∧
          env.GetFeatureHandler nf.1 = none ∧
          env.ValidateState w.state nf.1 { nf.2 with ClusterGroup := prospective } ≠ none ∧
          validateBeforeClusterGroupUpdate env w clusterGroup newClusters
            = (some (.clusterGroupUpdateRejected nf.2.Name),
               { state := w.state
                 trace := w.trace ++
                   (accepted ++ [nf]).map (fun nf => Event.validateState nf.1 prospective) })) ∨
        (∃ (nf : String × Feature) (rest : List (String × Feature)) (err : GoError),
          features.filter (fun nf => nf.2.Enabled) = accepted ++ nf :: rest ∧
          env.GetFeatureHandler nf.1 = some err ∧
          validateBeforeClusterGroupUpdate env w clusterGroup newClusters
            = (some err,
               { state := w.state
                 trace := w.trace ++
                   accepted.map (fun nf => Event.validateState nf.1 prospective) }))) := by
  obtain ⟨accepted, hacc, hcases⟩ :=
    validateBeforeClusterGroupUpdate_loop_outcome env newClusters
      (validateBeforeClusterGroupUpdate.members newClusters) _ features w clusterGroup rfl
  have hvalidate : validateBeforeClusterGroupUpdate env w clusterGroup newClusters
      = validateBeforeClusterGroupUpdate.loop env newClusters
          (validateBeforeClusterGroupUpdate.members newClusters) w clusterGroup features := by
    unfold validateBeforeClusterGroupUpdate
    rw [hfeatures]
  rw [hvalidate]
  exact ⟨accepted,
    { clusterGroup with
      Clusters := newClusters
      Members := validateBeforeClusterGroupUpdate.members newClusters },
    rfl, rfl, hacc, hcases⟩

/-- Witness of C22, amended: the features of group 1 are `monitoring`
(disabled), `quota` (rejecting) and `deployment`; ValidateState is called for
`quota` only and the rejection of `quota` is returned. -/
theorem validateBeforeClusterGroupUpdate_calls_witness :
    (Sim.envQuotaRejects Sim.clusters []).GetFeatures Sim.world0.state Sim.group1
      = .ok (Sim.quotaFeatures Sim.group1) ∧
    validateBeforeClusterGroupUpdate (Sim.envQuotaRejects Sim.clusters []) Sim.world0
        Sim.group1 Sim.group1With11.Clusters
      = (some (.clusterGroupUpdateRejected "quota"),
         { state := Sim.world0.state
           trace := [.validateState "quota"
             { Sim.group1 with
               Clusters := Sim.group1With11.Clusters
               Members :=
                 validateBeforeClusterGroupUpdate.members Sim.group1With11.Clusters }] }) ∧
    ∃ (accepted : List (String × Feature)) (prospective : ClusterGroup),
      prospective.Clusters = Sim.group1With11.Clusters ∧
      prospective.Members = Sim.group1With11.Clusters.map (fun entry =>
        { ID := entry.2.ID, Cloud := entry.2.Cloud, Distribution := entry.2.Distribution,
          Name := entry.2.Name }) ∧
      (∀ nf ∈ accepted, (Sim.envQuotaRejects Sim.clusters []).GetFeatureHandler nf.1 = none ∧
        (Sim.envQuotaRejects Sim.clusters []).ValidateState Sim.world0.state nf.1
          { nf.2 with ClusterGroup := prospective } = none) ∧
      ((accepted = (Sim.quotaFeatures Sim.group1).filter (fun nf => nf.2.Enabled) ∧
          validateBeforeClusterGroupUpdate (Sim.envQuotaRejects Sim.clusters []) Sim.world0
              Sim.group1 Sim.group1With11.Clusters
            = (none,
               { state := Sim.world0.state
                 trace := Sim.world0.trace ++
                   accepted.map (fun nf => Event.validateState nf.1 prospective) })) ∨
        (∃ (nf : String × Feature) (rest : List (String × Feature)),
          (Sim.quotaFeatures Sim.group1).filter (fun nf => nf.2.Enabled)
            = accepted ++ nf :: rest ∧
          (Sim.envQuotaRejects Sim.clusters []).GetFeatureHandler nf.1 = none ∧
          (Sim.envQuotaRejects Sim.clusters []).ValidateState Sim.world0.state nf.1
            { nf.2 with ClusterGroup := prospective } ≠ none ∧
          validateBeforeClusterGroupUpdate (Sim.envQuotaRejects Sim.clusters []) Sim.world0
              Sim.group1 Sim.group1With11.Clusters
            = (some (.clusterGroupUpdateRejected nf.2.Name),
               { state := Sim.world0.state
                 trace := Sim.world0.trace ++
                   (accepted ++ [nf]).map (fun nf => Event.validateState nf.1 prospective) })) ∨
        (∃ (nf : String × Feature) (rest : List (String × Feature)) (err : GoError),
          (Sim.quotaFeatures Sim.group1).filter (fun nf => nf.2.Enabled)
            = accepted ++ nf :: rest ∧
          (Sim.envQuotaRejects Sim.clusters []).GetFeatureHandler nf.1 = some err ∧
          validateBeforeClusterGroupUpdate (Sim.envQuotaRejects Sim.clusters []) Sim.world0
              Sim.group1 Sim.group1With11.Clusters
            = (some err,
               { state := Sim.world0.state
                 trace := Sim.world0.trace ++
                   accepted.map (fun nf => Event.validateState nf.1 prospective) }))) :=
  ⟨rfl, rfl,
    validateBeforeClusterGroupUpdate_calls (Sim.envQuotaRejects Sim.clusters []) Sim.world0
      Sim.group1 Sim.group1With11.Clusters (Sim.quotaFeatures Sim.group1) rfl⟩

end Validation

/-! ## The projection of a persisted group -/

section Projection

variable {σ : Type}

theorem GoMap.lookup_set_self {ν : Type} (m : List (Nat × ν)) (key : Nat) (value : ν) :
    (GoMap.set m key value).lookup key = some value := by
  unfold GoMap.set
  induction m with
  | nil => simp [List.lookup]
  | cons head tail ih =>
    obtain ⟨k, v⟩ := head
    by_cases h : k = key
    · subst h
      simpa [List.filter] using ih
    · have hb : (key == k) = false := by
        simp only [beq_eq_false_iff_ne, ne_eq]
        exact fun h2 => h h2.symm
      simp only [List.filter, ne_eq, h, not_false_eq_true, decide_True, List.cons_append,
        List.lookup, hb]
      exact ih

theorem GoMap.lookup_set_ne {ν : Type} (m : List (Nat × ν)) (key k : Nat) (value : ν)
    (h : k ≠ key) : (GoMap.set m key value).lookup k = m.lookup k := by
  unfold GoMap.set
  induction m with
  | nil =>
    have hb : (k == key) = false := by simpa using h
    simp [List.lookup, hb]
  | cons head tail ih =>
    obtain ⟨k2, v⟩ := head
    by_cases h2 : k2 = key
    · subst h2
      have hb : (k == k2) = false := by simpa using h
      simp only [List.filter, ne_eq, not_true_eq_false, decide_False, List.lookup, hb]
      exact ih
    · simp only [List.filter, ne_eq, h2, not_false_eq_true, decide_True, List.cons_append,
        List.lookup]
      cases hk : (k == k2)
      · exact ih
      · rfl

/-- The member loop of GetClusterGroupFromModel appends one member entry per
persisted member, in order. -/
theorem GetClusterGroupFromModel_loop_members (env : Env σ) (s : σ) (withStatus : Bool) :
    ∀ (persisted : List MemberClusterModel) (members : List Member)
      (clusters : List (Nat × Cluster)),
    (GetClusterGroupFromModel.loop env s withStatus persisted members clusters).1
      = members ++ persisted.map (fun m =>
          match env.GetClusterByIDOnly s m.ClusterID with
          | .error _ => { ID := m.ClusterID, Status := "cluster not found" }
          | .ok cluster =>
            { ID := cluster.ID, Cloud := cluster.Cloud, Distribution := cluster.Distribution,
              Name := cluster.Name,
              Status :=
                if withStatus = true then
                  match cluster.GetStatus with
                  | .error err => err.Error
                  | .ok clusterStatus => clusterStatus
                else "" }) := by
  intro persisted
  induction persisted with
  | nil => intro members clusters; simp [GetClusterGroupFromModel.loop]
  | cons m rest ih =>
    intro members clusters
    unfold GetClusterGroupFromModel.loop
    cases hg : env.GetClusterByIDOnly s m.ClusterID with
    | error err =>
      simp only []
      rw [ih]
      simp [hg]
    | ok cluster =>
      simp only []
      rw [ih]
      cases withStatus
      · simp [hg]
      · cases hs : cluster.GetStatus <;> simp [hg, hs]

/-- The member loop of GetClusterGroupFromModel leaves a key of the map alone
when no member resolves to a cluster with that id, and otherwise stores under
it a cluster with that id one of the members resolves to. -/
theorem GetClusterGroupFromModel_loop_clusters (env : Env σ) (s : σ) (withStatus : Bool) :
    ∀ (persisted : List MemberClusterModel) (members : List Member)
      (clusters : List (Nat × Cluster)) (k : Nat),
    ((∀ m ∈ persisted, ∀ c, env.GetClusterByIDOnly s m.ClusterID = .ok c → c.ID ≠ k) →
      (GetClusterGroupFromModel.loop env s withStatus persisted members clusters).2.lookup k
        = clusters.lookup k) ∧
    ((∃ m ∈ persisted, ∃ c, env.GetClusterByIDOnly s m.ClusterID = .ok c ∧ c.ID = k) →
      ∃ m ∈ persisted, ∃ c, env.GetClusterByIDOnly s m.ClusterID = .ok c ∧ c.ID = k ∧
        (GetClusterGroupFromModel.loop env s withStatus persisted members clusters).2.lookup k
          = some c) := by
  intro persisted
  induction persisted with
  | nil =>
    intro members clusters k
    refine ⟨fun _ => rfl, ?_⟩
    rintro ⟨m, hm, _⟩
    cases hm
  | cons m rest ih =>
    intro members clusters k
    unfold GetClusterGroupFromModel.loop
    cases hg : env.GetClusterByIDOnly s m.ClusterID with
    | error err =>
      simp only []
      refine ⟨fun hnone => (ih _ _ k).1 (fun m2 hm2 => hnone m2 (List.mem_cons_of_mem _ hm2)),
        ?_⟩
      rintro ⟨m2, hm2, c, hc, hk⟩
      rcases List.mem_cons.mp hm2 with h | h
      · subst h
        rw [hg] at hc
        cases hc
      · obtain ⟨m3, hm3, c3, hc3, hk3, hl3⟩ := (ih _ clusters k).2 ⟨m2, h, c, hc, hk⟩
        exact ⟨m3, List.mem_cons_of_mem _ hm3, c3, hc3, hk3, hl3⟩
    | ok cluster =>
      simp only []
      refine ⟨?_, ?_⟩
      · intro hnone
        have hne : k ≠ cluster.ID := fun h => hnone m (List.mem_cons_self _ _) cluster hg h.symm
        rw [(ih _ _ k).1 (fun m2 hm2 => hnone m2 (List.mem_cons_of_mem _ hm2))]
        exact GoMap.lookup_set_ne clusters cluster.ID k cluster hne
      · rintro ⟨m2, hm2, c, hc, hk⟩
        by_cases hrest : ∃ m3 ∈ rest, ∃ c3, env.GetClusterByIDOnly s m3.ClusterID = .ok c3 ∧
            c3.ID = k
        · obtain ⟨m3, hm3, c3, hc3, hk3, hl3⟩ := (ih _ _ k).2 hrest
          exact ⟨m3, List.mem_cons_of_mem _ hm3, c3, hc3, hk3, hl3⟩
        · have hhead : cluster.ID = k := by
            rcases List.mem_cons.mp hm2 with h | h
            · subst h
              rw [hg] at hc
              cases hc
              exact hk
            · exact absurd ⟨m2, h, c, hc, hk⟩ hrest
          refine ⟨m, List.mem_cons_self _ _, cluster, hg, hhead, ?_⟩
          rw [(ih _ _ k).1 (fun m3 hm3 c3 hc3 hk3 => hrest ⟨m3, hm3, c3, hc3, hk3⟩)]
          rw [← hhead]
          exact GoMap.lookup_set_self clusters cluster.ID cluster

/-- The simulated cluster getter returns a cluster under the id it was asked
for. -/
theorem Sim.getter_returns_requested_id (clusters : List Cluster)
    (deployments : List ClusterGroupDeploymentModel) (t : Sim.Tiller) (id : Nat) (c : Cluster)
    (h : (Sim.env clusters deployments).GetClusterByIDOnly t id = .ok c) : c.ID = id := by
  simp only [Sim.env] at h
  cases hf : clusters.find? (fun cluster => cluster.ID = id) with
  | none =>
    rw [hf] at h
    cases h
  | some found =>
    rw [hf] at h
    cases h
    simpa using List.find?_some hf

/-- C23: for every persisted group model, the projection built by
GetClusterGroupFromModel has in `Members` one entry per persisted member, in
persisted order: for a member that does not resolve, its id with status
`cluster not found`; for a member that resolves, the id, cloud, distribution
and name of the cluster, and with `withStatus` the status of the cluster or, if
reading the status fails, the text of that error.  Every entry of `Clusters` is
a cluster a persisted member resolves to, under the cluster's id, and every
cluster a member resolves to has an entry under its id.  When the getter returns
clusters under the id asked for, a member that does not resolve has no entry in
`Clusters` and a member that resolves has its cluster there under the member's
id. -/
theorem GetClusterGroupFromModel_members_and_clusters (env : Env σ) (s : σ)
    (cg : ClusterGroupModel) (withStatus : Bool) :
    (GetClusterGroupFromModel env s cg withStatus).Members
      = cg.Members.map (fun m =>
          match env.GetClusterByIDOnly s m.ClusterID with
          | .error _ => { ID := m.ClusterID, Status := "cluster not found" }
          | .ok cluster =>
            { ID := cluster.ID, Cloud := cluster.Cloud, Distribution := cluster.Distribution,
              Name := cluster.Name,
              Status :=
                if withStatus = true then
                  match cluster.GetStatus with
                  | .error err => err.Error
                  | .ok clusterStatus => clusterStatus
                else "" }) ∧
    (∀ k c, (GetClusterGroupFromModel env s cg withStatus).Clusters.lookup k = some c →
      ∃ m ∈ cg.Members, env.GetClusterByIDOnly s m.ClusterID = .ok c ∧ c.ID = k) ∧
    (∀ m ∈ cg.Members, ∀ c, env.GetClusterByIDOnly s m.ClusterID = .ok c →
      ∃ c2, (GetClusterGroupFromModel env s cg withStatus).Clusters.lookup c.ID = some c2 ∧
        c2.ID = c.ID) ∧
    ((∀ id c, env.GetClusterByIDOnly s id = .ok c → c.ID = id) →
      (∀ m ∈ cg.Members, ∀ err, env.GetClusterByIDOnly s m.ClusterID = .error err →
        (GetClusterGroupFromModel env s cg withStatus).Clusters.lookup m.ClusterID = none) ∧
      (∀ m ∈ cg.Members, ∀ c, env.GetClusterByIDOnly s m.ClusterID = .ok c →
        (GetClusterGroupFromModel env s cg withStatus).Clusters.lookup m.ClusterID
          = some c)) := by
  have hM : (GetClusterGroupFromModel env s cg withStatus).Members
      = (GetClusterGroupFromModel.loop env s withStatus cg.Members [] []).1 := rfl
  have hC : (GetClusterGroupFromModel env s cg withStatus).Clusters
      = (GetClusterGroupFromModel.loop env s withStatus cg.Members [] []).2 := rfl
  have hloop := GetClusterGroupFromModel_loop_clusters env s withStatus cg.Members [] []
  have hfrom : ∀ k c, (GetClusterGroupFromModel env s cg withStatus).Clusters.lookup k = some c →
      ∃ m ∈ cg.Members, env.GetClusterByIDOnly s m.ClusterID = .ok c ∧ c.ID = k := by
    intro k c hl
    rw [hC] at hl
    by_cases hex : ∃ m ∈ cg.Members, ∃ c, env.GetClusterByIDOnly s m.ClusterID = .ok c ∧ c.ID = k
    · obtain ⟨m, hm, c3, hc3, hk3, hl3⟩ := (hloop k).2 hex
      rw [hl3] at hl
      cases hl
      exact ⟨m, hm, hc3, hk3⟩
    · rw [(hloop k).1 (fun m hm c3 hc3 hk3 => hex ⟨m, hm, c3, hc3, hk3⟩)] at hl
      cases hl
  refine ⟨?_, hfrom, ?_, ?_⟩
  · rw [hM, GetClusterGroupFromModel_loop_members]
    rfl
  · intro m hm c hc
    obtain ⟨m3, _, c3, _, hk3, hl3⟩ := (hloop c.ID).2 ⟨m, hm, c, hc, rfl⟩
    exact ⟨c3, by rw [hC]; exact hl3, hk3⟩
  · intro hcontract
    refine ⟨?_, ?_⟩
    · intro m hm err he
      cases hl : (GetClusterGroupFromModel env s cg withStatus).Clusters.lookup m.ClusterID with
      | none => rfl
      | some c =>
        obtain ⟨m2, _, hc2, hk2⟩ := hfrom _ _ hl
        have hid : m2.ClusterID = m.ClusterID := by
          rw [← hcontract _ _ hc2]
          exact hk2
        rw [hid, he] at hc2
        cases hc2
    · intro m hm c hc
      obtain ⟨m3, _, c3, hc3, hk3, hl3⟩ := (hloop c.ID).2 ⟨m, hm, c, hc, rfl⟩
      have hid : m3.ClusterID = m.ClusterID := by
        rw [← hcontract _ _ hc3, hk3]
        exact hcontract _ _ hc
      rw [hid, hc] at hc3
      cases hc3
      rw [hC, ← hcontract _ _ hc]
      exact hl3

/-- Witness of C23: group 1 with member records for clusters 10, 99 and 15;
cluster 99 does not resolve and the status of cluster 15 cannot be read. -/
theorem GetClusterGroupFromModel_members_and_clusters_witness :
    (∀ id c, (Sim.env (Sim.cluster15 :: Sim.clusters) []).GetClusterByIDOnly Sim.world0.state id
      = .ok c → c.ID = id) ∧
    (GetClusterGroupFromModel (Sim.env (Sim.cluster15 :: Sim.clusters) []) Sim.world0.state
        Sim.group1ModelWithGhost true).Members
      = [{ ID := 10, Name := "c10" }, { ID := 99, Status := "cluster not found" },
         { ID := 15, Name := "c15", Status := "status unavailable" }] ∧
    (GetClusterGroupFromModel (Sim.env (Sim.cluster15 :: Sim.clusters) []) Sim.world0.state
        Sim.group1ModelWithGhost true).Clusters.lookup 99 = none ∧
    (GetClusterGroupFromModel (Sim.env (Sim.cluster15 :: Sim.clusters) []) Sim.world0.state
        Sim.group1ModelWithGhost true).Clusters.lookup 15 = some Sim.cluster15 :=
  ⟨Sim.getter_returns_requested_id _ _ _,
    by decide,
    ((GetClusterGroupFromModel_members_and_clusters
        (Sim.env (Sim.cluster15 :: Sim.clusters) []) Sim.world0.state Sim.group1ModelWithGhost
        true).2.2.2 (Sim.getter_returns_requested_id _ _ _)).1
      { ID := 2, ClusterGroupID := 1, ClusterID := 99 } (by decide)
      (.foreign "cluster not found") (by decide),
    ((GetClusterGroupFromModel_members_and_clusters
        (Sim.env (Sim.cluster15 :: Sim.clusters) []) Sim.world0.state Sim.group1ModelWithGhost
        true).2.2.2 (Sim.getter_returns_requested_id _ _ _)).2
      { ID := 3, ClusterGroupID := 1, ClusterID := 15 } (by decide) Sim.cluster15 (by decide)⟩

end Projection

end Pipeline
